import Mathlib

/-!
# Spectrum analyzer controller (`app/spectrum.c`)

A shallow embedding of the scan / acquisition controller and of the
frequency-input state machine of `app/spectrum.c`.

Conventions of the embedding.

* The process-wide globals of the C file are the fields of one record,
  `Spectrum`, which every operation receives and returns.
* Machine integers are natural numbers; every store into a `uint8_t`,
  `uint16_t` or `uint32_t` object reduces modulo `2^8`, `2^16`, `2^32`.
  `int32_t stillOffset` is an `Int`.
* The two byte arrays are lists (`rssiHistory` has 128 entries,
  `freqInputArr` has 10).  A read outside the list yields the default value
  and a write outside the list is dropped; theorems that depend on an index
  being in range say so.
* Hardware is an explicit port: every driver call is appended to the trace
  `hwTrace`, and every value the hardware returns (register reads, RSSI
  samples) is taken from the stream `hwIn`, in call order.
-/

namespace SpectrumApp

/-! ## Constants and enumerations -/

def U8 : Nat := 256
def U16 : Nat := 65536
def U32 : Nat := 4294967296

def F_MIN : Nat := 1800000
def F_MAX : Nat := 130000000

def F_BFM_MIN : Nat := 7600000
def F_BFM_MAX : Nat := 10800000

/-- Modelled from the spec: the enumeration `KEY_Code_t` is declared in
`driver/keyboard.h`, which is not among the sources.  The constructors are
listed in the order of that declaration, digits first, so that the numeric
code of `KEY_0 .. KEY_9` is `0 .. 9`, as `UpdateFreqInput` relies on
(`'0' + digitKey`, `freqInputArr[i] * base`). -/
inductive KEY_Code_t
  | KEY_0 | KEY_1 | KEY_2 | KEY_3 | KEY_4 | KEY_5 | KEY_6 | KEY_7 | KEY_8 | KEY_9
  | KEY_MENU | KEY_UP | KEY_DOWN | KEY_EXIT | KEY_STAR | KEY_F | KEY_PTT
  | KEY_SIDE2 | KEY_SIDE1 | KEY_INVALID
  deriving DecidableEq, Repr, Inhabited

open KEY_Code_t

/-- Numeric value of a key code (the integer the C enumerator stands for). -/
def KEY_Code_t.toNat : KEY_Code_t → Nat
  | KEY_0 => 0 | KEY_1 => 1 | KEY_2 => 2 | KEY_3 => 3 | KEY_4 => 4
  | KEY_5 => 5 | KEY_6 => 6 | KEY_7 => 7 | KEY_8 => 8 | KEY_9 => 9
  | KEY_MENU => 10 | KEY_UP => 11 | KEY_DOWN => 12 | KEY_EXIT => 13
  | KEY_STAR => 14 | KEY_F => 15 | KEY_PTT => 16 | KEY_SIDE2 => 17
  | KEY_SIDE1 => 18 | KEY_INVALID => 19

/-- Top-level mode, `enum State`. -/
inductive Mode
  | SPECTRUM | FREQ_INPUT
  deriving DecidableEq, Repr, Inhabited

/-- Values of `enum StepsCount`. -/
def STEPS_128 : Nat := 0
def STEPS_64 : Nat := 1
def STEPS_32 : Nat := 2
def STEPS_16 : Nat := 3

/-- Values of `ModulationType`. -/
def MOD_FM : Nat := 0
def MOD_AM : Nat := 1
def MOD_USB : Nat := 2

/-- Values of `enum MenuState`. -/
def MENU_OFF : Nat := 0
def MENU_AFDAC : Nat := 1
def MENU_PGA : Nat := 2
def MENU_MIXER : Nat := 3
def MENU_LNA : Nat := 4
def MENU_LNA_SHORT : Nat := 5
def MENU_IF : Nat := 6
def MENU_RF : Nat := 7
def MENU_RFW : Nat := 8

/-- Values of `enum ScanStep` (indices into `scanStepValues`). -/
def S_STEP_0_01kHz : Nat := 0
def S_STEP_0_1kHz : Nat := 1
def S_STEP_0_5kHz : Nat := 2
def S_STEP_1_0kHz : Nat := 3
def S_STEP_2_5kHz : Nat := 4
def S_STEP_5_0kHz : Nat := 5
def S_STEP_6_25kHz : Nat := 6
def S_STEP_8_33kHz : Nat := 7
def S_STEP_10_0kHz : Nat := 8
def S_STEP_12_5kHz : Nat := 9
def S_STEP_25_0kHz : Nat := 10
def S_STEP_100_0kHz : Nat := 11

def scanStepValues : List Nat :=
  [1, 10, 50, 100, 250, 500, 625, 833, 1000, 1250, 2500, 10000]

/-- Modelled from the spec: `BK4819_FilterBandwidth_t` is declared in
`driver/bk4819.h`, which is not among the sources.  The order WIDE, NARROW,
NARROWER is the one `bwOptions = {"25k", "12.5k", "6.25k"}` is indexed by. -/
def BK4819_FILTER_BW_WIDE : Nat := 0
def BK4819_FILTER_BW_NARROW : Nat := 1
def BK4819_FILTER_BW_NARROWER : Nat := 2

def BK4819_REG_30 : Nat := 0x30
def BK4819_REG_37 : Nat := 0x37
def BK4819_REG_47 : Nat := 0x47

/-- Pins the controller drives. -/
inductive Pin
  | GPIOC_PIN_AUDIO_PATH | GPIOB_PIN_BACKLIGHT | BK4819_GPIO0_PIN28_GREEN
  deriving DecidableEq, Repr, Inhabited

/-- One call into a driver.  Calls that return a value record it. -/
inductive HwCall
  | BK4819_ReadRegister (reg value : Nat)
  | BK4819_WriteRegister (reg value : Nat)
  | BK4819_SetFilterBandwidth (bw : Nat)
  | BK4819_PickRXFilterPathBasedOnFrequency (f : Nat)
  | BK4819_SetFrequency (f : Nat)
  | BK4819_GetRSSI (value : Nat)
  | BK4819_ToggleGpioOut (pin : Pin) (enable : Bool)
  | BK1080_Init (f : Nat) (enable : Bool)
  | BK1080_SetFrequency (f : Nat)
  | BK1080_Mute (mute : Bool)
  | GPIO_SetBit (pin : Pin)
  | GPIO_ClearBit (pin : Pin)
  | SYSTICK_DelayUs (us : Nat)
  | SYSTEM_DelayMs (ms : Nat)
  deriving DecidableEq, Repr, Inhabited

/-! ## Data model -/

/-- The record `struct PeakInfo`. -/
structure PeakInfo where
  t : Nat
  rssi : Nat
  i : Nat
  f : Nat
  deriving DecidableEq, Repr, Inhabited

/-- The record `struct SpectrumSettings`. -/
structure SpectrumSettings where
  stepsCount : Nat
  scanStepIndex : Nat
  frequencyChangeStep : Nat
  scanDelay : Nat
  rssiTriggerLevel : Nat
  isStillMode : Bool
  stillOffset : Int
  backlightState : Bool
  bw : Nat
  listenBw : Nat
  modulationType : Nat
  deriving DecidableEq, Repr, Inhabited

/-- The record `struct ScanInfo`. -/
structure ScanInfo where
  rssi : Nat
  rssiMin : Nat
  rssiMax : Nat
  i : Nat
  iPeak : Nat
  f : Nat
  fPeak : Nat
  scanStep : Nat
  measurementsCount : Nat
  deriving DecidableEq, Repr, Inhabited

/-- The register values `APP_RunSpectrum` saves on entry (`R30 .. R7E`). -/
structure SavedRegisters where
  R30 : Nat
  R37 : Nat
  R3D : Nat
  R43 : Nat
  R47 : Nat
  R48 : Nat
  R4B : Nat
  R7E : Nat
  deriving DecidableEq, Repr, Inhabited

/-- All globals of `spectrum.c`, plus the hardware port. -/
structure Spectrum where
  currentState : Mode
  peak : PeakInfo
  settings : SpectrumSettings
  rssiHistory : List Nat
  scanInfo : ScanInfo
  listenT : Nat
  currentFreq : Nat
  tempFreq : Nat
  freqInputIndex : Nat
  freqInputArr : List KEY_Code_t
  freqInputString : List Char
  freqInputDotIndex : Nat
  isInitialized : Bool
  isListening : Bool
  redrawScreen : Bool
  fMeasure : Nat
  audioState : Bool
  menuState : Nat
  hwTrace : List HwCall
  hwIn : Nat → Nat
  hwReads : Nat
  saved : SavedRegisters

/-- The initial value of `settings`. -/
def initialSettings : SpectrumSettings :=
  { stepsCount := STEPS_64
    scanStepIndex := S_STEP_25_0kHz
    frequencyChangeStep := 80000
    scanDelay := 800
    rssiTriggerLevel := 0
    isStillMode := false
    stillOffset := 0
    backlightState := true
    bw := BK4819_FILTER_BW_WIDE
    listenBw := BK4819_FILTER_BW_WIDE
    modulationType := MOD_FM }

/-- The globals as the C initialisers leave them, for a given hardware input
stream and a given `currentFreq`. -/
def initialSpectrum (hwIn : Nat → Nat) (currentFreq : Nat) : Spectrum :=
  { currentState := Mode.SPECTRUM
    peak := ⟨0, 0, 0, 0⟩
    settings := initialSettings
    rssiHistory := List.replicate 128 0
    scanInfo := ⟨0, 0, 0, 0, 0, 0, 0, 0, 0⟩
    listenT := 0
    currentFreq := currentFreq
    tempFreq := 0
    freqInputIndex := 0
    freqInputArr := List.replicate 10 KEY_0
    freqInputString := List.replicate 10 '-'
    freqInputDotIndex := 0
    isInitialized := false
    isListening := false
    redrawScreen := true
    fMeasure := 0
    audioState := true
    menuState := 0
    hwTrace := []
    hwIn := hwIn
    hwReads := 0
    saved := ⟨0, 0, 0, 0, 0, 0, 0, 0⟩ }

/-! ## Hardware port -/

/-- A driver call that returns nothing. -/
def hwCall (c : HwCall) (s : Spectrum) : Spectrum :=
  { s with hwTrace := s.hwTrace ++ [c] }

/-- The next value the hardware returns. -/
def hwNext (s : Spectrum) : Nat := s.hwIn s.hwReads

/-- `BK4819_ReadRegister(reg)`: a 16-bit value from the hardware. -/
def BK4819_ReadRegister (reg : Nat) (s : Spectrum) : Nat × Spectrum :=
  let v := hwNext s % U16
  (v, { s with hwTrace := s.hwTrace ++ [HwCall.BK4819_ReadRegister reg v]
               hwReads := s.hwReads + 1 })

/-- `BK4819_GetRSSI()`: the raw reading from the hardware. -/
def BK4819_GetRSSI (s : Spectrum) : Nat × Spectrum :=
  let v := hwNext s
  (v, { s with hwTrace := s.hwTrace ++ [HwCall.BK4819_GetRSSI v]
               hwReads := s.hwReads + 1 })

def BK4819_WriteRegister (reg value : Nat) (s : Spectrum) : Spectrum :=
  hwCall (HwCall.BK4819_WriteRegister reg (value % U16)) s

/-! ## Utility functions -/

def clamp (v min max : Int) : Int :=
  if v ≤ min then min else (if v ≥ max then max else v)

def IsBroadcastFM (f : Nat) : Bool :=
  decide (f ≥ F_BFM_MIN) && decide (f ≤ F_BFM_MAX)

/-- Clears bit `b` of `v`: the C expression `v & ~(1 << b)`. -/
def clearBit (v b : Nat) : Nat := v - (v &&& (1 <<< b))


/-! ## Register menu -/

/-- `GetRegMenuValue(st)`: the field of the register the menu entry edits. -/
def GetRegMenuValue (st : Nat) (s : Spectrum) : Nat × Spectrum :=
  if st = MENU_AFDAC then
    let (v, s) := BK4819_ReadRegister 0x48 s
    (v &&& 0b1111, s)
  else if st = MENU_PGA then
    let (v, s) := BK4819_ReadRegister 0x13 s
    (v &&& 0b111, s)
  else if st = MENU_MIXER then
    let (v, s) := BK4819_ReadRegister 0x13 s
    ((v >>> 3) &&& 0b11, s)
  else if st = MENU_LNA then
    let (v, s) := BK4819_ReadRegister 0x13 s
    ((v >>> 5) &&& 0b111, s)
  else if st = MENU_LNA_SHORT then
    let (v, s) := BK4819_ReadRegister 0x13 s
    ((v >>> 8) &&& 0b11, s)
  else if st = MENU_IF then
    BK4819_ReadRegister 0x3D s
  else if st = MENU_RF then
    let (v, s) := BK4819_ReadRegister 0x43 s
    ((v >>> 12) &&& 0b111, s)
  else if st = MENU_RFW then
    let (v, s) := BK4819_ReadRegister 0x43 s
    ((v >>> 9) &&& 0b111, s)
  else (0, s)

/-- The `switch` of `SetRegMenuValue`: register number, `vmax` and bit
offset of a menu entry; `none` is the `default: return`. -/
def regMenuField (st : Nat) : Option (Nat × Nat × Nat) :=
  if st = MENU_AFDAC then some (0x48, 0b1111, 0)
  else if st = MENU_PGA then some (0x13, 0b111, 0)
  else if st = MENU_MIXER then some (0x13, 0b11, 3)
  else if st = MENU_LNA then some (0x13, 0b111, 5)
  else if st = MENU_LNA_SHORT then some (0x13, 0b11, 8)
  else if st = MENU_IF then some (0x3D, 0xFFFF, 0)
  else if st = MENU_RF then some (0x43, 0b111, 12)
  else if st = MENU_RFW then some (0x43, 0b111, 9)
  else none

/-- `SetRegMenuValue(st, add)`: the field is read, stepped within
`0 .. vmax` and written back. -/
def SetRegMenuValue (st : Nat) (add : Bool) (s : Spectrum) : Spectrum :=
  let (v, s) := GetRegMenuValue st s
  match regMenuField st with
  | none => s
  | some (regnum, vmax, offset) =>
    let (reg, s) := BK4819_ReadRegister regnum s
    let v := if add ∧ v < vmax then (v + 1) % U16 else v
    let v := if ¬ add ∧ v > 0 then (v + U16 - 1) % U16 else v
    let reg := (reg - (reg &&& (vmax <<< offset))) % U16
    BK4819_WriteRegister regnum (reg ||| (v <<< offset)) s

/-! ## Radio functions -/

/-- `ToggleAFBit(on)`: read-modify-write of bit 8 of register 0x47. -/
def ToggleAFBit (enable : Bool) (s : Spectrum) : Spectrum :=
  let (reg, s) := BK4819_ReadRegister BK4819_REG_47 s
  let reg := clearBit reg 8
  let reg := if enable then reg ||| (1 <<< 8) else reg
  BK4819_WriteRegister BK4819_REG_47 reg s

/-- `SetModulation(type)`.  In the AM branch the value computed in the local
`r7e` is not used: the saved `R7E` is written. -/
def SetModulation (type : Nat) (s : Spectrum) : Spectrum :=
  let (reg, s) := BK4819_ReadRegister BK4819_REG_47 s
  let reg := (reg - (reg &&& (0b111 <<< 8))) % U16
  let reg := reg ||| (0b1 <<< 8)
  let reg :=
    if type = MOD_FM then reg ||| (0b1 <<< 8)
    else if type = MOD_AM then reg ||| (0b111 <<< 8)
    else if type = MOD_USB then reg ||| (0b101 <<< 8)
    else reg
  let s :=
    if type = MOD_USB then
      let s := BK4819_WriteRegister 0x3D 0b010101101000101 s
      let s := BK4819_WriteRegister BK4819_REG_37 0x160F s
      let s := BK4819_WriteRegister 0x48 0b0000001110101000 s
      let s := BK4819_WriteRegister 0x4B (s.saved.R4B ||| (1 <<< 5)) s
      BK4819_WriteRegister 0x7E s.saved.R7E s
    else if type = MOD_AM then
      let (_, s) := BK4819_ReadRegister 0x7E s
      BK4819_WriteRegister 0x7E s.saved.R7E s
    else
      let s := BK4819_WriteRegister 0x3D s.saved.R3D s
      let s := BK4819_WriteRegister BK4819_REG_37 s.saved.R37 s
      let s := BK4819_WriteRegister 0x48 s.saved.R48 s
      let s := BK4819_WriteRegister 0x4B s.saved.R4B s
      BK4819_WriteRegister 0x7E s.saved.R7E s
  BK4819_WriteRegister BK4819_REG_47 reg s

/-- `ToggleAFDAC(on)`: read-modify-write of bit 9 of register 0x30. -/
def ToggleAFDAC (enable : Bool) (s : Spectrum) : Spectrum :=
  let (reg, s) := BK4819_ReadRegister BK4819_REG_30 s
  let reg := clearBit reg 9
  let reg := if enable then reg ||| (1 <<< 9) else reg
  BK4819_WriteRegister BK4819_REG_30 reg s

/-- `ResetRSSI()`: bit 0 of register 0x30 is cleared, then set. -/
def ResetRSSI (s : Spectrum) : Spectrum :=
  let (reg, s) := BK4819_ReadRegister BK4819_REG_30 s
  let reg := clearBit reg 0
  let s := BK4819_WriteRegister BK4819_REG_30 reg s
  let reg := reg ||| 1
  BK4819_WriteRegister BK4819_REG_30 reg s

/-- The channel value `SetF` hands to the BK1080 driver.  The C expression
`fMeasure * 1e-4` is evaluated in floating point and truncated to 16 bits;
the trace records the integer quotient. -/
def bk1080Channel (f : Nat) : Nat := f / 10000 % U16

/-- `SetF(f)`: retunes unless `fMeasure` already equals `f`. -/
def SetF (f : Nat) (s : Spectrum) : Spectrum :=
  if s.fMeasure = f then s
  else
    let s := { s with fMeasure := f }
    if IsBroadcastFM s.fMeasure then
      let c := bk1080Channel s.fMeasure
      let s := hwCall (HwCall.BK1080_Init c true) s
      hwCall (HwCall.BK1080_SetFrequency c) s
    else
      let s := hwCall (HwCall.BK4819_PickRXFilterPathBasedOnFrequency s.fMeasure) s
      let s := hwCall (HwCall.BK4819_SetFrequency s.fMeasure) s
      let (reg, s) := BK4819_ReadRegister BK4819_REG_30 s
      let s := BK4819_WriteRegister BK4819_REG_30 0 s
      BK4819_WriteRegister BK4819_REG_30 reg s

/-- `SetBW(bw)`: returns when `settings.bw == bw`; otherwise the argument is
overwritten (`bw = settings.bw`) and that value goes to the driver. -/
def SetBW (bw : Nat) (s : Spectrum) : Spectrum :=
  if s.settings.bw = bw then s
  else hwCall (HwCall.BK4819_SetFilterBandwidth s.settings.bw) s

/-! ## Spectrum related -/

def IsPeakOverLevel (s : Spectrum) : Bool :=
  decide (s.peak.rssi ≥ s.settings.rssiTriggerLevel)

/-- `ResetRSSIHistory()`: the loop `for i in 0..127: rssiHistory[i] = 0`. -/
def ResetRSSIHistory (s : Spectrum) : Spectrum :=
  { s with rssiHistory := (List.range 128).foldl (fun h i => h.set i 0) s.rssiHistory }

def ResetPeak (s : Spectrum) : Spectrum :=
  { s with peak := { s.peak with rssi := 0, t := 0, f := 0 } }

def IsCenterMode (s : Spectrum) : Bool :=
  decide (s.settings.scanStepIndex < S_STEP_2_5kHz)

/-- `GetStepsCount()`: `128 >> settings.stepsCount`, returned as `uint8_t`. -/
def GetStepsCount (s : Spectrum) : Nat :=
  (128 >>> s.settings.stepsCount) % U8

/-- `GetScanStep()`: `scanStepValues[settings.scanStepIndex]`, a `uint16_t`. -/
def GetScanStep (s : Spectrum) : Nat :=
  scanStepValues.getD s.settings.scanStepIndex 0 % U16

/-- `GetBW()`: the product, returned as `uint32_t`. -/
def GetBW (s : Spectrum) : Nat :=
  (GetStepsCount s * GetScanStep s) % U32

/-- `GetFStart()`: the subtraction is a `uint32_t` subtraction. -/
def GetFStart (s : Spectrum) : Nat :=
  if IsCenterMode s then (s.currentFreq + U32 - (GetBW s >>> 1)) % U32
  else s.currentFreq

def GetFEnd (s : Spectrum) : Nat :=
  (s.currentFreq + GetBW s) % U32

/-- `GetPeakF()`: `peak.f + settings.stillOffset` in `uint32_t` arithmetic. -/
def GetPeakF (s : Spectrum) : Nat :=
  (((s.peak.f : Int) + s.settings.stillOffset) % (U32 : Int)).toNat

/-- `TuneToPeak()`.  The quotient `(f - GetFStart()) / GetScanStep()` is a
`uint32_t` quotient, stored into the `uint8_t` `peak.i` and from there into
`scanInfo.i`. -/
def TuneToPeak (s : Spectrum) : Spectrum :=
  let f := GetPeakF s
  let s := { s with scanInfo := { s.scanInfo with f := f } }
  let s := SetF f s
  let q := ((f + U32 - GetFStart s) % U32 / GetScanStep s) % U8
  let s := { s with peak := { s.peak with i := q } }
  { s with scanInfo := { s.scanInfo with i := q } }

def DeInitSpectrum (s : Spectrum) : Spectrum :=
  let s := SetF s.currentFreq s
  let s := BK4819_WriteRegister 0x30 s.saved.R30 s
  let s := BK4819_WriteRegister 0x37 s.saved.R37 s
  let s := BK4819_WriteRegister 0x3D s.saved.R3D s
  let s := BK4819_WriteRegister 0x43 s.saved.R43 s
  let s := BK4819_WriteRegister 0x47 s.saved.R47 s
  let s := BK4819_WriteRegister 0x48 s.saved.R48 s
  let s := BK4819_WriteRegister 0x4B s.saved.R4B s
  let s := BK4819_WriteRegister 0x7E s.saved.R7E s
  { s with isInitialized := false }

def GetBWIndex (s : Spectrum) : Nat :=
  let step := GetScanStep s
  if step < 1250 then BK4819_FILTER_BW_NARROWER
  else if step < 2500 then BK4819_FILTER_BW_NARROW
  else BK4819_FILTER_BW_WIDE

/-- `GetRssi()`: the raw reading clamped to `0..255`. -/
def GetRssi (s : Spectrum) : Nat × Spectrum :=
  let s := ResetRSSI s
  let s := hwCall (HwCall.SYSTICK_DelayUs s.settings.scanDelay) s
  let (r, s) := BK4819_GetRSSI s
  ((clamp (r : Int) 0 255).toNat % U8, s)

def ListenBK1080 (s : Spectrum) : Spectrum :=
  hwCall (HwCall.BK1080_Mute false) s

def ListenBK4819 (s : Spectrum) : Spectrum :=
  let s := SetBW s.settings.listenBw s
  let s := ToggleAFDAC true s
  ToggleAFBit true s

def ToggleAudio (enable : Bool) (s : Spectrum) : Spectrum :=
  if enable = s.audioState then s
  else
    let s := { s with audioState := enable }
    if enable then hwCall (HwCall.GPIO_SetBit Pin.GPIOC_PIN_AUDIO_PATH) s
    else hwCall (HwCall.GPIO_ClearBit Pin.GPIOC_PIN_AUDIO_PATH) s

def ToggleRX (enable : Bool) (s : Spectrum) : Spectrum :=
  if s.isListening = enable then s
  else
    let s := { s with isListening := enable }
    let s := hwCall (HwCall.BK4819_ToggleGpioOut Pin.BK4819_GPIO0_PIN28_GREEN enable) s
    let s := ToggleAudio enable s
    if enable then
      if IsBroadcastFM s.peak.f then ListenBK1080 s
      else
        let s := SetBW s.settings.listenBw s
        ListenBK4819 s
    else
      let s := ToggleAFDAC false s
      let s := ToggleAFBit false s
      let s := hwCall (HwCall.BK1080_Mute true) s
      hwCall (HwCall.BK1080_Init 0 false) s

/-! ## Scan info -/

def ResetScanStats (s : Spectrum) : Spectrum :=
  { s with scanInfo := { s.scanInfo with rssi := 0, rssiMax := 0, iPeak := 0, fPeak := 0 } }

def InitScan (s : Spectrum) : Spectrum :=
  if s.settings.isStillMode then s
  else
    let s := ResetScanStats s
    let s := { s with scanInfo := { s.scanInfo with i := 0 } }
    let s := { s with scanInfo := { s.scanInfo with f := GetFStart s } }
    let s := { s with scanInfo := { s.scanInfo with scanStep := GetScanStep s } }
    { s with scanInfo := { s.scanInfo with measurementsCount := GetStepsCount s } }

def ResetBlacklist (s : Spectrum) : Spectrum :=
  ResetRSSIHistory s

def NewBandOrLevel (s : Spectrum) : Spectrum :=
  if s.settings.isStillMode then s
  else
    let s := ResetPeak s
    let s := ResetBlacklist s
    let s := InitScan s
    let s := ToggleRX false s
    let s := { s with scanInfo := { s.scanInfo with rssiMin := 255 } }
    { s with settings := { s.settings with rssiTriggerLevel := 255 } }

def UpdateScanInfo (s : Spectrum) : Spectrum :=
  let s :=
    if s.scanInfo.rssi > s.scanInfo.rssiMax then
      { s with scanInfo := { s.scanInfo with
          rssiMax := s.scanInfo.rssi, fPeak := s.scanInfo.f, iPeak := s.scanInfo.i } }
    else s
  if s.scanInfo.rssi < s.scanInfo.rssiMin then
    { s with scanInfo := { s.scanInfo with rssiMin := s.scanInfo.rssi } }
  else s

def UpdatePeakInfo (s : Spectrum) : Spectrum :=
  if s.peak.f ≠ 0 ∧ s.peak.t < 1024 ∧ s.peak.rssi ≥ s.scanInfo.rssiMax then s
  else
    let s := { s with peak := { s.peak with t := 0 } }
    let s := { s with peak := { s.peak with rssi := s.scanInfo.rssiMax } }
    let s := { s with peak := { s.peak with f := s.scanInfo.fPeak } }
    let s := { s with peak := { s.peak with i := s.scanInfo.iPeak } }
    if s.settings.rssiTriggerLevel = 255 then
      { s with settings := { s.settings with rssiTriggerLevel := s.scanInfo.rssiMax } }
    else s

/-- `Measure()`: `rssiHistory[scanInfo.i] = scanInfo.rssi = GetRssi()`.  For
`scanInfo.i >= 128` the source stores outside the 128-entry array; the list
drops that store. -/
def Measure (s : Spectrum) : Spectrum :=
  let (r, s) := GetRssi s
  let s := { s with scanInfo := { s.scanInfo with rssi := r } }
  { s with rssiHistory := s.rssiHistory.set s.scanInfo.i s.scanInfo.rssi }

/-! ## Update things by keypress -/

/-- The value of a 32-bit pattern read as `int` / `long int`. -/
def toInt32 (v : Int) : Int :=
  let u := v % (U32 : Int)
  if u ≥ 2147483648 then u - (U32 : Int) else u

/-- `UpdateRssiTriggerLevel(diff)`: a `uint8_t` addition. -/
def UpdateRssiTriggerLevel (diff : Int) (s : Spectrum) : Spectrum :=
  { s with settings := { s.settings with
      rssiTriggerLevel := (((s.settings.rssiTriggerLevel : Int) + diff) % (U8 : Int)).toNat } }

def UpdateScanStep (diff : Int) (s : Spectrum) : Spectrum :=
  if (diff > 0 ∧ s.settings.scanStepIndex < S_STEP_100_0kHz) ∨
      (diff < 0 ∧ s.settings.scanStepIndex > 0) then
    let s := { s with settings := { s.settings with
      scanStepIndex := ((s.settings.scanStepIndex : Int) + diff).toNat } }
    let s := SetBW (GetBWIndex s) s
    let s := { s with scanInfo := { s.scanInfo with rssiMin := 255 } }
    { s with settings := { s.settings with frequencyChangeStep := GetBW s >>> 1 } }
  else s

/-- `UpdateCurrentFreq(diff)`.  `stillOffset` is an `int32_t`; its
additions are kept exact (an overflow would need millions of key presses). -/
def UpdateCurrentFreq (diff : Int) (s : Spectrum) : Spectrum :=
  if s.settings.isStillMode then
    let offset : Int :=
      if s.settings.modulationType = MOD_FM then 100
      else if s.settings.modulationType = MOD_AM then 50
      else if s.settings.modulationType = MOD_USB then 10
      else 50
    let s := { s with settings := { s.settings with
      stillOffset := s.settings.stillOffset + (if diff > 0 then offset else -offset) } }
    let s := TuneToPeak s
    ResetRSSIHistory s
  else if (diff > 0 ∧ s.currentFreq < F_MAX) ∨ (diff < 0 ∧ s.currentFreq > F_MIN) then
    { s with currentFreq := (((s.currentFreq : Int) + diff) % (U32 : Int)).toNat }
  else s

/-- `UpdateFreqChangeStep(diff)`: the `uint32_t` sum is handed to `clamp`
as an `int`. -/
def UpdateFreqChangeStep (diff : Int) (s : Spectrum) : Spectrum :=
  { s with settings := { s.settings with
      frequencyChangeStep :=
        (clamp (toInt32 ((s.settings.frequencyChangeStep : Int) + diff)) 10000 200000).toNat } }

/-! ## Frequency input -/

/-- `ResetFreqInput()`: clears the candidate and fills the display string. -/
def ResetFreqInput (s : Spectrum) : Spectrum :=
  let s := { s with tempFreq := 0 }
  { s with freqInputString :=
      (List.range 10).foldl (fun str i => str.set i '-') s.freqInputString }

def FreqInput (s : Spectrum) : Spectrum :=
  let s := { s with freqInputIndex := 0 }
  let s := { s with freqInputDotIndex := 0 }
  let s := ResetFreqInput s
  { s with currentState := Mode.FREQ_INPUT }

/-- The character `UpdateFreqInput` shows for position `i`. -/
def freqInputChar (arr : List KEY_Code_t) (index i : Nat) : Char :=
  if i < index then
    let digitKey := arr.getD i KEY_0
    if digitKey.toNat ≤ KEY_9.toNat then Char.ofNat ((48 + digitKey.toNat) % U8) else '.'
  else '-'

/-- The loop `for (int i = dotIndex - 1; i >= 0; --i)` of `UpdateFreqInput`,
as a recursion on `i + 1`; the pair is `(tempFreq, base)`, both `uint32_t`. -/
def intLoop (arr : List KEY_Code_t) : Nat → Nat → Nat → Nat × Nat
  | 0, tempFreq, base => (tempFreq, base)
  | i + 1, tempFreq, base =>
    intLoop arr i ((tempFreq + (arr.getD i KEY_0).toNat * base % U32) % U32) (base * 10 % U32)

/-- The loop `for (int i = dotIndex + 1; i < freqInputIndex; ++i)` of
`UpdateFreqInput`, as a recursion on the number `n` of remaining rounds
(`freqInputIndex - i`); the result is `tempFreq`. -/
def fracLoop (arr : List KEY_Code_t) : Nat → Nat → Nat → Nat → Nat
  | 0, _, tempFreq, _ => tempFreq
  | n + 1, i, tempFreq, base =>
    fracLoop arr n (i + 1) ((tempFreq + (arr.getD i KEY_0).toNat * base % U32) % U32) (base / 10)

/-- The two accumulation loops of `UpdateFreqInput`, started from
`tempFreq = 0`, for the buffer `arr`, `freqInputIndex` and `dotIndex`. -/
def parseFreq (arr : List KEY_Code_t) (index dotIndex : Nat) : Nat :=
  let tempFreq := (intLoop arr dotIndex 0 100000).1
  if dotIndex < index then fracLoop arr (index - (dotIndex + 1)) (dotIndex + 1) tempFreq 10000
  else tempFreq

def UpdateFreqInput (key : KEY_Code_t) (s : Spectrum) : Spectrum :=
  if key ≠ KEY_EXIT ∧ s.freqInputIndex ≥ 10 then s
  else
    let s := if key = KEY_STAR then { s with freqInputDotIndex := s.freqInputIndex } else s
    let s :=
      if key = KEY_EXIT then { s with freqInputIndex := (s.freqInputIndex + U8 - 1) % U8 }
      else
        { s with freqInputArr := s.freqInputArr.set s.freqInputIndex key,
                 freqInputIndex := (s.freqInputIndex + 1) % U8 }
    let s := ResetFreqInput s
    let dotIndex := if s.freqInputDotIndex = 0 then s.freqInputIndex else s.freqInputDotIndex
    let str := (List.range 10).foldl
      (fun str i => str.set i (freqInputChar s.freqInputArr s.freqInputIndex i))
      s.freqInputString
    let s := { s with freqInputString := str }
    { s with tempFreq := parseFreq s.freqInputArr s.freqInputIndex dotIndex }

/-- `Blacklist()`: `rssiHistory[peak.i] = 255`.  `peak.i` is a `uint8_t`; for
`peak.i >= 128` the source stores outside the 128-entry array, which the list
does not describe (the store is dropped here): statements about this store
carry the hypothesis `peak.i < 128`. -/
def Blacklist (s : Spectrum) : Spectrum :=
  { s with rssiHistory := s.rssiHistory.set s.peak.i 255 }

/-! ## Key handling in SPECTRUM mode -/

def OnKeyDown (key : KEY_Code_t) (s : Spectrum) : Spectrum :=
  let s :=
    match key with
    | KEY_1 =>
      if s.settings.scanDelay < 8000 then
        let s := { s with settings := { s.settings with
          scanDelay := (s.settings.scanDelay + 100) % U16 } }
        NewBandOrLevel s
      else s
    | KEY_7 =>
      if s.settings.scanDelay > 400 then
        let s := { s with settings := { s.settings with
          scanDelay := (s.settings.scanDelay + U16 - 100) % U16 } }
        NewBandOrLevel s
      else s
    | KEY_3 =>
      let s := UpdateScanStep 1 s
      NewBandOrLevel s
    | KEY_9 =>
      let s := UpdateScanStep (-1) s
      NewBandOrLevel s
    | KEY_2 => UpdateFreqChangeStep ((GetScanStep s : Int) * 4) s
    | KEY_8 => UpdateFreqChangeStep (-(GetScanStep s : Int) * 4) s
    | KEY_UP =>
      if s.menuState ≠ MENU_OFF then SetRegMenuValue s.menuState true s
      else
        let s := UpdateCurrentFreq (toInt32 (s.settings.frequencyChangeStep : Int)) s
        NewBandOrLevel s
    | KEY_DOWN =>
      if s.menuState ≠ MENU_OFF then SetRegMenuValue s.menuState false s
      else
        let s := UpdateCurrentFreq (toInt32 (-(s.settings.frequencyChangeStep : Int))) s
        NewBandOrLevel s
    | KEY_SIDE1 => Blacklist s
    | KEY_STAR =>
      let s := UpdateRssiTriggerLevel 1 s
      hwCall (HwCall.SYSTEM_DelayMs 90) s
    | KEY_F =>
      let s := UpdateRssiTriggerLevel (-1) s
      hwCall (HwCall.SYSTEM_DelayMs 90) s
    | KEY_5 => FreqInput s
    | KEY_0 =>
      let s :=
        if s.settings.modulationType < MOD_USB then
          { s with settings := { s.settings with
              modulationType := s.settings.modulationType + 1 } }
        else { s with settings := { s.settings with modulationType := MOD_FM } }
      SetModulation s.settings.modulationType s
    | KEY_6 =>
      if s.settings.listenBw = BK4819_FILTER_BW_NARROWER then
        { s with settings := { s.settings with listenBw := BK4819_FILTER_BW_WIDE } }
      else { s with settings := { s.settings with listenBw := s.settings.listenBw + 1 } }
    | KEY_4 =>
      let s :=
        if s.settings.stepsCount = STEPS_128 then
          { s with settings := { s.settings with stepsCount := STEPS_16 } }
        else { s with settings := { s.settings with stepsCount := s.settings.stepsCount - 1 } }
      let s := { s with settings := { s.settings with frequencyChangeStep := GetBW s >>> 1 } }
      NewBandOrLevel s
    | KEY_SIDE2 =>
      let s := { s with settings := { s.settings with
        backlightState := !s.settings.backlightState } }
      let s :=
        if s.settings.backlightState then hwCall (HwCall.GPIO_SetBit Pin.GPIOB_PIN_BACKLIGHT) s
        else hwCall (HwCall.GPIO_ClearBit Pin.GPIOB_PIN_BACKLIGHT) s
      NewBandOrLevel s
    | KEY_PTT =>
      let s := { s with settings := { s.settings with isStillMode := true } }
      ResetRSSIHistory s
    | KEY_MENU =>
      if s.settings.isStillMode then
        if s.menuState < MENU_RFW then { s with menuState := s.menuState + 1 }
        else { s with menuState := MENU_AFDAC }
      else s
    | KEY_EXIT =>
      if s.menuState ≠ MENU_OFF then { s with menuState := MENU_OFF }
      else if s.settings.isStillMode then
        let s := { s with settings := { s.settings with isStillMode := false } }
        { s with settings := { s.settings with stillOffset := 0 } }
      else DeInitSpectrum s
    | _ => s
  { s with redrawScreen := true }

/-! ## Key handling in FREQ_INPUT mode -/

def OnKeyDownFreqInput (key : KEY_Code_t) (s : Spectrum) : Spectrum :=
  let s :=
    match key with
    | KEY_0 | KEY_1 | KEY_2 | KEY_3 | KEY_4 | KEY_5 | KEY_6 | KEY_7 | KEY_8 | KEY_9
    | KEY_STAR => UpdateFreqInput key s
    | KEY_EXIT =>
      if s.freqInputIndex = 0 then { s with currentState := Mode.SPECTRUM }
      else UpdateFreqInput key s
    | KEY_MENU =>
      if s.tempFreq ≥ F_MIN ∧ s.tempFreq ≤ F_MAX then
        let s := { s with currentFreq := s.tempFreq }
        let s := { s with peak := { s.peak with f := s.currentFreq } }
        let s := { s with settings := { s.settings with stillOffset := 0 } }
        let s := NewBandOrLevel s
        let s := { s with currentState := Mode.SPECTRUM }
        let s := { s with peak := { s.peak with i := (GetStepsCount s >>> 1) % U8 } }
        ResetRSSIHistory s
      else s
    | _ => s
  { s with redrawScreen := true }

/-! ## The sweep -/

def Scan (s : Spectrum) : Spectrum :=
  if s.rssiHistory.getD s.scanInfo.i 0 ≠ 255 then
    let s := SetF s.scanInfo.f s
    let s := SetBW (GetBWIndex s) s
    let s := Measure s
    UpdateScanInfo s
  else s

def NextScanStep (s : Spectrum) : Spectrum :=
  let s := { s with peak := { s.peak with t := (s.peak.t + 1) % U16 } }
  let s := { s with scanInfo := { s.scanInfo with i := (s.scanInfo.i + 1) % U8 } }
  { s with scanInfo := { s.scanInfo with f := (s.scanInfo.f + s.scanInfo.scanStep) % U32 } }

def ScanDone (s : Spectrum) : Bool :=
  decide (s.scanInfo.i ≥ s.scanInfo.measurementsCount)

def Update (s : Spectrum) : Spectrum :=
  if s.isListening ∧ s.listenT ≠ 0 then
    let s := { s with listenT := s.listenT - 1 }
    hwCall (HwCall.SYSTEM_DelayMs 1) s
  else
    let s :=
      if s.isListening then
        let s := ResetPeak s
        let s := ResetScanStats s
        SetBW (GetBWIndex s) s
      else s
    let s := Scan s
    let s := if s.isListening then SetBW s.settings.listenBw s else s
    if ScanDone s ∨ s.isListening ∨ s.settings.isStillMode then
      let s := { s with redrawScreen := true }
      let s := UpdatePeakInfo s
      if IsPeakOverLevel s then
        let s := TuneToPeak s
        let s := ToggleRX true s
        { s with listenT := 1000 }
      else
        let s := ToggleRX false s
        InitScan s
    else NextScanStep s

/-! ### The three phases of `Update`

`Update` outside the idle branch is `Scan()` between a preparation and a
decision; the phases are named so that they can be reasoned about one at a
time (`Update_eq` below). -/

/-- The statements of `Update` before `Scan()`: while listening, the peak
and the cycle statistics are reset and the scanning bandwidth is selected. -/
def updatePrepare (s : Spectrum) : Spectrum :=
  if s.isListening then
    let s := ResetPeak s
    let s := ResetScanStats s
    SetBW (GetBWIndex s) s
  else s

/-- The statement of `Update` right after `Scan()`: while listening, back to
the listening bandwidth. -/
def updateRestoreBW (s : Spectrum) : Spectrum :=
  if s.isListening then SetBW s.settings.listenBw s else s

/-- The rest of `Update`: at a cycle boundary, while listening or in still
mode, the peak is updated and listening starts or the sweep restarts;
otherwise the sweep advances. -/
def updateDecide (s : Spectrum) : Spectrum :=
  if ScanDone s ∨ s.isListening ∨ s.settings.isStillMode then
    let s := { s with redrawScreen := true }
    let s := UpdatePeakInfo s
    if IsPeakOverLevel s then
      let s := TuneToPeak s
      let s := ToggleRX true s
      { s with listenT := 1000 }
    else
      let s := ToggleRX false s
      InitScan s
  else NextScanStep s

/-! ## Drivers of the claims -/

/-- Typing a key sequence: one `UpdateFreqInput` per key, in order. -/
def typeKeys (keys : List KEY_Code_t) (s : Spectrum) : Spectrum :=
  keys.foldl (fun s key => UpdateFreqInput key s) s

/-- The value of a sequence of digit keys read as a decimal numeral. -/
def decimalValue (keys : List KEY_Code_t) : Nat :=
  keys.foldl (fun acc key => 10 * acc + key.toNat) 0

/-- The keys typed before the decimal marker. -/
def integerKeys (keys : List KEY_Code_t) : List KEY_Code_t :=
  keys.takeWhile (fun key => key ≠ KEY_STAR)

/-- The keys typed after the decimal marker. -/
def fractionKeys (keys : List KEY_Code_t) : List KEY_Code_t :=
  (keys.dropWhile (fun key => key ≠ KEY_STAR)).drop 1

/-- The value, in MHz, that a typed literal denotes: the integer part plus
the fraction part over the matching power of ten. -/
def literalMHz (keys : List KEY_Code_t) : ℚ :=
  (decimalValue (integerKeys keys) : ℚ) +
    (decimalValue (fractionKeys keys) : ℚ) / (10 : ℚ) ^ (fractionKeys keys).length

/-- The decimal-point index after typing `keys` from index `i` with marker
`d`: each STAR moves it to the index at which it is typed. -/
def dotAfter : Nat → Nat → List KEY_Code_t → Nat
  | d, _, [] => d
  | d, i, key :: keys => dotAfter (if key = KEY_STAR then i else d) (i + 1) keys

/-- What the fraction loop adds for the digits `keys`, starting with `base`
and dividing it by ten after each digit. -/
def fractionUnits : List KEY_Code_t → Nat → Nat
  | [], _ => 0
  | key :: keys, base => key.toNat * base + fractionUnits keys (base / 10)

/-- The hysteresis condition of `UpdatePeakInfo`: non-zero, young and still
at least as strong as the cycle maximum. -/
def peakHeld (s : Spectrum) : Prop :=
  s.peak.f ≠ 0 ∧ s.peak.t < 1024 ∧ s.peak.rssi ≥ s.scanInfo.rssiMax

instance (s : Spectrum) : Decidable (peakHeld s) := by
  unfold peakHeld; infer_instance

/-- The record `UpdatePeakInfo` writes when it replaces the peak. -/
def cyclePeak (s : Spectrum) : PeakInfo :=
  { t := 0, rssi := s.scanInfo.rssiMax, i := s.scanInfo.iPeak, f := s.scanInfo.fPeak }

/-! ## Example states -/

/-- The initial globals with a silent hardware and the VFO at 145 MHz. -/
def exampleSpectrum : Spectrum := initialSpectrum (fun _ => 0) 14500000

/-- Frequency input with candidate 433 MHz, entered from a sweep. -/
def exampleCommit : Spectrum :=
  { exampleSpectrum with currentState := Mode.FREQ_INPUT, tempFreq := 43300000 }

/-- Frequency input with candidate 433 MHz, entered while locked (still mode)
on a signal that is being listened to, the sweep index at 5. -/
def exampleCommitStill : Spectrum :=
  { exampleSpectrum with
    currentState := Mode.FREQ_INPUT
    tempFreq := 43300000
    isListening := true
    settings := { initialSettings with isStillMode := true }
    scanInfo := { exampleSpectrum.scanInfo with i := 5 } }

/-- Frequency input whose candidate 0 is below `F_MIN`. -/
def exampleReject : Spectrum :=
  { exampleSpectrum with currentState := Mode.FREQ_INPUT, tempFreq := 0 }

/-- The initial settings (step 25 kHz = 2500 units, 64 bins) around the
literal frequency 433000000. -/
def exampleSpan : Spectrum := initialSpectrum (fun _ => 0) 433000000

/-- The same frequency and bin count with step 1 kHz = 100 units, a center
granularity. -/
def exampleSpanCenter : Spectrum :=
  { exampleSpan with settings := { initialSettings with scanStepIndex := S_STEP_1_0kHz } }

/-- A sweep whose trigger level is unset (255), whose persisted peak is
cleared and whose cycle maximum is 120 at bin 7. -/
def exampleUnsetTrigger : Spectrum :=
  { exampleSpectrum with
    settings := { initialSettings with rssiTriggerLevel := 255 }
    scanInfo := { exampleSpectrum.scanInfo with rssiMax := 120, iPeak := 7, fPeak := 14517500 } }

/-- The same cycle, but with a young persisted peak of RSSI 130 at 433 MHz. -/
def exampleUnsetTriggerHeld : Spectrum :=
  { exampleUnsetTrigger with peak := { t := 10, rssi := 130, i := 3, f := 43300000 } }

/-- Locked (still mode) with the sweep position left at bin 7. -/
def exampleStillSweep : Spectrum :=
  { exampleSpectrum with
    settings := { initialSettings with isStillMode := true }
    scanInfo := { exampleSpectrum.scanInfo with
      i := 7, f := 14517500, scanStep := 2500, measurementsCount := 64 } }

/-- A sweep standing at bin 0, which is blacklisted. -/
def exampleBlacklisted : Spectrum :=
  { exampleSpectrum with rssiHistory := (List.replicate 128 0).set 0 255 }

/-- The keys of scenario 3: 4, 3, 3, the marker, 0, 0, 0. -/
def exampleKeys : List KEY_Code_t := [KEY_4, KEY_3, KEY_3, KEY_STAR, KEY_0, KEY_0, KEY_0]

/-- Listening with 3 ticks left on the listen timer. -/
def exampleListening : Spectrum :=
  { exampleSpectrum with isListening := true, listenT := 3 }

/-- A sweep in progress: cycle minimum 40 so far, the index at bin 9. -/
def exampleMidSweep : Spectrum :=
  { exampleSpectrum with
    scanInfo := { exampleSpectrum.scanInfo with
      rssi := 55, rssiMin := 40, rssiMax := 90, i := 9, iPeak := 4, fPeak := 14510000,
      f := 14522500, scanStep := 2500, measurementsCount := 64 } }

/-- A sweep with a persisted peak of RSSI 130 at bin 3, 433 MHz. -/
def examplePeak : Spectrum :=
  { exampleSpectrum with peak := { t := 5, rssi := 130, i := 3, f := 43300000 } }

/-- The initial globals with the listening bandwidth set to narrow while the
scanning bandwidth `settings.bw` is wide, and a non-broadcast peak. -/
def exampleNarrowListen : Spectrum :=
  { examplePeak with
    settings := { initialSettings with listenBw := BK4819_FILTER_BW_NARROW } }

/-- The state inside `Update()` right after its call of `UpdatePeakInfo()`
(the cycle-boundary branch). -/
def afterPeakUpdate (s : Spectrum) : Spectrum :=
  UpdatePeakInfo { updateRestoreBW (Scan (updatePrepare s)) with redrawScreen := true }

/-- The RSSI `Scan()` measures in state `s`: what `GetRssi()` returns after
the retune and the bandwidth selection. -/
def scanReading (s : Spectrum) : Nat :=
  (GetRssi (SetBW (GetBWIndex (SetF s.scanInfo.f s)) (SetF s.scanInfo.f s))).1

/-- A sweep whose index has reached the bin count (64 of 64). -/
def exampleBoundary : Spectrum :=
  { exampleSpectrum with
    scanInfo := { exampleSpectrum.scanInfo with
      i := 64, f := 14660000, scanStep := 2500, measurementsCount := 64 } }

/-- Listening at 145.1 MHz (bin 40) with the listen timer expired and the
trigger level set to 100. -/
def exampleListenExpired : Spectrum :=
  { exampleSpectrum with
    isListening := true
    listenT := 0
    fMeasure := 14600000
    peak := { t := 0, rssi := 120, i := 40, f := 14600000 }
    settings := { initialSettings with rssiTriggerLevel := 100 }
    scanInfo := { exampleSpectrum.scanInfo with
      i := 40, f := 14600000, scanStep := 2500, measurementsCount := 64 } }


/-- One step of the main loop as seen by the globals: a key handled by
`OnKeyDown`, a key handled by `OnKeyDownFreqInput`, or an `Update()` tick. -/
inductive Event
  | keyDown (key : KEY_Code_t)
  | keyDownFreqInput (key : KEY_Code_t)
  | tick
  deriving DecidableEq, Repr

def applyEvent (s : Spectrum) : Event → Spectrum
  | Event.keyDown key => OnKeyDown key s
  | Event.keyDownFreqInput key => OnKeyDownFreqInput key s
  | Event.tick => Update s

/-- The events of a run, handled in order. -/
def runEvents (events : List Event) (s : Spectrum) : Spectrum :=
  events.foldl applyEvent s

/-- The ranges of the three adjustable settings; the delay moves in steps
of 100 from its initial value. -/
def settingsInRange (s : Spectrum) : Prop :=
  s.settings.scanStepIndex ≤ 11 ∧ s.settings.stepsCount ≤ 3 ∧
  400 ≤ s.settings.scanDelay ∧ s.settings.scanDelay ≤ 8000 ∧
  s.settings.scanDelay % 100 = 0

instance (s : Spectrum) : Decidable (settingsInRange s) := by
  unfold settingsInRange; infer_instance

/-- A run that presses every key that changes one of the three settings. -/
def exampleRun : List Event :=
  [Event.keyDown KEY_1, Event.keyDown KEY_3, Event.tick, Event.keyDown KEY_4,
   Event.keyDown KEY_5, Event.keyDownFreqInput KEY_1, Event.keyDownFreqInput KEY_EXIT,
   Event.keyDownFreqInput KEY_EXIT, Event.keyDown KEY_9, Event.keyDown KEY_7, Event.tick]

/-- One RSSI sample of a sweep: bin index, frequency and value. -/
structure Sample where
  i : Nat
  f : Nat
  rssi : Nat
  deriving DecidableEq, Repr

/-- The sample `Scan()` takes in state `s`: the value `Measure()` stores in
`scanInfo.rssi` for the current bin; none when the bin is blacklisted. -/
def scanSample (s : Spectrum) : Option Sample :=
  if s.rssiHistory.getD s.scanInfo.i 0 ≠ 255 then
    some ⟨s.scanInfo.i, s.scanInfo.f, (Scan s).scanInfo.rssi⟩
  else none

/-- The samples taken by the first `n` `Update()` ticks from `s`, in order. -/
def cycleSamples (s : Spectrum) (n : Nat) : List Sample :=
  (List.range n).filterMap fun k => scanSample (Update^[k] s)

/-- The largest value among `samples`, 0 if there is none. -/
def maxRssi (samples : List Sample) : Nat :=
  (samples.map Sample.rssi).foldl max 0

/-- The cycle statistics of `s` describe `samples`: `rssiMax` is their
maximum and, when positive, `iPeak` / `fPeak` belong to the first sample
that attains it. -/
def tracksMaximum (s : Spectrum) (samples : List Sample) : Prop :=
  s.scanInfo.rssiMax = maxRssi samples ∧
  (∀ y ∈ samples, y.rssi ≤ s.scanInfo.rssiMax) ∧
  (0 < s.scanInfo.rssiMax →
    samples.find? (fun y => decide (y.rssi = s.scanInfo.rssiMax)) =
      some ⟨s.scanInfo.iPeak, s.scanInfo.fPeak, s.scanInfo.rssiMax⟩)

/-- The state in which `Update()` takes the cycle-boundary branch of the
cycle started by `InitScan()` in `s`: after `measurementsCount` advancing
ticks, right after the `Scan()` of the next tick. -/
def cycleBoundary (s : Spectrum) : Spectrum :=
  Scan (Update^[(InitScan s).scanInfo.measurementsCount] (InitScan s))

/-- A sweep of 16 bins over a hardware whose readings vary. -/
def exampleCycle : Spectrum :=
  let s := initialSpectrum (fun k => (k * 37) % 200) 14500000
  { s with settings := { s.settings with stepsCount := STEPS_16 } }

/-- Keys handled one after the other by `OnKeyDownFreqInput`. -/
def pressFreqInputKeys (keys : List KEY_Code_t) (s : Spectrum) : Spectrum :=
  keys.foldl (fun s key => OnKeyDownFreqInput key s) s

/-- The keys `OnKeyDownFreqInput` passes to `UpdateFreqInput` as symbols:
the ten digits and the decimal marker. -/
def symbolKeys : List KEY_Code_t :=
  [KEY_0, KEY_1, KEY_2, KEY_3, KEY_4, KEY_5, KEY_6, KEY_7, KEY_8, KEY_9, KEY_STAR]

/-- Keys that type 43, a decimal marker, remove it again and type 3. -/
def exampleBackspace : List KEY_Code_t := [KEY_4, KEY_3, KEY_STAR, KEY_EXIT, KEY_3]

/-- A sweep at bin 9 over a hardware that reports the raw RSSI 300. -/
def exampleSaturated : Spectrum :=
  { exampleMidSweep with hwIn := fun _ => 300 }

/-- The initial globals with 128 bins selected. -/
def exampleFullSweep : Spectrum :=
  let s := initialSpectrum (fun k => (k * 37) % 200) 14500000
  { s with settings := { s.settings with stepsCount := STEPS_128 } }

/-- Listening in still mode, tuned 1 kHz above the peak (`stillOffset = 100`),
with the listen timer expired, the trigger level at 100 and a hardware that
reports RSSI 120. -/
def exampleOffsetListen : Spectrum :=
  { exampleSpectrum with
    isListening := true
    listenT := 0
    fMeasure := 14600100
    hwIn := fun _ => 120
    peak := { t := 0, rssi := 120, i := 40, f := 14600000 }
    settings := { initialSettings with
      rssiTriggerLevel := 100, isStillMode := true, stillOffset := 100 }
    scanInfo := { exampleSpectrum.scanInfo with
      i := 40, f := 14600100, scanStep := 2500, measurementsCount := 64 } }

/-! ## Frame lemmas

For every operation, the globals it does not write. -/

@[simp] theorem ToggleAFBit_frame (s : Spectrum) (b : Bool) :
    (ToggleAFBit b s).currentState = s.currentState ∧
    (ToggleAFBit b s).peak = s.peak ∧
    (ToggleAFBit b s).settings = s.settings ∧
    (ToggleAFBit b s).rssiHistory = s.rssiHistory ∧
    (ToggleAFBit b s).scanInfo = s.scanInfo ∧
    (ToggleAFBit b s).listenT = s.listenT ∧
    (ToggleAFBit b s).currentFreq = s.currentFreq ∧
    (ToggleAFBit b s).tempFreq = s.tempFreq ∧
    (ToggleAFBit b s).freqInputIndex = s.freqInputIndex ∧
    (ToggleAFBit b s).freqInputArr = s.freqInputArr ∧
    (ToggleAFBit b s).freqInputString = s.freqInputString ∧
    (ToggleAFBit b s).freqInputDotIndex = s.freqInputDotIndex ∧
    (ToggleAFBit b s).isInitialized = s.isInitialized ∧
    (ToggleAFBit b s).isListening = s.isListening ∧
    (ToggleAFBit b s).redrawScreen = s.redrawScreen ∧
    (ToggleAFBit b s).fMeasure = s.fMeasure ∧
    (ToggleAFBit b s).audioState = s.audioState ∧
    (ToggleAFBit b s).menuState = s.menuState ∧
    (ToggleAFBit b s).hwIn = s.hwIn := by
  unfold ToggleAFBit
  repeat' (first | split_ifs | simp [hwCall, BK4819_ReadRegister, BK4819_WriteRegister, BK4819_GetRSSI])

@[simp] theorem ToggleAFDAC_frame (s : Spectrum) (b : Bool) :
    (ToggleAFDAC b s).currentState = s.currentState ∧
    (ToggleAFDAC b s).peak = s.peak ∧
    (ToggleAFDAC b s).settings = s.settings ∧
    (ToggleAFDAC b s).rssiHistory = s.rssiHistory ∧
    (ToggleAFDAC b s).scanInfo = s.scanInfo ∧
    (ToggleAFDAC b s).listenT = s.listenT ∧
    (ToggleAFDAC b s).currentFreq = s.currentFreq ∧
    (ToggleAFDAC b s).tempFreq = s.tempFreq ∧
    (ToggleAFDAC b s).freqInputIndex = s.freqInputIndex ∧
    (ToggleAFDAC b s).freqInputArr = s.freqInputArr ∧
    (ToggleAFDAC b s).freqInputString = s.freqInputString ∧
    (ToggleAFDAC b s).freqInputDotIndex = s.freqInputDotIndex ∧
    (ToggleAFDAC b s).isInitialized = s.isInitialized ∧
    (ToggleAFDAC b s).isListening = s.isListening ∧
    (ToggleAFDAC b s).redrawScreen = s.redrawScreen ∧
    (ToggleAFDAC b s).fMeasure = s.fMeasure ∧
    (ToggleAFDAC b s).audioState = s.audioState ∧
    (ToggleAFDAC b s).menuState = s.menuState ∧
    (ToggleAFDAC b s).hwIn = s.hwIn := by
  unfold ToggleAFDAC
  repeat' (first | split_ifs | simp [hwCall, BK4819_ReadRegister, BK4819_WriteRegister, BK4819_GetRSSI])

@[simp] theorem ResetRSSI_frame (s : Spectrum) :
    (ResetRSSI s).currentState = s.currentState ∧
    (ResetRSSI s).peak = s.peak ∧
    (ResetRSSI s).settings = s.settings ∧
    (ResetRSSI s).rssiHistory = s.rssiHistory ∧
    (ResetRSSI s).scanInfo = s.scanInfo ∧
    (ResetRSSI s).listenT = s.listenT ∧
    (ResetRSSI s).currentFreq = s.currentFreq ∧
    (ResetRSSI s).tempFreq = s.tempFreq ∧
    (ResetRSSI s).freqInputIndex = s.freqInputIndex ∧
    (ResetRSSI s).freqInputArr = s.freqInputArr ∧
    (ResetRSSI s).freqInputString = s.freqInputString ∧
    (ResetRSSI s).freqInputDotIndex = s.freqInputDotIndex ∧
    (ResetRSSI s).isInitialized = s.isInitialized ∧
    (ResetRSSI s).isListening = s.isListening ∧
    (ResetRSSI s).redrawScreen = s.redrawScreen ∧
    (ResetRSSI s).fMeasure = s.fMeasure ∧
    (ResetRSSI s).audioState = s.audioState ∧
    (ResetRSSI s).menuState = s.menuState ∧
    (ResetRSSI s).hwIn = s.hwIn := by
  unfold ResetRSSI
  repeat' (first | split_ifs | simp [hwCall, BK4819_ReadRegister, BK4819_WriteRegister, BK4819_GetRSSI])

@[simp] theorem SetF_frame (s : Spectrum) (f : Nat) :
    (SetF f s).currentState = s.currentState ∧
    (SetF f s).peak = s.peak ∧
    (SetF f s).settings = s.settings ∧
    (SetF f s).rssiHistory = s.rssiHistory ∧
    (SetF f s).scanInfo = s.scanInfo ∧
    (SetF f s).listenT = s.listenT ∧
    (SetF f s).currentFreq = s.currentFreq ∧
    (SetF f s).tempFreq = s.tempFreq ∧
    (SetF f s).freqInputIndex = s.freqInputIndex ∧
    (SetF f s).freqInputArr = s.freqInputArr ∧
    (SetF f s).freqInputString = s.freqInputString ∧
    (SetF f s).freqInputDotIndex = s.freqInputDotIndex ∧
    (SetF f s).isInitialized = s.isInitialized ∧
    (SetF f s).isListening = s.isListening ∧
    (SetF f s).redrawScreen = s.redrawScreen ∧
    (SetF f s).audioState = s.audioState ∧
    (SetF f s).menuState = s.menuState ∧
    (SetF f s).hwIn = s.hwIn := by
  unfold SetF
  repeat' (first | split_ifs | simp [hwCall, BK4819_ReadRegister, BK4819_WriteRegister, BK4819_GetRSSI])

@[simp] theorem SetBW_frame (s : Spectrum) (bw : Nat) :
    (SetBW bw s).currentState = s.currentState ∧
    (SetBW bw s).peak = s.peak ∧
    (SetBW bw s).settings = s.settings ∧
    (SetBW bw s).rssiHistory = s.rssiHistory ∧
    (SetBW bw s).scanInfo = s.scanInfo ∧
    (SetBW bw s).listenT = s.listenT ∧
    (SetBW bw s).currentFreq = s.currentFreq ∧
    (SetBW bw s).tempFreq = s.tempFreq ∧
    (SetBW bw s).freqInputIndex = s.freqInputIndex ∧
    (SetBW bw s).freqInputArr = s.freqInputArr ∧
    (SetBW bw s).freqInputString = s.freqInputString ∧
    (SetBW bw s).freqInputDotIndex = s.freqInputDotIndex ∧
    (SetBW bw s).isInitialized = s.isInitialized ∧
    (SetBW bw s).isListening = s.isListening ∧
    (SetBW bw s).redrawScreen = s.redrawScreen ∧
    (SetBW bw s).fMeasure = s.fMeasure ∧
    (SetBW bw s).audioState = s.audioState ∧
    (SetBW bw s).menuState = s.menuState ∧
    (SetBW bw s).hwIn = s.hwIn ∧
    (SetBW bw s).hwReads = s.hwReads := by
  unfold SetBW
  repeat' (first | split_ifs | simp [hwCall, BK4819_ReadRegister, BK4819_WriteRegister, BK4819_GetRSSI])

@[simp] theorem ResetRSSIHistory_frame (s : Spectrum) :
    (ResetRSSIHistory s).currentState = s.currentState ∧
    (ResetRSSIHistory s).peak = s.peak ∧
    (ResetRSSIHistory s).settings = s.settings ∧
    (ResetRSSIHistory s).scanInfo = s.scanInfo ∧
    (ResetRSSIHistory s).listenT = s.listenT ∧
    (ResetRSSIHistory s).currentFreq = s.currentFreq ∧
    (ResetRSSIHistory s).tempFreq = s.tempFreq ∧
    (ResetRSSIHistory s).freqInputIndex = s.freqInputIndex ∧
    (ResetRSSIHistory s).freqInputArr = s.freqInputArr ∧
    (ResetRSSIHistory s).freqInputString = s.freqInputString ∧
    (ResetRSSIHistory s).freqInputDotIndex = s.freqInputDotIndex ∧
    (ResetRSSIHistory s).isInitialized = s.isInitialized ∧
    (ResetRSSIHistory s).isListening = s.isListening ∧
    (ResetRSSIHistory s).redrawScreen = s.redrawScreen ∧
    (ResetRSSIHistory s).fMeasure = s.fMeasure ∧
    (ResetRSSIHistory s).audioState = s.audioState ∧
    (ResetRSSIHistory s).menuState = s.menuState ∧
    (ResetRSSIHistory s).hwTrace = s.hwTrace ∧
    (ResetRSSIHistory s).hwIn = s.hwIn ∧
    (ResetRSSIHistory s).hwReads = s.hwReads := by
  unfold ResetRSSIHistory
  repeat' (first | split_ifs | simp [hwCall, BK4819_ReadRegister, BK4819_WriteRegister, BK4819_GetRSSI])

@[simp] theorem ResetPeak_frame (s : Spectrum) :
    (ResetPeak s).currentState = s.currentState ∧
    (ResetPeak s).settings = s.settings ∧
    (ResetPeak s).rssiHistory = s.rssiHistory ∧
    (ResetPeak s).scanInfo = s.scanInfo ∧
    (ResetPeak s).listenT = s.listenT ∧
    (ResetPeak s).currentFreq = s.currentFreq ∧
    (ResetPeak s).tempFreq = s.tempFreq ∧
    (ResetPeak s).freqInputIndex = s.freqInputIndex ∧
    (ResetPeak s).freqInputArr = s.freqInputArr ∧
    (ResetPeak s).freqInputString = s.freqInputString ∧
    (ResetPeak s).freqInputDotIndex = s.freqInputDotIndex ∧
    (ResetPeak s).isInitialized = s.isInitialized ∧
    (ResetPeak s).isListening = s.isListening ∧
    (ResetPeak s).redrawScreen = s.redrawScreen ∧
    (ResetPeak s).fMeasure = s.fMeasure ∧
    (ResetPeak s).audioState = s.audioState ∧
    (ResetPeak s).menuState = s.menuState ∧
    (ResetPeak s).hwTrace = s.hwTrace ∧
    (ResetPeak s).hwIn = s.hwIn ∧
    (ResetPeak s).hwReads = s.hwReads := by
  unfold ResetPeak
  repeat' (first | split_ifs | simp [hwCall, BK4819_ReadRegister, BK4819_WriteRegister, BK4819_GetRSSI])

@[simp] theorem GetRssi_frame (s : Spectrum) :
    (GetRssi s).2.currentState = s.currentState ∧
    (GetRssi s).2.peak = s.peak ∧
    (GetRssi s).2.settings = s.settings ∧
    (GetRssi s).2.rssiHistory = s.rssiHistory ∧
    (GetRssi s).2.scanInfo = s.scanInfo ∧
    (GetRssi s).2.listenT = s.listenT ∧
    (GetRssi s).2.currentFreq = s.currentFreq ∧
    (GetRssi s).2.tempFreq = s.tempFreq ∧
    (GetRssi s).2.freqInputIndex = s.freqInputIndex ∧
    (GetRssi s).2.freqInputArr = s.freqInputArr ∧
    (GetRssi s).2.freqInputString = s.freqInputString ∧
    (GetRssi s).2.freqInputDotIndex = s.freqInputDotIndex ∧
    (GetRssi s).2.isInitialized = s.isInitialized ∧
    (GetRssi s).2.isListening = s.isListening ∧
    (GetRssi s).2.redrawScreen = s.redrawScreen ∧
    (GetRssi s).2.fMeasure = s.fMeasure ∧
    (GetRssi s).2.audioState = s.audioState ∧
    (GetRssi s).2.menuState = s.menuState ∧
    (GetRssi s).2.hwIn = s.hwIn := by
  unfold GetRssi
  repeat' (first | split_ifs | simp [hwCall, BK4819_ReadRegister, BK4819_WriteRegister, BK4819_GetRSSI])

@[simp] theorem ListenBK1080_frame (s : Spectrum) :
    (ListenBK1080 s).currentState = s.currentState ∧
    (ListenBK1080 s).peak = s.peak ∧
    (ListenBK1080 s).settings = s.settings ∧
    (ListenBK1080 s).rssiHistory = s.rssiHistory ∧
    (ListenBK1080 s).scanInfo = s.scanInfo ∧
    (ListenBK1080 s).listenT = s.listenT ∧
    (ListenBK1080 s).currentFreq = s.currentFreq ∧
    (ListenBK1080 s).tempFreq = s.tempFreq ∧
    (ListenBK1080 s).freqInputIndex = s.freqInputIndex ∧
    (ListenBK1080 s).freqInputArr = s.freqInputArr ∧
    (ListenBK1080 s).freqInputString = s.freqInputString ∧
    (ListenBK1080 s).freqInputDotIndex = s.freqInputDotIndex ∧
    (ListenBK1080 s).isInitialized = s.isInitialized ∧
    (ListenBK1080 s).isListening = s.isListening ∧
    (ListenBK1080 s).redrawScreen = s.redrawScreen ∧
    (ListenBK1080 s).fMeasure = s.fMeasure ∧
    (ListenBK1080 s).audioState = s.audioState ∧
    (ListenBK1080 s).menuState = s.menuState ∧
    (ListenBK1080 s).hwIn = s.hwIn ∧
    (ListenBK1080 s).hwReads = s.hwReads := by
  unfold ListenBK1080
  repeat' (first | split_ifs | simp [hwCall, BK4819_ReadRegister, BK4819_WriteRegister, BK4819_GetRSSI])

@[simp] theorem ListenBK4819_frame (s : Spectrum) :
    (ListenBK4819 s).currentState = s.currentState ∧
    (ListenBK4819 s).peak = s.peak ∧
    (ListenBK4819 s).settings = s.settings ∧
    (ListenBK4819 s).rssiHistory = s.rssiHistory ∧
    (ListenBK4819 s).scanInfo = s.scanInfo ∧
    (ListenBK4819 s).listenT = s.listenT ∧
    (ListenBK4819 s).currentFreq = s.currentFreq ∧
    (ListenBK4819 s).tempFreq = s.tempFreq ∧
    (ListenBK4819 s).freqInputIndex = s.freqInputIndex ∧
    (ListenBK4819 s).freqInputArr = s.freqInputArr ∧
    (ListenBK4819 s).freqInputString = s.freqInputString ∧
    (ListenBK4819 s).freqInputDotIndex = s.freqInputDotIndex ∧
    (ListenBK4819 s).isInitialized = s.isInitialized ∧
    (ListenBK4819 s).isListening = s.isListening ∧
    (ListenBK4819 s).redrawScreen = s.redrawScreen ∧
    (ListenBK4819 s).fMeasure = s.fMeasure ∧
    (ListenBK4819 s).audioState = s.audioState ∧
    (ListenBK4819 s).menuState = s.menuState ∧
    (ListenBK4819 s).hwIn = s.hwIn := by
  unfold ListenBK4819
  repeat' (first | split_ifs | simp [hwCall, BK4819_ReadRegister, BK4819_WriteRegister, BK4819_GetRSSI])

@[simp] theorem ToggleAudio_frame (s : Spectrum) (b : Bool) :
    (ToggleAudio b s).currentState = s.currentState ∧
    (ToggleAudio b s).peak = s.peak ∧
    (ToggleAudio b s).settings = s.settings ∧
    (ToggleAudio b s).rssiHistory = s.rssiHistory ∧
    (ToggleAudio b s).scanInfo = s.scanInfo ∧
    (ToggleAudio b s).listenT = s.listenT ∧
    (ToggleAudio b s).currentFreq = s.currentFreq ∧
    (ToggleAudio b s).tempFreq = s.tempFreq ∧
    (ToggleAudio b s).freqInputIndex = s.freqInputIndex ∧
    (ToggleAudio b s).freqInputArr = s.freqInputArr ∧
    (ToggleAudio b s).freqInputString = s.freqInputString ∧
    (ToggleAudio b s).freqInputDotIndex = s.freqInputDotIndex ∧
    (ToggleAudio b s).isInitialized = s.isInitialized ∧
    (ToggleAudio b s).isListening = s.isListening ∧
    (ToggleAudio b s).redrawScreen = s.redrawScreen ∧
    (ToggleAudio b s).fMeasure = s.fMeasure ∧
    (ToggleAudio b s).menuState = s.menuState ∧
    (ToggleAudio b s).hwIn = s.hwIn ∧
    (ToggleAudio b s).hwReads = s.hwReads := by
  unfold ToggleAudio
  repeat' (first | split_ifs | simp [hwCall, BK4819_ReadRegister, BK4819_WriteRegister, BK4819_GetRSSI])

@[simp] theorem ToggleRX_frame (s : Spectrum) (b : Bool) :
    (ToggleRX b s).currentState = s.currentState ∧
    (ToggleRX b s).peak = s.peak ∧
    (ToggleRX b s).settings = s.settings ∧
    (ToggleRX b s).rssiHistory = s.rssiHistory ∧
    (ToggleRX b s).scanInfo = s.scanInfo ∧
    (ToggleRX b s).listenT = s.listenT ∧
    (ToggleRX b s).currentFreq = s.currentFreq ∧
    (ToggleRX b s).tempFreq = s.tempFreq ∧
    (ToggleRX b s).freqInputIndex = s.freqInputIndex ∧
    (ToggleRX b s).freqInputArr = s.freqInputArr ∧
    (ToggleRX b s).freqInputString = s.freqInputString ∧
    (ToggleRX b s).freqInputDotIndex = s.freqInputDotIndex ∧
    (ToggleRX b s).isInitialized = s.isInitialized ∧
    (ToggleRX b s).redrawScreen = s.redrawScreen ∧
    (ToggleRX b s).fMeasure = s.fMeasure ∧
    (ToggleRX b s).menuState = s.menuState ∧
    (ToggleRX b s).hwIn = s.hwIn := by
  unfold ToggleRX
  repeat' (first | split_ifs | simp [hwCall, BK4819_ReadRegister, BK4819_WriteRegister, BK4819_GetRSSI])

@[simp] theorem ResetScanStats_frame (s : Spectrum) :
    (ResetScanStats s).currentState = s.currentState ∧
    (ResetScanStats s).peak = s.peak ∧
    (ResetScanStats s).settings = s.settings ∧
    (ResetScanStats s).rssiHistory = s.rssiHistory ∧
    (ResetScanStats s).listenT = s.listenT ∧
    (ResetScanStats s).currentFreq = s.currentFreq ∧
    (ResetScanStats s).tempFreq = s.tempFreq ∧
    (ResetScanStats s).freqInputIndex = s.freqInputIndex ∧
    (ResetScanStats s).freqInputArr = s.freqInputArr ∧
    (ResetScanStats s).freqInputString = s.freqInputString ∧
    (ResetScanStats s).freqInputDotIndex = s.freqInputDotIndex ∧
    (ResetScanStats s).isInitialized = s.isInitialized ∧
    (ResetScanStats s).isListening = s.isListening ∧
    (ResetScanStats s).redrawScreen = s.redrawScreen ∧
    (ResetScanStats s).fMeasure = s.fMeasure ∧
    (ResetScanStats s).audioState = s.audioState ∧
    (ResetScanStats s).menuState = s.menuState ∧
    (ResetScanStats s).hwTrace = s.hwTrace ∧
    (ResetScanStats s).hwIn = s.hwIn ∧
    (ResetScanStats s).hwReads = s.hwReads := by
  unfold ResetScanStats
  repeat' (first | split_ifs | simp [hwCall, BK4819_ReadRegister, BK4819_WriteRegister, BK4819_GetRSSI])

@[simp] theorem InitScan_frame (s : Spectrum) :
    (InitScan s).currentState = s.currentState ∧
    (InitScan s).peak = s.peak ∧
    (InitScan s).settings = s.settings ∧
    (InitScan s).rssiHistory = s.rssiHistory ∧
    (InitScan s).listenT = s.listenT ∧
    (InitScan s).currentFreq = s.currentFreq ∧
    (InitScan s).tempFreq = s.tempFreq ∧
    (InitScan s).freqInputIndex = s.freqInputIndex ∧
    (InitScan s).freqInputArr = s.freqInputArr ∧
    (InitScan s).freqInputString = s.freqInputString ∧
    (InitScan s).freqInputDotIndex = s.freqInputDotIndex ∧
    (InitScan s).isInitialized = s.isInitialized ∧
    (InitScan s).isListening = s.isListening ∧
    (InitScan s).redrawScreen = s.redrawScreen ∧
    (InitScan s).fMeasure = s.fMeasure ∧
    (InitScan s).audioState = s.audioState ∧
    (InitScan s).menuState = s.menuState ∧
    (InitScan s).hwTrace = s.hwTrace ∧
    (InitScan s).hwIn = s.hwIn ∧
    (InitScan s).hwReads = s.hwReads := by
  unfold InitScan
  repeat' (first | split_ifs | simp [hwCall, BK4819_ReadRegister, BK4819_WriteRegister, BK4819_GetRSSI])

@[simp] theorem ResetBlacklist_frame (s : Spectrum) :
    (ResetBlacklist s).currentState = s.currentState ∧
    (ResetBlacklist s).peak = s.peak ∧
    (ResetBlacklist s).settings = s.settings ∧
    (ResetBlacklist s).scanInfo = s.scanInfo ∧
    (ResetBlacklist s).listenT = s.listenT ∧
    (ResetBlacklist s).currentFreq = s.currentFreq ∧
    (ResetBlacklist s).tempFreq = s.tempFreq ∧
    (ResetBlacklist s).freqInputIndex = s.freqInputIndex ∧
    (ResetBlacklist s).freqInputArr = s.freqInputArr ∧
    (ResetBlacklist s).freqInputString = s.freqInputString ∧
    (ResetBlacklist s).freqInputDotIndex = s.freqInputDotIndex ∧
    (ResetBlacklist s).isInitialized = s.isInitialized ∧
    (ResetBlacklist s).isListening = s.isListening ∧
    (ResetBlacklist s).redrawScreen = s.redrawScreen ∧
    (ResetBlacklist s).fMeasure = s.fMeasure ∧
    (ResetBlacklist s).audioState = s.audioState ∧
    (ResetBlacklist s).menuState = s.menuState ∧
    (ResetBlacklist s).hwTrace = s.hwTrace ∧
    (ResetBlacklist s).hwIn = s.hwIn ∧
    (ResetBlacklist s).hwReads = s.hwReads := by
  unfold ResetBlacklist
  repeat' (first | split_ifs | simp [hwCall, BK4819_ReadRegister, BK4819_WriteRegister, BK4819_GetRSSI])

@[simp] theorem NewBandOrLevel_frame (s : Spectrum) :
    (NewBandOrLevel s).currentState = s.currentState ∧
    (NewBandOrLevel s).listenT = s.listenT ∧
    (NewBandOrLevel s).currentFreq = s.currentFreq ∧
    (NewBandOrLevel s).tempFreq = s.tempFreq ∧
    (NewBandOrLevel s).freqInputIndex = s.freqInputIndex ∧
    (NewBandOrLevel s).freqInputArr = s.freqInputArr ∧
    (NewBandOrLevel s).freqInputString = s.freqInputString ∧
    (NewBandOrLevel s).freqInputDotIndex = s.freqInputDotIndex ∧
    (NewBandOrLevel s).isInitialized = s.isInitialized ∧
    (NewBandOrLevel s).redrawScreen = s.redrawScreen ∧
    (NewBandOrLevel s).fMeasure = s.fMeasure ∧
    (NewBandOrLevel s).menuState = s.menuState ∧
    (NewBandOrLevel s).hwIn = s.hwIn := by
  unfold NewBandOrLevel
  repeat' (first | split_ifs | simp [hwCall, BK4819_ReadRegister, BK4819_WriteRegister, BK4819_GetRSSI])

@[simp] theorem UpdateScanInfo_frame (s : Spectrum) :
    (UpdateScanInfo s).currentState = s.currentState ∧
    (UpdateScanInfo s).peak = s.peak ∧
    (UpdateScanInfo s).settings = s.settings ∧
    (UpdateScanInfo s).rssiHistory = s.rssiHistory ∧
    (UpdateScanInfo s).listenT = s.listenT ∧
    (UpdateScanInfo s).currentFreq = s.currentFreq ∧
    (UpdateScanInfo s).tempFreq = s.tempFreq ∧
    (UpdateScanInfo s).freqInputIndex = s.freqInputIndex ∧
    (UpdateScanInfo s).freqInputArr = s.freqInputArr ∧
    (UpdateScanInfo s).freqInputString = s.freqInputString ∧
    (UpdateScanInfo s).freqInputDotIndex = s.freqInputDotIndex ∧
    (UpdateScanInfo s).isInitialized = s.isInitialized ∧
    (UpdateScanInfo s).isListening = s.isListening ∧
    (UpdateScanInfo s).redrawScreen = s.redrawScreen ∧
    (UpdateScanInfo s).fMeasure = s.fMeasure ∧
    (UpdateScanInfo s).audioState = s.audioState ∧
    (UpdateScanInfo s).menuState = s.menuState ∧
    (UpdateScanInfo s).hwTrace = s.hwTrace ∧
    (UpdateScanInfo s).hwIn = s.hwIn ∧
    (UpdateScanInfo s).hwReads = s.hwReads := by
  unfold UpdateScanInfo
  repeat' (first | split_ifs | simp [hwCall, BK4819_ReadRegister, BK4819_WriteRegister, BK4819_GetRSSI])

@[simp] theorem UpdatePeakInfo_frame (s : Spectrum) :
    (UpdatePeakInfo s).currentState = s.currentState ∧
    (UpdatePeakInfo s).rssiHistory = s.rssiHistory ∧
    (UpdatePeakInfo s).scanInfo = s.scanInfo ∧
    (UpdatePeakInfo s).listenT = s.listenT ∧
    (UpdatePeakInfo s).currentFreq = s.currentFreq ∧
    (UpdatePeakInfo s).tempFreq = s.tempFreq ∧
    (UpdatePeakInfo s).freqInputIndex = s.freqInputIndex ∧
    (UpdatePeakInfo s).freqInputArr = s.freqInputArr ∧
    (UpdatePeakInfo s).freqInputString = s.freqInputString ∧
    (UpdatePeakInfo s).freqInputDotIndex = s.freqInputDotIndex ∧
    (UpdatePeakInfo s).isInitialized = s.isInitialized ∧
    (UpdatePeakInfo s).isListening = s.isListening ∧
    (UpdatePeakInfo s).redrawScreen = s.redrawScreen ∧
    (UpdatePeakInfo s).fMeasure = s.fMeasure ∧
    (UpdatePeakInfo s).audioState = s.audioState ∧
    (UpdatePeakInfo s).menuState = s.menuState ∧
    (UpdatePeakInfo s).hwTrace = s.hwTrace ∧
    (UpdatePeakInfo s).hwIn = s.hwIn ∧
    (UpdatePeakInfo s).hwReads = s.hwReads := by
  unfold UpdatePeakInfo
  repeat' (first | split_ifs | simp [hwCall, BK4819_ReadRegister, BK4819_WriteRegister, BK4819_GetRSSI])

@[simp] theorem Measure_frame (s : Spectrum) :
    (Measure s).currentState = s.currentState ∧
    (Measure s).peak = s.peak ∧
    (Measure s).settings = s.settings ∧
    (Measure s).listenT = s.listenT ∧
    (Measure s).currentFreq = s.currentFreq ∧
    (Measure s).tempFreq = s.tempFreq ∧
    (Measure s).freqInputIndex = s.freqInputIndex ∧
    (Measure s).freqInputArr = s.freqInputArr ∧
    (Measure s).freqInputString = s.freqInputString ∧
    (Measure s).freqInputDotIndex = s.freqInputDotIndex ∧
    (Measure s).isInitialized = s.isInitialized ∧
    (Measure s).isListening = s.isListening ∧
    (Measure s).redrawScreen = s.redrawScreen ∧
    (Measure s).fMeasure = s.fMeasure ∧
    (Measure s).audioState = s.audioState ∧
    (Measure s).menuState = s.menuState ∧
    (Measure s).hwIn = s.hwIn := by
  unfold Measure
  repeat' (first | split_ifs | simp [hwCall, BK4819_ReadRegister, BK4819_WriteRegister, BK4819_GetRSSI])

@[simp] theorem TuneToPeak_frame (s : Spectrum) :
    (TuneToPeak s).currentState = s.currentState ∧
    (TuneToPeak s).settings = s.settings ∧
    (TuneToPeak s).rssiHistory = s.rssiHistory ∧
    (TuneToPeak s).listenT = s.listenT ∧
    (TuneToPeak s).currentFreq = s.currentFreq ∧
    (TuneToPeak s).tempFreq = s.tempFreq ∧
    (TuneToPeak s).freqInputIndex = s.freqInputIndex ∧
    (TuneToPeak s).freqInputArr = s.freqInputArr ∧
    (TuneToPeak s).freqInputString = s.freqInputString ∧
    (TuneToPeak s).freqInputDotIndex = s.freqInputDotIndex ∧
    (TuneToPeak s).isInitialized = s.isInitialized ∧
    (TuneToPeak s).isListening = s.isListening ∧
    (TuneToPeak s).redrawScreen = s.redrawScreen ∧
    (TuneToPeak s).audioState = s.audioState ∧
    (TuneToPeak s).menuState = s.menuState ∧
    (TuneToPeak s).hwIn = s.hwIn := by
  unfold TuneToPeak
  repeat' (first | split_ifs | simp [hwCall, BK4819_ReadRegister, BK4819_WriteRegister, BK4819_GetRSSI])

@[simp] theorem Scan_frame (s : Spectrum) :
    (Scan s).currentState = s.currentState ∧
    (Scan s).peak = s.peak ∧
    (Scan s).settings = s.settings ∧
    (Scan s).listenT = s.listenT ∧
    (Scan s).currentFreq = s.currentFreq ∧
    (Scan s).tempFreq = s.tempFreq ∧
    (Scan s).freqInputIndex = s.freqInputIndex ∧
    (Scan s).freqInputArr = s.freqInputArr ∧
    (Scan s).freqInputString = s.freqInputString ∧
    (Scan s).freqInputDotIndex = s.freqInputDotIndex ∧
    (Scan s).isInitialized = s.isInitialized ∧
    (Scan s).isListening = s.isListening ∧
    (Scan s).redrawScreen = s.redrawScreen ∧
    (Scan s).audioState = s.audioState ∧
    (Scan s).menuState = s.menuState ∧
    (Scan s).hwIn = s.hwIn := by
  unfold Scan
  repeat' (first | split_ifs | simp [hwCall, BK4819_ReadRegister, BK4819_WriteRegister, BK4819_GetRSSI])

@[simp] theorem NextScanStep_frame (s : Spectrum) :
    (NextScanStep s).currentState = s.currentState ∧
    (NextScanStep s).settings = s.settings ∧
    (NextScanStep s).rssiHistory = s.rssiHistory ∧
    (NextScanStep s).listenT = s.listenT ∧
    (NextScanStep s).currentFreq = s.currentFreq ∧
    (NextScanStep s).tempFreq = s.tempFreq ∧
    (NextScanStep s).freqInputIndex = s.freqInputIndex ∧
    (NextScanStep s).freqInputArr = s.freqInputArr ∧
    (NextScanStep s).freqInputString = s.freqInputString ∧
    (NextScanStep s).freqInputDotIndex = s.freqInputDotIndex ∧
    (NextScanStep s).isInitialized = s.isInitialized ∧
    (NextScanStep s).isListening = s.isListening ∧
    (NextScanStep s).redrawScreen = s.redrawScreen ∧
    (NextScanStep s).fMeasure = s.fMeasure ∧
    (NextScanStep s).audioState = s.audioState ∧
    (NextScanStep s).menuState = s.menuState ∧
    (NextScanStep s).hwTrace = s.hwTrace ∧
    (NextScanStep s).hwIn = s.hwIn ∧
    (NextScanStep s).hwReads = s.hwReads := by
  unfold NextScanStep
  repeat' (first | split_ifs | simp [hwCall, BK4819_ReadRegister, BK4819_WriteRegister, BK4819_GetRSSI])

@[simp] theorem ResetFreqInput_frame (s : Spectrum) :
    (ResetFreqInput s).currentState = s.currentState ∧
    (ResetFreqInput s).peak = s.peak ∧
    (ResetFreqInput s).settings = s.settings ∧
    (ResetFreqInput s).rssiHistory = s.rssiHistory ∧
    (ResetFreqInput s).scanInfo = s.scanInfo ∧
    (ResetFreqInput s).listenT = s.listenT ∧
    (ResetFreqInput s).currentFreq = s.currentFreq ∧
    (ResetFreqInput s).freqInputIndex = s.freqInputIndex ∧
    (ResetFreqInput s).freqInputArr = s.freqInputArr ∧
    (ResetFreqInput s).freqInputDotIndex = s.freqInputDotIndex ∧
    (ResetFreqInput s).isInitialized = s.isInitialized ∧
    (ResetFreqInput s).isListening = s.isListening ∧
    (ResetFreqInput s).redrawScreen = s.redrawScreen ∧
    (ResetFreqInput s).fMeasure = s.fMeasure ∧
    (ResetFreqInput s).audioState = s.audioState ∧
    (ResetFreqInput s).menuState = s.menuState ∧
    (ResetFreqInput s).hwTrace = s.hwTrace ∧
    (ResetFreqInput s).hwIn = s.hwIn ∧
    (ResetFreqInput s).hwReads = s.hwReads := by
  unfold ResetFreqInput
  repeat' (first | split_ifs | simp [hwCall, BK4819_ReadRegister, BK4819_WriteRegister, BK4819_GetRSSI])

@[simp] theorem FreqInput_frame (s : Spectrum) :
    (FreqInput s).peak = s.peak ∧
    (FreqInput s).settings = s.settings ∧
    (FreqInput s).rssiHistory = s.rssiHistory ∧
    (FreqInput s).scanInfo = s.scanInfo ∧
    (FreqInput s).listenT = s.listenT ∧
    (FreqInput s).currentFreq = s.currentFreq ∧
    (FreqInput s).freqInputArr = s.freqInputArr ∧
    (FreqInput s).isInitialized = s.isInitialized ∧
    (FreqInput s).isListening = s.isListening ∧
    (FreqInput s).redrawScreen = s.redrawScreen ∧
    (FreqInput s).fMeasure = s.fMeasure ∧
    (FreqInput s).audioState = s.audioState ∧
    (FreqInput s).menuState = s.menuState ∧
    (FreqInput s).hwTrace = s.hwTrace ∧
    (FreqInput s).hwIn = s.hwIn ∧
    (FreqInput s).hwReads = s.hwReads := by
  unfold FreqInput
  repeat' (first | split_ifs | simp [hwCall, BK4819_ReadRegister, BK4819_WriteRegister, BK4819_GetRSSI])

@[simp] theorem UpdateFreqInput_frame (s : Spectrum) (key : KEY_Code_t) :
    (UpdateFreqInput key s).currentState = s.currentState ∧
    (UpdateFreqInput key s).peak = s.peak ∧
    (UpdateFreqInput key s).settings = s.settings ∧
    (UpdateFreqInput key s).rssiHistory = s.rssiHistory ∧
    (UpdateFreqInput key s).scanInfo = s.scanInfo ∧
    (UpdateFreqInput key s).listenT = s.listenT ∧
    (UpdateFreqInput key s).currentFreq = s.currentFreq ∧
    (UpdateFreqInput key s).isInitialized = s.isInitialized ∧
    (UpdateFreqInput key s).isListening = s.isListening ∧
    (UpdateFreqInput key s).redrawScreen = s.redrawScreen ∧
    (UpdateFreqInput key s).fMeasure = s.fMeasure ∧
    (UpdateFreqInput key s).audioState = s.audioState ∧
    (UpdateFreqInput key s).menuState = s.menuState ∧
    (UpdateFreqInput key s).hwTrace = s.hwTrace ∧
    (UpdateFreqInput key s).hwIn = s.hwIn ∧
    (UpdateFreqInput key s).hwReads = s.hwReads := by
  unfold UpdateFreqInput
  repeat' (first | split_ifs | simp [hwCall, BK4819_ReadRegister, BK4819_WriteRegister, BK4819_GetRSSI])

@[simp] theorem updatePrepare_frame (s : Spectrum) :
    (updatePrepare s).currentState = s.currentState ∧
    (updatePrepare s).settings = s.settings ∧
    (updatePrepare s).rssiHistory = s.rssiHistory ∧
    (updatePrepare s).listenT = s.listenT ∧
    (updatePrepare s).currentFreq = s.currentFreq ∧
    (updatePrepare s).tempFreq = s.tempFreq ∧
    (updatePrepare s).freqInputIndex = s.freqInputIndex ∧
    (updatePrepare s).freqInputArr = s.freqInputArr ∧
    (updatePrepare s).freqInputString = s.freqInputString ∧
    (updatePrepare s).freqInputDotIndex = s.freqInputDotIndex ∧
    (updatePrepare s).isInitialized = s.isInitialized ∧
    (updatePrepare s).isListening = s.isListening ∧
    (updatePrepare s).redrawScreen = s.redrawScreen ∧
    (updatePrepare s).fMeasure = s.fMeasure ∧
    (updatePrepare s).audioState = s.audioState ∧
    (updatePrepare s).menuState = s.menuState ∧
    (updatePrepare s).hwIn = s.hwIn ∧
    (updatePrepare s).hwReads = s.hwReads := by
  unfold updatePrepare
  repeat' (first | split_ifs | simp [hwCall, BK4819_ReadRegister, BK4819_WriteRegister, BK4819_GetRSSI])

@[simp] theorem updateRestoreBW_frame (s : Spectrum) :
    (updateRestoreBW s).currentState = s.currentState ∧
    (updateRestoreBW s).peak = s.peak ∧
    (updateRestoreBW s).settings = s.settings ∧
    (updateRestoreBW s).rssiHistory = s.rssiHistory ∧
    (updateRestoreBW s).scanInfo = s.scanInfo ∧
    (updateRestoreBW s).listenT = s.listenT ∧
    (updateRestoreBW s).currentFreq = s.currentFreq ∧
    (updateRestoreBW s).tempFreq = s.tempFreq ∧
    (updateRestoreBW s).freqInputIndex = s.freqInputIndex ∧
    (updateRestoreBW s).freqInputArr = s.freqInputArr ∧
    (updateRestoreBW s).freqInputString = s.freqInputString ∧
    (updateRestoreBW s).freqInputDotIndex = s.freqInputDotIndex ∧
    (updateRestoreBW s).isInitialized = s.isInitialized ∧
    (updateRestoreBW s).isListening = s.isListening ∧
    (updateRestoreBW s).redrawScreen = s.redrawScreen ∧
    (updateRestoreBW s).fMeasure = s.fMeasure ∧
    (updateRestoreBW s).audioState = s.audioState ∧
    (updateRestoreBW s).menuState = s.menuState ∧
    (updateRestoreBW s).hwIn = s.hwIn ∧
    (updateRestoreBW s).hwReads = s.hwReads := by
  unfold updateRestoreBW
  repeat' (first | split_ifs | simp [hwCall, BK4819_ReadRegister, BK4819_WriteRegister, BK4819_GetRSSI])

@[simp] theorem updateDecide_frame (s : Spectrum) :
    (updateDecide s).currentState = s.currentState ∧
    (updateDecide s).rssiHistory = s.rssiHistory ∧
    (updateDecide s).currentFreq = s.currentFreq ∧
    (updateDecide s).tempFreq = s.tempFreq ∧
    (updateDecide s).freqInputIndex = s.freqInputIndex ∧
    (updateDecide s).freqInputArr = s.freqInputArr ∧
    (updateDecide s).freqInputString = s.freqInputString ∧
    (updateDecide s).freqInputDotIndex = s.freqInputDotIndex ∧
    (updateDecide s).isInitialized = s.isInitialized ∧
    (updateDecide s).menuState = s.menuState ∧
    (updateDecide s).hwIn = s.hwIn := by
  unfold updateDecide
  repeat' (first | split_ifs | simp [hwCall, BK4819_ReadRegister, BK4819_WriteRegister, BK4819_GetRSSI])

theorem Update_eq (s : Spectrum) :
    Update s =
      if s.isListening ∧ s.listenT ≠ 0 then
        hwCall (HwCall.SYSTEM_DelayMs 1) { s with listenT := s.listenT - 1 }
      else updateDecide (updateRestoreBW (Scan (updatePrepare s))) := by
  rfl

/-! ## Frequency input round trip (claim C1) -/

theorem decimalValue_append_singleton (l : List KEY_Code_t) (k : KEY_Code_t) :
    decimalValue (l ++ [k]) = 10 * decimalValue l + k.toNat := by
  simp [decimalValue, List.foldl_append]

theorem foldl_decimal (l : List KEY_Code_t) (a : Nat) :
    l.foldl (fun acc key => 10 * acc + key.toNat) a =
      a * 10 ^ l.length + l.foldl (fun acc key => 10 * acc + key.toNat) 0 := by
  induction l generalizing a with
  | nil => simp
  | cons k l ih =>
    simp only [List.foldl_cons, List.length_cons]
    rw [ih (10 * a + k.toNat), ih (10 * 0 + k.toNat)]
    ring

theorem decimalValue_cons (k : KEY_Code_t) (l : List KEY_Code_t) :
    decimalValue (k :: l) = k.toNat * 10 ^ l.length + decimalValue l := by
  unfold decimalValue
  rw [List.foldl_cons, foldl_decimal]
  simp

theorem decimalValue_lt (l : List KEY_Code_t) (h : ∀ k ∈ l, k.toNat ≤ 9) :
    decimalValue l < 10 ^ l.length := by
  induction l with
  | nil => simp [decimalValue]
  | cons k l ih =>
    rw [decimalValue_cons, List.length_cons, pow_succ]
    have hk := h k (List.mem_cons_self _ _)
    have hl := ih (fun x hx => h x (List.mem_cons_of_mem _ hx))
    nlinarith

theorem fractionUnits_zero (l : List KEY_Code_t) : fractionUnits l 0 = 0 := by
  induction l with
  | nil => rfl
  | cons k l ih => simp [fractionUnits, ih]

/-- The fraction loop computes the floor of `0.fracs` times `10^(e+1)`. -/
theorem fractionUnits_pow (l : List KEY_Code_t) (h : ∀ k ∈ l, k.toNat ≤ 9) (e : Nat) :
    fractionUnits l (10 ^ e) = decimalValue l * 10 ^ (e + 1) / 10 ^ l.length := by
  induction l generalizing e with
  | nil => simp [fractionUnits, decimalValue]
  | cons k l ih =>
    have hl : ∀ x ∈ l, x.toNat ≤ 9 := fun x hx => h x (List.mem_cons_of_mem _ hx)
    have hpos : 0 < 10 ^ l.length := Nat.pos_pow_of_pos _ (by norm_num)
    rw [fractionUnits, decimalValue_cons, List.length_cons]
    cases e with
    | zero =>
      have h1 : (10 : Nat) ^ 0 / 10 = 0 := by norm_num
      rw [h1, fractionUnits_zero]
      have hlt := decimalValue_lt l hl
      have h2 : (k.toNat * 10 ^ l.length + decimalValue l) * 10 ^ (0 + 1) =
          (k.toNat * 10 ^ l.length + decimalValue l) * 10 := by norm_num
      rw [h2, pow_succ, Nat.mul_div_mul_right _ _ (by norm_num : 0 < 10)]
      rw [Nat.add_comm (k.toNat * 10 ^ l.length), Nat.add_mul_div_right _ _ hpos,
        Nat.div_eq_of_lt hlt]
      simp
    | succ e =>
      have h1 : (10 : Nat) ^ (e + 1) / 10 = 10 ^ e := by
        rw [pow_succ]; exact Nat.mul_div_cancel _ (by norm_num)
      rw [h1, ih hl e]
      have h2 : (k.toNat * 10 ^ l.length + decimalValue l) * 10 ^ (e + 1 + 1) =
          ((k.toNat * 10 ^ (e + 1)) * 10 ^ l.length + decimalValue l * 10 ^ (e + 1)) * 10 := by
        ring
      rw [h2, pow_succ 10 l.length, Nat.mul_div_mul_right _ _ (by norm_num : 0 < 10)]
      rw [Nat.add_comm ((k.toNat * 10 ^ (e + 1)) * 10 ^ l.length),
        Nat.add_mul_div_right _ _ hpos]
      ring

theorem intLoop_lt (arr : List KEY_Code_t) (n : Nat) :
    ∀ t b, t < U32 → (intLoop arr n t b).1 < U32 := by
  induction n with
  | zero => intro t b h; exact h
  | succ n ih =>
    intro t b _
    rw [intLoop]
    exact ih _ _ (Nat.mod_lt _ (by decide))

theorem fracLoop_lt (arr : List KEY_Code_t) (n : Nat) :
    ∀ i t b, t < U32 → fracLoop arr n i t b < U32 := by
  induction n with
  | zero => intro i t b h; exact h
  | succ n ih =>
    intro i t b _
    rw [fracLoop]
    exact ih _ _ _ (Nat.mod_lt _ (by decide))

theorem getD_append_cons (pre rest : List KEY_Code_t) (k d : KEY_Code_t) :
    (pre ++ k :: rest).getD pre.length d = k := by
  rw [List.getD_eq_getElem?_getD, List.getElem?_append_right (le_refl _)]
  simp

/-- The integer loop adds `base` times the decimal value of the digits it
walks over, modulo `2^32`. -/
theorem intLoop_modEq (pre : List KEY_Code_t) :
    ∀ (rest : List KEY_Code_t) (t b : Nat),
      (intLoop (pre ++ rest) pre.length t b).1 ≡ t + b * decimalValue pre [MOD U32] := by
  induction pre using List.reverseRecOn with
  | nil =>
    intro rest t b
    simp [intLoop, decimalValue, Nat.ModEq]
  | append_singleton pre k ih =>
    intro rest t b
    have hlen : (pre ++ [k]).length = pre.length + 1 := by simp
    have harr : pre ++ [k] ++ rest = pre ++ k :: rest := by simp
    rw [hlen, harr, intLoop, getD_append_cons]
    refine (ih (k :: rest) _ _).trans ?_
    rw [decimalValue_append_singleton]
    have h1 : (t + k.toNat * b % U32) % U32 ≡ t + k.toNat * b [MOD U32] :=
      (Nat.mod_modEq _ _).trans (Nat.ModEq.add_left t (Nat.mod_modEq _ _))
    have h2 : b * 10 % U32 * decimalValue pre ≡ b * 10 * decimalValue pre [MOD U32] :=
      Nat.ModEq.mul_right _ (Nat.mod_modEq _ _)
    have h3 := Nat.ModEq.add h1 h2
    have h4 : t + k.toNat * b + b * 10 * decimalValue pre =
        t + b * (10 * decimalValue pre + k.toNat) := by ring
    rw [h4] at h3
    exact h3

/-- The fraction loop adds `fractionUnits` of the digits it walks over,
modulo `2^32`. -/
theorem fracLoop_modEq (fs : List KEY_Code_t) :
    ∀ (pre rest : List KEY_Code_t) (t b : Nat),
      fracLoop (pre ++ fs ++ rest) fs.length pre.length t b ≡ t + fractionUnits fs b [MOD U32] := by
  induction fs with
  | nil =>
    intro pre rest t b
    simp [fracLoop, fractionUnits, Nat.ModEq]
  | cons f fs ih =>
    intro pre rest t b
    have harr : pre ++ f :: fs ++ rest = pre ++ f :: (fs ++ rest) := by simp
    have harr2 : pre ++ f :: (fs ++ rest) = (pre ++ [f]) ++ fs ++ rest := by simp
    have hlen : (pre ++ [f]).length = pre.length + 1 := by simp
    rw [List.length_cons, fracLoop, harr, getD_append_cons, harr2, ← hlen]
    refine (ih (pre ++ [f]) rest _ _).trans ?_
    rw [fractionUnits]
    have h1 : (t + f.toNat * b % U32) % U32 ≡ t + f.toNat * b [MOD U32] :=
      (Nat.mod_modEq _ _).trans (Nat.ModEq.add_left t (Nat.mod_modEq _ _))
    have h3 := Nat.ModEq.add_right (fractionUnits fs (b / 10)) h1
    rw [Nat.add_assoc] at h3
    exact h3

/-- The dot index `UpdateFreqInput` parses with: the buffer length when no
marker position is recorded. -/
theorem UpdateFreqInput_push (key : KEY_Code_t) (s : Spectrum) (hkey : key ≠ KEY_EXIT)
    (h : s.freqInputIndex < 10) :
    (UpdateFreqInput key s).freqInputArr = s.freqInputArr.set s.freqInputIndex key ∧
    (UpdateFreqInput key s).freqInputIndex = s.freqInputIndex + 1 ∧
    (UpdateFreqInput key s).freqInputDotIndex =
      (if key = KEY_STAR then s.freqInputIndex else s.freqInputDotIndex) ∧
    (UpdateFreqInput key s).tempFreq =
      parseFreq (UpdateFreqInput key s).freqInputArr (UpdateFreqInput key s).freqInputIndex
        (if (UpdateFreqInput key s).freqInputDotIndex = 0
          then (UpdateFreqInput key s).freqInputIndex
          else (UpdateFreqInput key s).freqInputDotIndex) := by
  have hguard : ¬ (key ≠ KEY_EXIT ∧ s.freqInputIndex ≥ 10) := by
    intro hg
    have := hg.2
    omega
  have hmod : (s.freqInputIndex + 1) % U8 = s.freqInputIndex + 1 :=
    Nat.mod_eq_of_lt (by have : U8 = 256 := rfl; omega)
  unfold UpdateFreqInput
  rw [if_neg hguard]
  by_cases hs : key = KEY_STAR
  · simp [hs, hmod, ResetFreqInput]
  · simp [hs, hkey, hmod, ResetFreqInput]

theorem typeKeys_cons (key : KEY_Code_t) (keys : List KEY_Code_t) (s : Spectrum) :
    typeKeys (key :: keys) s = typeKeys keys (UpdateFreqInput key s) := rfl

theorem typeKeys_buffer (keys : List KEY_Code_t) :
    ∀ (typed tail : List KEY_Code_t) (s : Spectrum),
      s.freqInputArr = typed ++ tail → s.freqInputIndex = typed.length →
      typed.length + tail.length = 10 → keys.length ≤ tail.length →
      (∀ k ∈ keys, k ≠ KEY_EXIT) →
      (typeKeys keys s).freqInputArr = typed ++ keys ++ tail.drop keys.length ∧
      (typeKeys keys s).freqInputIndex = typed.length + keys.length ∧
      (typeKeys keys s).freqInputDotIndex = dotAfter s.freqInputDotIndex typed.length keys ∧
      (keys ≠ [] →
        (typeKeys keys s).tempFreq =
          parseFreq (typeKeys keys s).freqInputArr (typeKeys keys s).freqInputIndex
            (if (typeKeys keys s).freqInputDotIndex = 0
              then (typeKeys keys s).freqInputIndex
              else (typeKeys keys s).freqInputDotIndex)) := by
  induction keys with
  | nil =>
    intro typed tail s harr hidx _ _ _
    simp [typeKeys, dotAfter, harr, hidx]
  | cons k keys ih =>
    intro typed tail s harr hidx hlen hroom hne
    cases tail with
    | nil => simp at hroom
    | cons t0 tail =>
      have hk : k ≠ KEY_EXIT := hne k (List.mem_cons_self _ _)
      have hlt : s.freqInputIndex < 10 := by
        rw [hidx]; simp at hlen; omega
      have hp := UpdateFreqInput_push k s hk hlt
      have harr1 : (UpdateFreqInput k s).freqInputArr = (typed ++ [k]) ++ tail := by
        rw [hp.1, harr, hidx]
        simp
      have hidx1 : (UpdateFreqInput k s).freqInputIndex = (typed ++ [k]).length := by
        rw [hp.2.1, hidx]; simp
      have hlen1 : (typed ++ [k]).length + tail.length = 10 := by
        simp at hlen ⊢; omega
      have hroom1 : keys.length ≤ tail.length := by simp at hroom; omega
      have h := ih (typed ++ [k]) tail (UpdateFreqInput k s) harr1 hidx1 hlen1 hroom1
        (fun x hx => hne x (List.mem_cons_of_mem _ hx))
      rw [typeKeys_cons]
      refine ⟨?_, ?_, ?_, ?_⟩
      · rw [h.1]; simp
      · rw [h.2.1]; simp; omega
      · rw [h.2.2.1, hp.2.2.1, hidx]
        simp [dotAfter]
      · intro _
        by_cases hnil : keys = []
        · subst hnil
          exact hp.2.2.2
        · exact h.2.2.2 hnil

theorem dotAfter_digits (keys : List KEY_Code_t) (h : ∀ k ∈ keys, k.toNat ≤ 9) :
    ∀ d i, dotAfter d i keys = d := by
  induction keys with
  | nil => intro d i; rfl
  | cons k keys ih =>
    intro d i
    have hk : k ≠ KEY_STAR := by
      intro he
      have := h k (List.mem_cons_self _ _)
      rw [he] at this
      exact absurd this (by decide)
    rw [dotAfter, if_neg hk]
    exact ih (fun x hx => h x (List.mem_cons_of_mem _ hx)) d (i + 1)

theorem dotAfter_append (l1 l2 : List KEY_Code_t) :
    ∀ d i, dotAfter d i (l1 ++ l2) = dotAfter (dotAfter d i l1) (i + l1.length) l2 := by
  induction l1 with
  | nil => intro d i; rfl
  | cons k l1 ih =>
    intro d i
    rw [List.cons_append, dotAfter, dotAfter, ih, List.length_cons]
    congr 1
    omega

theorem FreqInput_fresh (s : Spectrum) :
    (FreqInput s).freqInputIndex = 0 ∧ (FreqInput s).freqInputDotIndex = 0 ∧
    (FreqInput s).tempFreq = 0 ∧ (FreqInput s).currentState = Mode.FREQ_INPUT := by
  simp [FreqInput, ResetFreqInput]

theorem eq_mod_of_modEq_of_lt {a b : Nat} (h : a ≡ b [MOD U32]) (hlt : a < U32) : a = b % U32 := by
  have h1 : a % U32 = b % U32 := h
  rw [Nat.mod_eq_of_lt hlt] at h1
  exact h1

/-- Digits only: the candidate is the literal times 100000, modulo `2^32`. -/
theorem typed_tempFreq_digits (s : Spectrum) (ints : List KEY_Code_t)
    (harr : s.freqInputArr.length = 10) (hints : ∀ k ∈ ints, k.toNat ≤ 9)
    (hlen : ints.length ≤ 10) :
    (typeKeys ints (FreqInput s)).tempFreq = (decimalValue ints * 100000) % U32 := by
  by_cases hnil : ints = []
  · subst hnil
    simp [typeKeys, (FreqInput_fresh s).2.2.1, decimalValue]
  · have hne : ∀ k ∈ ints, k ≠ KEY_EXIT := by
      intro k hk he
      have := hints k hk
      rw [he] at this
      exact absurd this (by decide)
    have hb := typeKeys_buffer ints [] s.freqInputArr (FreqInput s) (by simp)
      (by simp [(FreqInput_fresh s).1]) (by simpa using harr) (by rw [harr]; exact hlen) hne
    obtain ⟨h1, h2, h3, h4⟩ := hb
    rw [h4 hnil, h3, (FreqInput_fresh s).2.1, dotAfter_digits ints hints, if_pos rfl, h2, h1]
    simp only [List.length_nil, Nat.zero_add, List.nil_append]
    unfold parseFreq
    rw [if_neg (lt_irrefl _)]
    have hm := intLoop_modEq ints (List.drop ints.length s.freqInputArr) 0 100000
    have hl := intLoop_lt (ints ++ List.drop ints.length s.freqInputArr) ints.length 0 100000
      (by decide)
    rw [eq_mod_of_modEq_of_lt hm hl]
    congr 1
    ring

/-- Digits, the marker, digits: the candidate is the integer part times
100000 plus the floor of the fraction times 100000, modulo `2^32`. -/
theorem typed_tempFreq_marker (s : Spectrum) (ints fracs : List KEY_Code_t)
    (harr : s.freqInputArr.length = 10) (hints : ∀ k ∈ ints, k.toNat ≤ 9)
    (hfracs : ∀ k ∈ fracs, k.toNat ≤ 9) (hnil : ints ≠ [])
    (hlen : (ints ++ KEY_STAR :: fracs).length ≤ 10) :
    (typeKeys (ints ++ KEY_STAR :: fracs) (FreqInput s)).tempFreq =
      (decimalValue ints * 100000 + decimalValue fracs * 100000 / 10 ^ fracs.length) % U32 := by
  have hdig : ∀ l : List KEY_Code_t, (∀ k ∈ l, k.toNat ≤ 9) → ∀ k ∈ l, k ≠ KEY_EXIT := by
    intro l hl k hk he
    have := hl k hk
    rw [he] at this
    exact absurd this (by decide)
  have hne : ∀ k ∈ ints ++ KEY_STAR :: fracs, k ≠ KEY_EXIT := by
    intro k hk
    rcases List.mem_append.1 hk with h | h
    · exact hdig ints hints k h
    · rcases List.mem_cons.1 h with h | h
      · rw [h]; decide
      · exact hdig fracs hfracs k h
  have hnonempty : ints ++ KEY_STAR :: fracs ≠ [] := by simp
  have hb := typeKeys_buffer (ints ++ KEY_STAR :: fracs) [] s.freqInputArr (FreqInput s)
    (by simp) (by simp [(FreqInput_fresh s).1]) (by simpa using harr) (by rw [harr]; exact hlen) hne
  obtain ⟨h1, h2, h3, h4⟩ := hb
  have hpos : ints.length ≠ 0 := by
    intro h0
    exact hnil (List.length_eq_zero.1 h0)
  have hdot : dotAfter 0 0 (ints ++ KEY_STAR :: fracs) = ints.length := by
    rw [dotAfter_append, dotAfter_digits ints hints, dotAfter, if_pos rfl,
      dotAfter_digits fracs hfracs]
    simp
  have h3a : (typeKeys (ints ++ KEY_STAR :: fracs) (FreqInput s)).freqInputDotIndex =
      ints.length := by
    rw [h3, (FreqInput_fresh s).2.1]
    exact hdot
  rw [h4 hnonempty, h3a, if_neg hpos, h2, h1]
  simp only [List.length_nil, Nat.zero_add, List.nil_append, List.length_append,
    List.length_cons]
  unfold parseFreq
  rw [if_pos (by omega)]
  have hcount : ints.length + (fracs.length + 1) - (ints.length + 1) = fracs.length := by omega
  rw [hcount]
  generalize List.drop (ints.length + (fracs.length + 1)) s.freqInputArr = rest
  have harr1 : ints ++ KEY_STAR :: fracs ++ rest = ints ++ (KEY_STAR :: fracs ++ rest) := by simp
  have harr2 : ints ++ KEY_STAR :: fracs ++ rest = (ints ++ [KEY_STAR]) ++ fracs ++ rest := by simp
  have hlen2 : ints.length + 1 = (ints ++ [KEY_STAR]).length := by simp
  have hm := intLoop_modEq ints (KEY_STAR :: fracs ++ rest) 0 100000
  rw [← harr1] at hm
  have hf := fracLoop_modEq fracs (ints ++ [KEY_STAR]) rest
    (intLoop (ints ++ KEY_STAR :: fracs ++ rest) ints.length 0 100000).1 10000
  rw [← harr2, ← hlen2] at hf
  have hl := fracLoop_lt (ints ++ KEY_STAR :: fracs ++ rest) fracs.length (ints.length + 1)
    (intLoop (ints ++ KEY_STAR :: fracs ++ rest) ints.length 0 100000).1 10000
    (intLoop_lt _ _ 0 100000 (by decide))
  have hunits : fractionUnits fracs 10000 = decimalValue fracs * 100000 / 10 ^ fracs.length := by
    have := fractionUnits_pow fracs hfracs 4
    norm_num at this
    exact this
  have htotal := hf.trans (Nat.ModEq.add_right (fractionUnits fracs 10000) hm)
  rw [eq_mod_of_modEq_of_lt htotal hl, hunits]
  congr 1
  ring

theorem integerKeys_cons (k : KEY_Code_t) (keys : List KEY_Code_t) :
    integerKeys (k :: keys) = if k = KEY_STAR then [] else k :: integerKeys keys := by
  by_cases h : k = KEY_STAR <;> simp [integerKeys, List.takeWhile, h]

theorem fractionKeys_cons (k : KEY_Code_t) (keys : List KEY_Code_t) :
    fractionKeys (k :: keys) = if k = KEY_STAR then keys else fractionKeys keys := by
  by_cases h : k = KEY_STAR <;> simp [fractionKeys, List.dropWhile, h]

/-- A key sequence is its integer keys, alone when it has no marker, or
followed by the first marker and the fraction keys. -/
theorem keys_split (keys : List KEY_Code_t) :
    (keys = integerKeys keys ∧ fractionKeys keys = []) ∨
    keys = integerKeys keys ++ KEY_STAR :: fractionKeys keys := by
  induction keys with
  | nil => left; simp [integerKeys, fractionKeys]
  | cons k keys ih =>
    rw [integerKeys_cons, fractionKeys_cons]
    by_cases h : k = KEY_STAR
    · right; simp [h]
    · simp only [if_neg h]
      rcases ih with ⟨h1, h2⟩ | h1
      · left; exact ⟨by rw [← h1], h2⟩
      · right; rw [List.cons_append, ← h1]

theorem integerKeys_digits (keys : List KEY_Code_t)
    (hkeys : ∀ k ∈ keys, k.toNat ≤ 9 ∨ k = KEY_STAR) : ∀ k ∈ integerKeys keys, k.toNat ≤ 9 := by
  induction keys with
  | nil => intro k hk; simp [integerKeys] at hk
  | cons a keys ih =>
    intro k hk
    rw [integerKeys_cons] at hk
    by_cases h : a = KEY_STAR
    · simp [h] at hk
    · rw [if_neg h] at hk
      rcases List.mem_cons.1 hk with he | hm
      · rw [he]
        rcases hkeys a (List.mem_cons_self _ _) with hd | hs
        · exact hd
        · exact absurd hs h
      · exact ih (fun x hx => hkeys x (List.mem_cons_of_mem _ hx)) k hm

theorem fractionKeys_digits (keys : List KEY_Code_t)
    (hkeys : ∀ k ∈ keys, k.toNat ≤ 9 ∨ k = KEY_STAR) (hstar : keys.count KEY_STAR ≤ 1) :
    ∀ k ∈ fractionKeys keys, k.toNat ≤ 9 := by
  induction keys with
  | nil => intro k hk; simp [fractionKeys] at hk
  | cons a keys ih =>
    intro k hk
    rw [fractionKeys_cons] at hk
    by_cases h : a = KEY_STAR
    · rw [if_pos h] at hk
      have hc : keys.count KEY_STAR = 0 := by
        rw [h, List.count_cons_self] at hstar
        omega
      rcases hkeys k (List.mem_cons_of_mem _ hk) with hd | hs
      · exact hd
      · rw [hs] at hk
        exact absurd hk (List.count_eq_zero.1 hc)
    · rw [if_neg h] at hk
      have hc : keys.count KEY_STAR ≤ 1 := by
        rw [List.count_cons_of_ne (Ne.symm h)] at hstar
        exact hstar
      exact ih (fun x hx => hkeys x (List.mem_cons_of_mem _ hx)) hc k hk

/-- From the rational equation `(I + F / 10^m) * 100000 = n` to natural
numbers: the fraction contributes an exact quotient. -/
theorem literal_units (I F m n : Nat)
    (h : ((I : ℚ) + (F : ℚ) / (10 : ℚ) ^ m) * 100000 = (n : ℚ)) :
    I * 100000 + F * 100000 / 10 ^ m = n ∧ n * 10 ^ m = (I * 10 ^ m + F) * 100000 := by
  have hP : ((10 : ℚ) ^ m) ≠ 0 := pow_ne_zero _ (by norm_num)
  have hq : ((I : ℚ) * (10 : ℚ) ^ m + (F : ℚ)) * 100000 = (n : ℚ) * (10 : ℚ) ^ m := by
    rw [← h]
    field_simp
  have hn : (I * 10 ^ m + F) * 100000 = n * 10 ^ m := by exact_mod_cast hq
  have hpos : 0 < 10 ^ m := Nat.pos_pow_of_pos _ (by norm_num)
  have hge : I * 100000 ≤ n := by
    by_contra hlt
    have hlt : n < I * 100000 := not_le.1 hlt
    have : n * 10 ^ m < I * 100000 * 10 ^ m := Nat.mul_lt_mul_of_pos_right hlt hpos
    nlinarith
  have hF : F * 100000 = (n - I * 100000) * 10 ^ m := by
    rw [Nat.sub_mul]
    have : I * 100000 * 10 ^ m + F * 100000 = n * 10 ^ m := by rw [← hn]; ring
    omega
  refine ⟨?_, hn.symm⟩
  rw [hF, Nat.mul_div_cancel _ hpos]
  omega

theorem commit_currentFreq (s : Spectrum) (h : F_MIN ≤ s.tempFreq ∧ s.tempFreq ≤ F_MAX) :
    (OnKeyDownFreqInput KEY_MENU s).currentFreq = s.tempFreq ∧
    (OnKeyDownFreqInput KEY_MENU s).currentState = Mode.SPECTRUM := by
  have h1 : s.tempFreq ≥ F_MIN ∧ s.tempFreq ≤ F_MAX := h
  constructor <;> simp [OnKeyDownFreqInput, h1]

/-- The candidate after typing a literal that denotes `n / 100000` MHz with
`n` in range. -/
theorem typed_tempFreq (s : Spectrum) (keys : List KEY_Code_t) (n : Nat)
    (harr : s.freqInputArr.length = 10)
    (hkeys : ∀ k ∈ keys, k.toNat ≤ 9 ∨ k = KEY_STAR)
    (hstar : keys.count KEY_STAR ≤ 1)
    (hlen : keys.length ≤ 10)
    (hval : literalMHz keys * 100000 = (n : ℚ))
    (hmin : F_MIN ≤ n) (hmax : n ≤ F_MAX) :
    (typeKeys keys (FreqInput s)).tempFreq = n := by
  have hints := integerKeys_digits keys hkeys
  have hfracs := fractionKeys_digits keys hkeys hstar
  have hu := literal_units _ _ _ _ hval
  have hF : F_MIN = 1800000 := rfl
  have hM : F_MAX = 130000000 := rfl
  have hU : U32 = 4294967296 := rfl
  have hnU : n % U32 = n := Nat.mod_eq_of_lt (by omega)
  rcases keys_split keys with ⟨h1, h2⟩ | h1
  · rw [h2] at hu
    have hn : decimalValue (integerKeys keys) * 100000 = n := by
      have := hu.1
      simpa [decimalValue] using this
    rw [h1, typed_tempFreq_digits s _ harr hints (by rw [← h1]; exact hlen), hn, hnU]
  · by_cases hnil : integerKeys keys = []
    · exfalso
      have hlt := decimalValue_lt _ hfracs
      have h2 := hu.2
      rw [hnil] at h2
      simp only [decimalValue, List.foldl_nil, Nat.zero_mul, Nat.zero_add] at h2 hlt
      have hpos : 0 < 10 ^ (fractionKeys keys).length := Nat.pos_pow_of_pos _ (by norm_num)
      have : n * 10 ^ (fractionKeys keys).length < 100000 * 10 ^ (fractionKeys keys).length := by
        rw [h2]
        nlinarith
      have hn : n < 100000 := lt_of_mul_lt_mul_right this (Nat.zero_le _)
      omega
    · rw [h1, typed_tempFreq_marker s _ _ harr hints hfracs hnil (by rw [← h1]; exact hlen),
        hu.1, hnU]

/-- Claim C1.  For every key sequence of digit keys and at most one STAR, at
most 10 symbols long, typed into a freshly entered frequency input
(`FreqInput()`, then one `UpdateFreqInput` per key), whose literal denotes
`v` MHz with `v * 100000` an integer `n` in `[F_MIN, F_MAX]`: the candidate
`tempFreq` is exactly `n`, and MENU then sets `currentFreq` to `n` and
returns to SPECTRUM. -/
theorem freq_input_round_trip (s : Spectrum) (keys : List KEY_Code_t) (n : Nat)
    (harr : s.freqInputArr.length = 10)
    (hkeys : ∀ k ∈ keys, k.toNat ≤ 9 ∨ k = KEY_STAR)
    (hstar : keys.count KEY_STAR ≤ 1)
    (hlen : keys.length ≤ 10)
    (hval : literalMHz keys * 100000 = (n : ℚ))
    (hmin : F_MIN ≤ n) (hmax : n ≤ F_MAX) :
    (typeKeys keys (FreqInput s)).tempFreq = n ∧
    (OnKeyDownFreqInput KEY_MENU (typeKeys keys (FreqInput s))).currentFreq = n ∧
    (OnKeyDownFreqInput KEY_MENU (typeKeys keys (FreqInput s))).currentState = Mode.SPECTRUM := by
  have ht := typed_tempFreq s keys n harr hkeys hstar hlen hval hmin hmax
  have hc := commit_currentFreq (typeKeys keys (FreqInput s)) (by rw [ht]; exact ⟨hmin, hmax⟩)
  rw [ht] at hc
  exact ⟨ht, hc.1, hc.2⟩

theorem exampleKeys_literal : literalMHz exampleKeys * 100000 = ((43300000 : Nat) : ℚ) := by
  have h1 : decimalValue (integerKeys exampleKeys) = 433 := by decide
  have h2 : decimalValue (fractionKeys exampleKeys) = 0 := by decide
  have h3 : (fractionKeys exampleKeys).length = 3 := by decide
  unfold literalMHz
  rw [h1, h2, h3]
  norm_num

theorem freq_input_round_trip_witness :
    exampleSpectrum.freqInputArr.length = 10 ∧
    (∀ k ∈ exampleKeys, k.toNat ≤ 9 ∨ k = KEY_STAR) ∧
    exampleKeys.count KEY_STAR ≤ 1 ∧ exampleKeys.length ≤ 10 ∧
    literalMHz exampleKeys * 100000 = ((43300000 : Nat) : ℚ) ∧
    F_MIN ≤ 43300000 ∧ 43300000 ≤ F_MAX ∧
    ((typeKeys exampleKeys (FreqInput exampleSpectrum)).tempFreq = 43300000 ∧
    (OnKeyDownFreqInput KEY_MENU
      (typeKeys exampleKeys (FreqInput exampleSpectrum))).currentFreq = 43300000 ∧
    (OnKeyDownFreqInput KEY_MENU
      (typeKeys exampleKeys (FreqInput exampleSpectrum))).currentState = Mode.SPECTRUM) :=
  ⟨by decide, by decide, by decide, by decide, exampleKeys_literal, by decide, by decide,
    freq_input_round_trip exampleSpectrum exampleKeys 43300000 (by decide) (by decide)
      (by decide) (by decide) exampleKeys_literal (by decide) (by decide)⟩


/-! ## Frequency commit (claims C2, C3) -/

theorem commit_rejected_eq (s : Spectrum) (h : ¬ (F_MIN ≤ s.tempFreq ∧ s.tempFreq ≤ F_MAX)) :
    OnKeyDownFreqInput KEY_MENU s = { s with redrawScreen := true } := by
  have h1 : ¬ (s.tempFreq ≥ F_MIN ∧ s.tempFreq ≤ F_MAX) := h
  simp only [OnKeyDownFreqInput, h1, if_false]

/-- Claim C2.  In FREQ_INPUT mode, MENU leaves the mode for SPECTRUM if and
only if `F_MIN <= tempFreq <= F_MAX`; when `tempFreq` is outside the range
the whole state is unchanged except that the redraw flag is set, so the mode
stays FREQ_INPUT and `currentFreq`, `peak`, `settings`, `rssiHistory`,
`scanInfo`, the input buffer and `tempFreq` keep their values. -/
theorem commit_iff_in_range (s : Spectrum) (hmode : s.currentState = Mode.FREQ_INPUT) :
    ((OnKeyDownFreqInput KEY_MENU s).currentState = Mode.SPECTRUM ↔
        (F_MIN ≤ s.tempFreq ∧ s.tempFreq ≤ F_MAX)) ∧
    (¬ (F_MIN ≤ s.tempFreq ∧ s.tempFreq ≤ F_MAX) →
        OnKeyDownFreqInput KEY_MENU s = { s with redrawScreen := true } ∧
        (OnKeyDownFreqInput KEY_MENU s).currentState = Mode.FREQ_INPUT) ∧
    ((F_MIN ≤ s.tempFreq ∧ s.tempFreq ≤ F_MAX) →
        (OnKeyDownFreqInput KEY_MENU s).currentState = Mode.SPECTRUM) := by
  have hin : (F_MIN ≤ s.tempFreq ∧ s.tempFreq ≤ F_MAX) →
      (OnKeyDownFreqInput KEY_MENU s).currentState = Mode.SPECTRUM := by
    intro h
    have h1 : s.tempFreq ≥ F_MIN ∧ s.tempFreq ≤ F_MAX := h
    simp [OnKeyDownFreqInput, h1]
  have hout : ¬ (F_MIN ≤ s.tempFreq ∧ s.tempFreq ≤ F_MAX) →
      OnKeyDownFreqInput KEY_MENU s = { s with redrawScreen := true } ∧
      (OnKeyDownFreqInput KEY_MENU s).currentState = Mode.FREQ_INPUT := by
    intro h
    rw [commit_rejected_eq s h]
    exact ⟨rfl, hmode⟩
  refine ⟨⟨fun h => ?_, hin⟩, hout, hin⟩
  by_contra hn
  rw [(hout hn).2] at h
  exact Mode.noConfusion h

theorem commit_iff_in_range_witness :
    exampleReject.currentState = Mode.FREQ_INPUT ∧
    ((OnKeyDownFreqInput KEY_MENU exampleReject).currentState = Mode.SPECTRUM ↔
        (F_MIN ≤ exampleReject.tempFreq ∧ exampleReject.tempFreq ≤ F_MAX)) ∧
    (¬ (F_MIN ≤ exampleReject.tempFreq ∧ exampleReject.tempFreq ≤ F_MAX) →
        OnKeyDownFreqInput KEY_MENU exampleReject = { exampleReject with redrawScreen := true } ∧
        (OnKeyDownFreqInput KEY_MENU exampleReject).currentState = Mode.FREQ_INPUT) ∧
    ((F_MIN ≤ exampleReject.tempFreq ∧ exampleReject.tempFreq ≤ F_MAX) →
        (OnKeyDownFreqInput KEY_MENU exampleReject).currentState = Mode.SPECTRUM) :=
  ⟨rfl, commit_iff_in_range exampleReject rfl⟩

theorem ToggleRX_isListening (b : Bool) (s : Spectrum) : (ToggleRX b s).isListening = b := by
  unfold ToggleRX
  repeat' (first | split_ifs | simp [hwCall, *])

theorem InitScan_scanInfo (s : Spectrum) (h : s.settings.isStillMode = false) :
    (InitScan s).scanInfo =
      { rssi := 0, rssiMin := s.scanInfo.rssiMin, rssiMax := 0, i := 0, iPeak := 0,
        f := GetFStart s, fPeak := 0, scanStep := GetScanStep s,
        measurementsCount := GetStepsCount s } := by
  simp [InitScan, h, ResetScanStats, GetFStart, GetScanStep, GetStepsCount, GetBW, IsCenterMode]

theorem InitScan_still (s : Spectrum) (h : s.settings.isStillMode = true) : InitScan s = s := by
  simp [InitScan, h]

theorem NewBandOrLevel_isListening (s : Spectrum) :
    (NewBandOrLevel s).isListening = if s.settings.isStillMode then s.isListening else false := by
  unfold NewBandOrLevel
  split_ifs <;> simp [ToggleRX_isListening]

theorem NewBandOrLevel_scanInfo (s : Spectrum) :
    (NewBandOrLevel s).scanInfo =
      if s.settings.isStillMode then s.scanInfo
      else { rssi := 0, rssiMin := 255, rssiMax := 0, i := 0, iPeak := 0,
             f := GetFStart s, fPeak := 0, scanStep := GetScanStep s,
             measurementsCount := GetStepsCount s } := by
  unfold NewBandOrLevel
  split_ifs with h
  · rfl
  · have h1 : (ResetBlacklist (ResetPeak s)).settings.isStillMode = false := by simpa using h
    simp [InitScan_scanInfo _ h1, GetFStart, GetScanStep, GetStepsCount, GetBW, IsCenterMode]

theorem NewBandOrLevel_peak (s : Spectrum) :
    (NewBandOrLevel s).peak =
      if s.settings.isStillMode then s.peak else { s.peak with rssi := 0, t := 0, f := 0 } := by
  unfold NewBandOrLevel
  split_ifs <;> simp [ResetPeak]

theorem NewBandOrLevel_settings (s : Spectrum) :
    (NewBandOrLevel s).settings =
      if s.settings.isStillMode then s.settings
      else { s.settings with rssiTriggerLevel := 255 } := by
  unfold NewBandOrLevel
  split_ifs <;> simp

/-- Claim C3, as amended.  After a successful commit (MENU with
`F_MIN <= tempFreq <= F_MAX`), for every prior state: `currentFreq` is the
committed value, `stillOffset = 0` and the mode is SPECTRUM.  Outside still
mode the sweep/listen state is reset (`isListening = false`,
`scanInfo.i = 0`).  In still mode `peak.f` is the committed value and
`isListening` and `scanInfo` keep the values they had. -/
theorem commit_effect (s : Spectrum) (h : F_MIN ≤ s.tempFreq ∧ s.tempFreq ≤ F_MAX) :
    (OnKeyDownFreqInput KEY_MENU s).currentFreq = s.tempFreq ∧
    (OnKeyDownFreqInput KEY_MENU s).settings.stillOffset = 0 ∧
    (OnKeyDownFreqInput KEY_MENU s).currentState = Mode.SPECTRUM ∧
    (s.settings.isStillMode = false →
      (OnKeyDownFreqInput KEY_MENU s).isListening = false ∧
      (OnKeyDownFreqInput KEY_MENU s).scanInfo.i = 0) ∧
    (s.settings.isStillMode = true →
      (OnKeyDownFreqInput KEY_MENU s).peak.f = s.tempFreq ∧
      (OnKeyDownFreqInput KEY_MENU s).isListening = s.isListening ∧
      (OnKeyDownFreqInput KEY_MENU s).scanInfo = s.scanInfo) := by
  have h1 : s.tempFreq ≥ F_MIN ∧ s.tempFreq ≤ F_MAX := h
  refine ⟨?_, ?_, ?_, ?_, ?_⟩
  · simp [OnKeyDownFreqInput, h1]
  · simp only [OnKeyDownFreqInput, h1, and_self, if_true]
    simp only [ResetRSSIHistory_frame, NewBandOrLevel_settings]
    split_ifs <;> rfl
  · simp [OnKeyDownFreqInput, h1]
  · intro hs
    simp [OnKeyDownFreqInput, h1, NewBandOrLevel_isListening, NewBandOrLevel_scanInfo, hs]
  · intro hs
    simp [OnKeyDownFreqInput, h1, NewBandOrLevel_isListening, NewBandOrLevel_scanInfo,
      NewBandOrLevel_peak, hs]

theorem commit_effect_witness :
    (F_MIN ≤ exampleCommit.tempFreq ∧ exampleCommit.tempFreq ≤ F_MAX) ∧
    ((OnKeyDownFreqInput KEY_MENU exampleCommit).currentFreq = exampleCommit.tempFreq ∧
    (OnKeyDownFreqInput KEY_MENU exampleCommit).settings.stillOffset = 0 ∧
    (OnKeyDownFreqInput KEY_MENU exampleCommit).currentState = Mode.SPECTRUM ∧
    (exampleCommit.settings.isStillMode = false →
      (OnKeyDownFreqInput KEY_MENU exampleCommit).isListening = false ∧
      (OnKeyDownFreqInput KEY_MENU exampleCommit).scanInfo.i = 0) ∧
    (exampleCommit.settings.isStillMode = true →
      (OnKeyDownFreqInput KEY_MENU exampleCommit).peak.f = exampleCommit.tempFreq ∧
      (OnKeyDownFreqInput KEY_MENU exampleCommit).isListening = exampleCommit.isListening ∧
      (OnKeyDownFreqInput KEY_MENU exampleCommit).scanInfo = exampleCommit.scanInfo)) :=
  ⟨by decide, commit_effect exampleCommit (by decide)⟩

/-- Claim C3 as stated fails.  Committing 433 MHz while locked and listening
leaves `isListening = true` and `scanInfo.i = 5` (the reset is skipped in
still mode); committing 433 MHz from a sweep leaves `peak.f = 0`, not the
committed value (the seed is cleared by the reset that follows it). -/
theorem commit_effect_counterexample :
    (F_MIN ≤ exampleCommitStill.tempFreq ∧ exampleCommitStill.tempFreq ≤ F_MAX) ∧
    (OnKeyDownFreqInput KEY_MENU exampleCommitStill).isListening = true ∧
    (OnKeyDownFreqInput KEY_MENU exampleCommitStill).scanInfo.i = 5 ∧
    (F_MIN ≤ exampleCommit.tempFreq ∧ exampleCommit.tempFreq ≤ F_MAX) ∧
    exampleCommit.tempFreq = 43300000 ∧
    (OnKeyDownFreqInput KEY_MENU exampleCommit).peak.f = 0 := by
  decide

/-! ## Out-of-range entry (claim C4) -/

/-- Claim C4 at its failing input.  The digits 4,2,9,9,2 denote 42992 MHz,
far above `F_MAX`; the 32-bit accumulation wraps to 4232704, which lies in
`[F_MIN, F_MAX]`, so MENU accepts: `currentFreq` changes from 14500000 to
4232704 and the mode becomes SPECTRUM. -/
theorem overflowing_entry_is_accepted :
    decimalValue [KEY_4, KEY_2, KEY_9, KEY_9, KEY_2] * 100000 > F_MAX ∧
    (typeKeys [KEY_4, KEY_2, KEY_9, KEY_9, KEY_2] (FreqInput exampleSpectrum)).tempFreq
      = 4232704 ∧
    exampleSpectrum.currentFreq = 14500000 ∧
    (OnKeyDownFreqInput KEY_MENU
      (typeKeys [KEY_4, KEY_2, KEY_9, KEY_9, KEY_2] (FreqInput exampleSpectrum))).currentFreq
      = 4232704 ∧
    (OnKeyDownFreqInput KEY_MENU
      (typeKeys [KEY_4, KEY_2, KEY_9, KEY_9, KEY_2] (FreqInput exampleSpectrum))).currentState
      = Mode.SPECTRUM := by
  decide

/-! ## Bin count and span (claims C5, C6) -/

/-- Claim C5.  For every step-count exponent `e <= 3` and scan-step index
`<= 11`, `GetStepsCount() = 128 >> e`, one of 128, 64, 32, 16 (below 256),
`GetScanStep()` is the table entry (below 65536) and `GetBW()` is exactly
the product of the two, which stays below `2^31`, so neither the `uint8_t`,
the `uint16_t`, the `int` product nor the `uint32_t` result truncates. -/
theorem steps_count_and_span_exact (s : Spectrum)
    (he : s.settings.stepsCount ≤ 3) (hi : s.settings.scanStepIndex ≤ 11) :
    GetStepsCount s = 128 >>> s.settings.stepsCount ∧
    GetStepsCount s = [128, 64, 32, 16].getD s.settings.stepsCount 0 ∧
    GetStepsCount s < U8 ∧
    GetScanStep s = scanStepValues.getD s.settings.scanStepIndex 0 ∧
    GetScanStep s < U16 ∧
    GetBW s = GetStepsCount s * GetScanStep s ∧
    GetStepsCount s * GetScanStep s < 2 ^ 31 := by
  unfold GetBW GetStepsCount GetScanStep
  generalize s.settings.stepsCount = e at he
  generalize s.settings.scanStepIndex = i at hi
  interval_cases e <;> interval_cases i <;> decide

theorem steps_count_and_span_exact_witness :
    exampleSpectrum.settings.stepsCount ≤ 3 ∧ exampleSpectrum.settings.scanStepIndex ≤ 11 ∧
    GetStepsCount exampleSpectrum = 64 ∧ GetBW exampleSpectrum = 160000 ∧
    (GetStepsCount exampleSpectrum = 128 >>> exampleSpectrum.settings.stepsCount ∧
    GetStepsCount exampleSpectrum = [128, 64, 32, 16].getD exampleSpectrum.settings.stepsCount 0 ∧
    GetStepsCount exampleSpectrum < U8 ∧
    GetScanStep exampleSpectrum = scanStepValues.getD exampleSpectrum.settings.scanStepIndex 0 ∧
    GetScanStep exampleSpectrum < U16 ∧
    GetBW exampleSpectrum = GetStepsCount exampleSpectrum * GetScanStep exampleSpectrum ∧
    GetStepsCount exampleSpectrum * GetScanStep exampleSpectrum < 2 ^ 31) :=
  ⟨by decide, by decide, by decide, by decide,
    steps_count_and_span_exact exampleSpectrum (by decide) (by decide)⟩

theorem GetScanStep_eq_2500 (s : Spectrum) (h : GetScanStep s = 2500) :
    s.settings.scanStepIndex = 10 := by
  unfold GetScanStep at h
  generalize s.settings.scanStepIndex = i at h
  by_cases hi : i < 12
  · interval_cases i <;> first | rfl | (exfalso; revert h; decide)
  · rw [List.getD_eq_default _ _ (by simpa [scanStepValues] using hi)] at h
    exact absurd h (by decide)

/-- Claim C6, as amended.  `GetFStart()` is `currentFreq - GetBW()/2` (a
`uint32_t` subtraction, exact whenever `GetBW()/2 <= currentFreq`) when the
scan-step index is below `S_STEP_2_5kHz`, and `currentFreq` otherwise; in
the non-center case `GetFEnd()` is `currentFreq + GetBW()` (exact whenever
the sum fits 32 bits).  For step size 2500, exponent 1 and `currentFreq`
433000000: 64 bins, span 160000 and, step size 2500 being a non-center
granularity, start 433000000 and end 433160000. -/
theorem span_endpoints (s : Spectrum) :
    (IsCenterMode s = true ↔ s.settings.scanStepIndex < S_STEP_2_5kHz) ∧
    (IsCenterMode s = true → GetFStart s = (s.currentFreq + U32 - GetBW s / 2) % U32) ∧
    (IsCenterMode s = true → GetBW s / 2 ≤ s.currentFreq → s.currentFreq < U32 →
        GetFStart s = s.currentFreq - GetBW s / 2) ∧
    (IsCenterMode s = false → GetFStart s = s.currentFreq) ∧
    (IsCenterMode s = false → GetFEnd s = (s.currentFreq + GetBW s) % U32) ∧
    (IsCenterMode s = false → s.currentFreq + GetBW s < U32 →
        GetFEnd s = s.currentFreq + GetBW s) ∧
    (GetScanStep s = 2500 → s.settings.stepsCount = 1 → s.currentFreq = 433000000 →
        GetStepsCount s = 64 ∧ GetBW s = 160000 ∧ IsCenterMode s = false ∧
        GetFStart s = 433000000 ∧ GetFEnd s = 433160000) := by
  refine ⟨?_, ?_, ?_, ?_, ?_, ?_, ?_⟩
  · simp [IsCenterMode]
  · intro hc
    simp [GetFStart, hc, Nat.shiftRight_eq_div_pow]
  · intro hc hle hlt
    simp only [GetFStart, hc, if_true, Nat.shiftRight_eq_div_pow, pow_one]
    have : s.currentFreq + U32 - GetBW s / 2 = (s.currentFreq - GetBW s / 2) + U32 := by omega
    rw [this, Nat.add_mod_right, Nat.mod_eq_of_lt (by omega)]
  · intro hc
    simp [GetFStart, hc]
  · intro _
    rfl
  · intro _ hlt
    exact Nat.mod_eq_of_lt hlt
  · intro hstep he hf
    have hidx := GetScanStep_eq_2500 s hstep
    have hcount : GetStepsCount s = 64 := by simp [GetStepsCount, he, U8]
    have hbw : GetBW s = 160000 := by simp [GetBW, hcount, hstep, U32]
    have hcm : IsCenterMode s = false := by simp [IsCenterMode, hidx, S_STEP_2_5kHz]
    refine ⟨hcount, hbw, hcm, ?_, ?_⟩
    · simp [GetFStart, hcm, hf]
    · simp [GetFEnd, hbw, hf, U32]

theorem span_endpoints_witness :
    GetScanStep exampleSpan = 2500 ∧ exampleSpan.settings.stepsCount = 1 ∧
    exampleSpan.currentFreq = 433000000 ∧
    (GetStepsCount exampleSpan = 64 ∧ GetBW exampleSpan = 160000 ∧
    IsCenterMode exampleSpan = false ∧
    GetFStart exampleSpan = 433000000 ∧ GetFEnd exampleSpan = 433160000) ∧
    IsCenterMode exampleSpanCenter = true ∧ GetBW exampleSpanCenter = 6400 ∧
    GetFStart exampleSpanCenter = 433000000 - 3200 :=
  ⟨by decide, by decide, by decide,
    (span_endpoints exampleSpan).2.2.2.2.2.2 (by decide) (by decide) (by decide),
    by decide, by decide,
    (span_endpoints exampleSpanCenter).2.2.1 (by decide) (by decide) (by decide)⟩

/-- Claim C6 as stated fails.  The literal configuration (step size 2500,
exponent 1, `currentFreq` 433000000) has no center mode: step size 2500 is
index 10 of the step table and center mode needs an index below
`S_STEP_2_5kHz`, so no state with this configuration is in center mode, and
`GetFStart()` is 433000000 there, not 432920000. -/
theorem span_endpoints_counterexample :
    GetScanStep exampleSpan = 2500 ∧ exampleSpan.settings.stepsCount = 1 ∧
    exampleSpan.currentFreq = 433000000 ∧
    exampleSpan.settings.scanStepIndex = 10 ∧ S_STEP_2_5kHz = 4 ∧
    IsCenterMode exampleSpan = false ∧
    GetFStart exampleSpan = 433000000 ∧ GetFStart exampleSpan ≠ 432920000 ∧
    (¬ ∃ s : Spectrum, GetScanStep s = 2500 ∧ s.settings.stepsCount = 1 ∧
      s.currentFreq = 433000000 ∧ GetFStart s = 432920000) := by
  refine ⟨by decide, by decide, by decide, by decide, by decide, by decide, by decide,
    by decide, ?_⟩
  rintro ⟨s, h1, h2, h3, h4⟩
  have hidx := GetScanStep_eq_2500 s h1
  have hcm : IsCenterMode s = false := by simp [IsCenterMode, hidx, S_STEP_2_5kHz]
  have : GetFStart s = 433000000 := by simp [GetFStart, hcm, h3]
  omega

/-! ## Peak tracking (claims C8, C9) -/

theorem UpdatePeakInfo_held (s : Spectrum) (h : peakHeld s) : UpdatePeakInfo s = s := by
  have h1 : s.peak.f ≠ 0 ∧ s.peak.t < 1024 ∧ s.peak.rssi ≥ s.scanInfo.rssiMax := h
  unfold UpdatePeakInfo
  rw [if_pos h1]

theorem UpdatePeakInfo_replaced (s : Spectrum) (h : ¬ peakHeld s) :
    (UpdatePeakInfo s).peak = cyclePeak s ∧
    (UpdatePeakInfo s).settings.rssiTriggerLevel =
      if s.settings.rssiTriggerLevel = 255 then s.scanInfo.rssiMax
      else s.settings.rssiTriggerLevel := by
  have h1 : ¬ (s.peak.f ≠ 0 ∧ s.peak.t < 1024 ∧ s.peak.rssi ≥ s.scanInfo.rssiMax) := h
  unfold UpdatePeakInfo
  rw [if_neg h1]
  by_cases ht : s.settings.rssiTriggerLevel = 255 <;> simp [ht, cyclePeak]

/-- Claim C8.  `UpdatePeakInfo()` returns at once, leaving the whole state
and so the persisted peak `(t, rssi, i, f)` as it was, when `peak.f != 0`,
`peak.t < 1024` and `peak.rssi >= scanInfo.rssiMax`; in every other case it
sets `peak.rssi = scanInfo.rssiMax`, `peak.f = scanInfo.fPeak`,
`peak.i = scanInfo.iPeak` and `peak.t = 0`.  Hence the peak is unchanged
exactly when that condition holds or the record written equals the old one;
a non-zero peak younger than 1024 ticks never loses RSSI in a call; and once
`peak.t >= 1024` the call replaces the peak by the cycle maximum whatever
the magnitudes. -/
theorem peak_hysteresis (s : Spectrum) :
    (peakHeld s ↔ (s.peak.f ≠ 0 ∧ s.peak.t < 1024 ∧ s.peak.rssi ≥ s.scanInfo.rssiMax)) ∧
    (peakHeld s → UpdatePeakInfo s = s) ∧
    (¬ peakHeld s →
      (UpdatePeakInfo s).peak.rssi = s.scanInfo.rssiMax ∧
      (UpdatePeakInfo s).peak.f = s.scanInfo.fPeak ∧
      (UpdatePeakInfo s).peak.i = s.scanInfo.iPeak ∧
      (UpdatePeakInfo s).peak.t = 0) ∧
    ((UpdatePeakInfo s).peak = s.peak ↔ (peakHeld s ∨ s.peak = cyclePeak s)) ∧
    (s.peak.f ≠ 0 → s.peak.t < 1024 → s.peak.rssi ≤ (UpdatePeakInfo s).peak.rssi) ∧
    (1024 ≤ s.peak.t → (UpdatePeakInfo s).peak = cyclePeak s) := by
  refine ⟨Iff.rfl, UpdatePeakInfo_held s, ?_, ?_, ?_, ?_⟩
  · intro h
    rw [(UpdatePeakInfo_replaced s h).1]
    exact ⟨rfl, rfl, rfl, rfl⟩
  · by_cases h : peakHeld s
    · simp [UpdatePeakInfo_held s h, h]
    · rw [(UpdatePeakInfo_replaced s h).1]
      constructor
      · intro he
        exact Or.inr he.symm
      · rintro (hh | he)
        · exact absurd hh h
        · exact he.symm
  · intro hf ht
    by_cases h : peakHeld s
    · rw [UpdatePeakInfo_held s h]
    · rw [(UpdatePeakInfo_replaced s h).1]
      have hlt : ¬ s.peak.rssi ≥ s.scanInfo.rssiMax := fun hge => h ⟨hf, ht, hge⟩
      simp only [cyclePeak]
      omega
  · intro ht
    have h : ¬ peakHeld s := fun hh => by
      have := hh.2.1
      omega
    exact (UpdatePeakInfo_replaced s h).1

/-- Claim C9, as amended.  When the trigger level is unset (255) and the
persisted peak is not held by the hysteresis (it is zero, or at least 1024
ticks old, or weaker than the cycle maximum), then after `UpdatePeakInfo()`
the trigger level equals `scanInfo.rssiMax`; this covers the first cycle
after a reset, where `peak.f = 0`.  When the peak is held, the trigger level
stays 255. -/
theorem auto_squelch_calibration (s : Spectrum) (hunset : s.settings.rssiTriggerLevel = 255) :
    (¬ peakHeld s → (UpdatePeakInfo s).settings.rssiTriggerLevel = s.scanInfo.rssiMax) ∧
    (s.peak.f = 0 → (UpdatePeakInfo s).settings.rssiTriggerLevel = s.scanInfo.rssiMax) ∧
    (peakHeld s → (UpdatePeakInfo s).settings.rssiTriggerLevel = 255) := by
  have hfree : ¬ peakHeld s → (UpdatePeakInfo s).settings.rssiTriggerLevel = s.scanInfo.rssiMax := by
    intro h
    have h2 := (UpdatePeakInfo_replaced s h).2
    rw [if_pos hunset] at h2
    exact h2
  refine ⟨hfree, fun hz => hfree (fun hh => hh.1 hz), fun hh => ?_⟩
  rw [UpdatePeakInfo_held s hh]
  exact hunset

theorem auto_squelch_calibration_witness :
    exampleUnsetTrigger.settings.rssiTriggerLevel = 255 ∧
    exampleUnsetTrigger.peak.f = 0 ∧
    exampleUnsetTrigger.scanInfo.rssiMax = 120 ∧
    (UpdatePeakInfo exampleUnsetTrigger).settings.rssiTriggerLevel = 120 :=
  ⟨by decide, by decide, by decide,
    (auto_squelch_calibration exampleUnsetTrigger (by decide)).2.1 (by decide)⟩

/-- Claim C9 as stated fails.  With the trigger level unset (255), a young
non-zero persisted peak of RSSI 130 and a cycle maximum of 120,
`UpdatePeakInfo()` returns before the calibration: the trigger level is still
255, not 120. -/
theorem auto_squelch_calibration_counterexample :
    exampleUnsetTriggerHeld.settings.rssiTriggerLevel = 255 ∧
    exampleUnsetTriggerHeld.scanInfo.rssiMax = 120 ∧
    (UpdatePeakInfo exampleUnsetTriggerHeld).settings.rssiTriggerLevel = 255 ∧
    (UpdatePeakInfo exampleUnsetTriggerHeld).settings.rssiTriggerLevel ≠
      exampleUnsetTriggerHeld.scanInfo.rssiMax := by
  decide

/-! ## The sweep lattice (claim C7) -/

theorem settings_bounds (s : Spectrum)
    (he : s.settings.stepsCount ≤ 3) (hi : s.settings.scanStepIndex ≤ 11) :
    GetStepsCount s ≤ 128 ∧ 1 ≤ GetScanStep s ∧ GetScanStep s ≤ 10000 ∧
    GetBW s ≤ 1280000 ∧ (IsCenterMode s = true → GetBW s ≤ 12800) := by
  unfold GetBW IsCenterMode GetStepsCount GetScanStep
  generalize s.settings.stepsCount = e at he
  generalize s.settings.scanStepIndex = i at hi
  interval_cases e <;> interval_cases i <;> decide

theorem NextScanStep_iterate (k : Nat) (s : Spectrum)
    (hi : s.scanInfo.i + k < U8) (hf : s.scanInfo.f + k * s.scanInfo.scanStep < U32) :
    (NextScanStep^[k] s).scanInfo =
      { s.scanInfo with i := s.scanInfo.i + k, f := s.scanInfo.f + k * s.scanInfo.scanStep } := by
  induction k with
  | zero => simp
  | succ n ih =>
    have hi1 : s.scanInfo.i + n < U8 := by omega
    have hf1 : s.scanInfo.f + n * s.scanInfo.scanStep < U32 := by
      have : n * s.scanInfo.scanStep ≤ (n + 1) * s.scanInfo.scanStep :=
        Nat.mul_le_mul_right _ (Nat.le_succ n)
      omega
    have hf2 : s.scanInfo.f + n * s.scanInfo.scanStep + s.scanInfo.scanStep < U32 := by
      rw [Nat.add_mul, one_mul] at hf
      omega
    rw [Function.iterate_succ_apply', NextScanStep]
    simp only [ih hi1 hf1]
    rw [Nat.mod_eq_of_lt (show s.scanInfo.i + n + 1 < U8 by omega), Nat.mod_eq_of_lt hf2]
    simp only [ScanInfo.mk.injEq, true_and, and_true]
    constructor
    · omega
    · rw [Nat.add_mul, one_mul]; omega

theorem GetFStart_exact (s : Spectrum) (hmin : F_MIN ≤ s.currentFreq) (hmax : s.currentFreq ≤ F_MAX)
    (he : s.settings.stepsCount ≤ 3) (hi : s.settings.scanStepIndex ≤ 11) :
    GetFStart s = (if IsCenterMode s then s.currentFreq - GetBW s / 2 else s.currentFreq) ∧
    GetBW s / 2 ≤ s.currentFreq ∧ GetFStart s ≤ s.currentFreq := by
  have hb := settings_bounds s he hi
  have hF : F_MIN = 1800000 := rfl
  have hM : F_MAX = 130000000 := rfl
  have hU : U32 = 4294967296 := rfl
  by_cases hc : IsCenterMode s = true
  · have h1 := hb.2.2.2.2 hc
    have h2 : GetBW s / 2 ≤ s.currentFreq := by omega
    have h3 : s.currentFreq + U32 - GetBW s / 2 = (s.currentFreq - GetBW s / 2) + U32 := by omega
    simp only [GetFStart, hc, if_true, Nat.shiftRight_eq_div_pow, pow_one]
    rw [h3, Nat.add_mod_right, Nat.mod_eq_of_lt (by omega)]
    exact ⟨rfl, h2, Nat.sub_le _ _⟩
  · have hc : IsCenterMode s = false := by simpa using hc
    have h2 : GetBW s / 2 ≤ s.currentFreq := by have := hb.2.2.2.1; omega
    simp only [GetFStart, hc, Bool.false_eq_true, if_false]
    exact ⟨trivial, h2, le_refl _⟩

theorem sweep_position (s : Spectrum) (k : Nat)
    (hmin : F_MIN ≤ s.currentFreq) (hmax : s.currentFreq ≤ F_MAX)
    (he : s.settings.stepsCount ≤ 3) (hi : s.settings.scanStepIndex ≤ 11)
    (hstill : s.settings.isStillMode = false) (hk : k ≤ GetStepsCount s) :
    (NextScanStep^[k] (InitScan s)).scanInfo.i = k ∧
    (NextScanStep^[k] (InitScan s)).scanInfo.f = GetFStart s + k * GetScanStep s ∧
    (NextScanStep^[k] (InitScan s)).scanInfo.measurementsCount = GetStepsCount s ∧
    GetFStart s + k * GetScanStep s < U32 ∧ k < U8 := by
  have hb := settings_bounds s he hi
  have hs := (GetFStart_exact s hmin hmax he hi).2.2
  have hM : F_MAX = 130000000 := rfl
  have hU : U32 = 4294967296 := rfl
  have hU8 : U8 = 256 := rfl
  have hprod : k * GetScanStep s ≤ 128 * 10000 :=
    Nat.mul_le_mul (le_trans hk hb.1) hb.2.2.1
  have h0 := InitScan_scanInfo s hstill
  have hlt : GetFStart s + k * GetScanStep s < U32 := by omega
  have hk8 : k < U8 := by have := hb.1; omega
  have hit := NextScanStep_iterate k (InitScan s)
    (by rw [h0]; simpa using hk8) (by rw [h0]; simpa using hlt)
  rw [hit, h0]
  simp [hlt, hk8]

/-- Claim C7, as amended.  For `currentFreq` in `[F_MIN, F_MAX]` and valid
settings outside still mode, in a cycle started by `InitScan()` and
advanced `k <= GetStepsCount()` times by `NextScanStep()`: `scanInfo.i = k`
and `scanInfo.f = GetFStart() + k * GetScanStep()` as plain integers, the
start being `currentFreq - GetBW()/2` or `currentFreq` without wraparound,
the frequency staying below `2^32` and the index below `2^8`.  Index and
frequency are strictly increasing along the cycle, so no bin is visited
twice, and `ScanDone()` holds exactly when `k` reaches the bin count. -/
theorem sweep_lattice (s : Spectrum) (k : Nat)
    (hmin : F_MIN ≤ s.currentFreq) (hmax : s.currentFreq ≤ F_MAX)
    (he : s.settings.stepsCount ≤ 3) (hi : s.settings.scanStepIndex ≤ 11)
    (hstill : s.settings.isStillMode = false) (hk : k ≤ GetStepsCount s) :
    (NextScanStep^[k] (InitScan s)).scanInfo.i = k ∧
    (NextScanStep^[k] (InitScan s)).scanInfo.f = GetFStart s + k * GetScanStep s ∧
    GetFStart s = (if IsCenterMode s then s.currentFreq - GetBW s / 2 else s.currentFreq) ∧
    GetBW s / 2 ≤ s.currentFreq ∧
    GetFStart s + k * GetScanStep s < U32 ∧ k < U8 ∧
    (∀ j, j < k →
      (NextScanStep^[j] (InitScan s)).scanInfo.i < (NextScanStep^[k] (InitScan s)).scanInfo.i ∧
      (NextScanStep^[j] (InitScan s)).scanInfo.f < (NextScanStep^[k] (InitScan s)).scanInfo.f) ∧
    (ScanDone (NextScanStep^[k] (InitScan s)) = true ↔ k = GetStepsCount s) := by
  have hpos := sweep_position s k hmin hmax he hi hstill hk
  have hfs := GetFStart_exact s hmin hmax he hi
  refine ⟨hpos.1, hpos.2.1, hfs.1, hfs.2.1, hpos.2.2.2.1, hpos.2.2.2.2, ?_, ?_⟩
  · intro j hj
    have hposj := sweep_position s j hmin hmax he hi hstill (by omega)
    rw [hpos.1, hpos.2.1, hposj.1, hposj.2.1]
    refine ⟨hj, ?_⟩
    have hstep := (settings_bounds s he hi).2.1
    have : j * GetScanStep s < k * GetScanStep s := Nat.mul_lt_mul_of_pos_right hj hstep
    omega
  · simp only [ScanDone, decide_eq_true_eq, hpos.1, hpos.2.2.1]
    omega

theorem sweep_lattice_witness :
    F_MIN ≤ exampleSpectrum.currentFreq ∧ exampleSpectrum.currentFreq ≤ F_MAX ∧
    exampleSpectrum.settings.stepsCount ≤ 3 ∧ exampleSpectrum.settings.scanStepIndex ≤ 11 ∧
    exampleSpectrum.settings.isStillMode = false ∧ 64 ≤ GetStepsCount exampleSpectrum ∧
    GetFStart exampleSpectrum = 14500000 ∧ GetScanStep exampleSpectrum = 2500 ∧
    ((NextScanStep^[64] (InitScan exampleSpectrum)).scanInfo.i = 64 ∧
    (NextScanStep^[64] (InitScan exampleSpectrum)).scanInfo.f =
      GetFStart exampleSpectrum + 64 * GetScanStep exampleSpectrum ∧
    GetFStart exampleSpectrum =
      (if IsCenterMode exampleSpectrum then
        exampleSpectrum.currentFreq - GetBW exampleSpectrum / 2
      else exampleSpectrum.currentFreq) ∧
    GetBW exampleSpectrum / 2 ≤ exampleSpectrum.currentFreq ∧
    GetFStart exampleSpectrum + 64 * GetScanStep exampleSpectrum < U32 ∧ 64 < U8 ∧
    (∀ j, j < 64 →
      (NextScanStep^[j] (InitScan exampleSpectrum)).scanInfo.i <
        (NextScanStep^[64] (InitScan exampleSpectrum)).scanInfo.i ∧
      (NextScanStep^[j] (InitScan exampleSpectrum)).scanInfo.f <
        (NextScanStep^[64] (InitScan exampleSpectrum)).scanInfo.f) ∧
    (ScanDone (NextScanStep^[64] (InitScan exampleSpectrum)) = true ↔
      64 = GetStepsCount exampleSpectrum)) :=
  ⟨by decide, by decide, by decide, by decide, by decide, by decide, by decide, by decide,
    sweep_lattice exampleSpectrum 64 (by decide) (by decide) (by decide) (by decide)
      (by decide) (by decide)⟩

/-- Claim C7 as stated fails in still mode.  With valid settings and
`currentFreq` in range but `isStillMode` set, `InitScan()` returns at once:
the index stays 7 and the frequency 14517500 instead of 0 and `GetFStart()`,
and one `NextScanStep()` later the index is 8, not 1. -/
theorem sweep_lattice_counterexample :
    F_MIN ≤ exampleStillSweep.currentFreq ∧ exampleStillSweep.currentFreq ≤ F_MAX ∧
    exampleStillSweep.settings.stepsCount ≤ 3 ∧
    exampleStillSweep.settings.scanStepIndex ≤ 11 ∧
    1 ≤ GetStepsCount exampleStillSweep ∧
    GetFStart exampleStillSweep = 14500000 ∧
    (NextScanStep^[0] (InitScan exampleStillSweep)).scanInfo.i = 7 ∧
    (NextScanStep^[0] (InitScan exampleStillSweep)).scanInfo.f = 14517500 ∧
    (NextScanStep^[1] (InitScan exampleStillSweep)).scanInfo.i = 8 := by
  decide

/-! ## The blacklist (claim C10) -/

theorem Scan_blacklisted (s : Spectrum) (h : s.rssiHistory[s.scanInfo.i]? = some 255) :
    Scan s = s := by
  have h1 : s.rssiHistory.getD s.scanInfo.i 0 = 255 := by
    rw [List.getD_eq_getElem?_getD, h]; rfl
  simp [Scan, h]

theorem Measure_rssiHistory (s : Spectrum) :
    (Measure s).rssiHistory = s.rssiHistory.set s.scanInfo.i (GetRssi s).1 := by
  simp [Measure, GetRssi, BK4819_GetRSSI, hwCall]

theorem Scan_keeps_sentinel (s : Spectrum) (j : Nat) (h : s.rssiHistory[j]? = some 255) :
    (Scan s).rssiHistory[j]? = some 255 := by
  unfold Scan
  split_ifs with hb
  · have hne : s.scanInfo.i ≠ j := by
      intro he
      apply hb
      rw [List.getD_eq_getElem?_getD, he, h]
      rfl
    simp only [UpdateScanInfo_frame, Measure_rssiHistory, SetBW_frame, SetF_frame]
    rw [List.getElem?_set_ne hne]
    exact h
  · exact h

theorem Update_keeps_sentinel (s : Spectrum) (j : Nat) (h : s.rssiHistory[j]? = some 255) :
    (Update s).rssiHistory[j]? = some 255 := by
  rw [Update_eq]
  split_ifs
  · simpa [hwCall] using h
  · simp only [updateDecide_frame, updateRestoreBW_frame]
    exact Scan_keeps_sentinel _ j (by simpa using h)

theorem Update_iterate_keeps_sentinel (n : Nat) (s : Spectrum) (j : Nat)
    (h : s.rssiHistory[j]? = some 255) : (Update^[n] s).rssiHistory[j]? = some 255 := by
  induction n with
  | zero => exact h
  | succ n ih =>
    rw [Function.iterate_succ_apply']
    exact Update_keeps_sentinel _ j ih

/-- Claim C10.  When the current bin is blacklisted
(`rssiHistory[scanInfo.i] = 255`, `scanInfo.i < 128`), `Scan()` returns the
state it was given: the hardware trace does not grow (no retune, no
bandwidth change, no RSSI sample) and `rssiHistory`, `scanInfo` and
`fMeasure` are unchanged.  And from any state, after any number of `Update()`
ticks, every history entry that was 255 is still 255. -/
theorem blacklist_invariant (s : Spectrum)
    (_hi : s.scanInfo.i < 128) (hbl : s.rssiHistory[s.scanInfo.i]? = some 255) :
    Scan s = s ∧
    (Scan s).hwTrace = s.hwTrace ∧ (Scan s).hwReads = s.hwReads ∧
    (Scan s).rssiHistory = s.rssiHistory ∧ (Scan s).scanInfo = s.scanInfo ∧
    (Scan s).fMeasure = s.fMeasure ∧
    (∀ (t : Spectrum) (j n : Nat), t.rssiHistory[j]? = some 255 →
      (Update^[n] t).rssiHistory[j]? = some 255) := by
  have h := Scan_blacklisted s hbl
  refine ⟨h, ?_, ?_, ?_, ?_, ?_, ?_⟩
  · rw [h]
  · rw [h]
  · rw [h]
  · rw [h]
  · rw [h]
  · intro t j n ht
    exact Update_iterate_keeps_sentinel n t j ht

set_option maxRecDepth 8192 in
theorem blacklist_invariant_witness :
    exampleBlacklisted.scanInfo.i < 128 ∧
    exampleBlacklisted.rssiHistory[exampleBlacklisted.scanInfo.i]? = some 255 ∧
    (Scan exampleBlacklisted = exampleBlacklisted ∧
    (Scan exampleBlacklisted).hwTrace = exampleBlacklisted.hwTrace ∧
    (Scan exampleBlacklisted).hwReads = exampleBlacklisted.hwReads ∧
    (Scan exampleBlacklisted).rssiHistory = exampleBlacklisted.rssiHistory ∧
    (Scan exampleBlacklisted).scanInfo = exampleBlacklisted.scanInfo ∧
    (Scan exampleBlacklisted).fMeasure = exampleBlacklisted.fMeasure ∧
    (∀ (t : Spectrum) (j n : Nat), t.rssiHistory[j]? = some 255 →
      (Update^[n] t).rssiHistory[j]? = some 255)) :=
  ⟨by decide, by decide, blacklist_invariant exampleBlacklisted (by decide) (by decide)⟩

/-! ## Frame lemmas for the key handlers

The saved registers are written by no operation; then the globals the
keypress operations do not write. -/

@[simp] theorem ToggleAFBit_saved (s : Spectrum) (b : Bool) : (ToggleAFBit b s).saved = s.saved := by
  unfold ToggleAFBit
  repeat' (first | split_ifs | simp [hwCall, BK4819_ReadRegister, BK4819_WriteRegister, BK4819_GetRSSI])

@[simp] theorem ToggleAFDAC_saved (s : Spectrum) (b : Bool) : (ToggleAFDAC b s).saved = s.saved := by
  unfold ToggleAFDAC
  repeat' (first | split_ifs | simp [hwCall, BK4819_ReadRegister, BK4819_WriteRegister, BK4819_GetRSSI])

@[simp] theorem ResetRSSI_saved (s : Spectrum) : (ResetRSSI s).saved = s.saved := by
  unfold ResetRSSI
  repeat' (first | split_ifs | simp [hwCall, BK4819_ReadRegister, BK4819_WriteRegister, BK4819_GetRSSI])

@[simp] theorem SetF_saved (s : Spectrum) (f : Nat) : (SetF f s).saved = s.saved := by
  unfold SetF
  repeat' (first | split_ifs | simp [hwCall, BK4819_ReadRegister, BK4819_WriteRegister, BK4819_GetRSSI])

@[simp] theorem SetBW_saved (s : Spectrum) (bw : Nat) : (SetBW bw s).saved = s.saved := by
  unfold SetBW
  repeat' (first | split_ifs | simp [hwCall, BK4819_ReadRegister, BK4819_WriteRegister, BK4819_GetRSSI])

@[simp] theorem ResetRSSIHistory_saved (s : Spectrum) : (ResetRSSIHistory s).saved = s.saved := by
  unfold ResetRSSIHistory
  repeat' (first | split_ifs | simp [hwCall, BK4819_ReadRegister, BK4819_WriteRegister, BK4819_GetRSSI])

@[simp] theorem ResetPeak_saved (s : Spectrum) : (ResetPeak s).saved = s.saved := by
  unfold ResetPeak
  repeat' (first | split_ifs | simp [hwCall, BK4819_ReadRegister, BK4819_WriteRegister, BK4819_GetRSSI])

@[simp] theorem GetRssi_saved (s : Spectrum) : (GetRssi s).2.saved = s.saved := by
  unfold GetRssi
  repeat' (first | split_ifs | simp [hwCall, BK4819_ReadRegister, BK4819_WriteRegister, BK4819_GetRSSI])

@[simp] theorem ListenBK1080_saved (s : Spectrum) : (ListenBK1080 s).saved = s.saved := by
  unfold ListenBK1080
  repeat' (first | split_ifs | simp [hwCall, BK4819_ReadRegister, BK4819_WriteRegister, BK4819_GetRSSI])

@[simp] theorem ListenBK4819_saved (s : Spectrum) : (ListenBK4819 s).saved = s.saved := by
  unfold ListenBK4819
  repeat' (first | split_ifs | simp [hwCall, BK4819_ReadRegister, BK4819_WriteRegister, BK4819_GetRSSI])

@[simp] theorem ToggleAudio_saved (s : Spectrum) (b : Bool) : (ToggleAudio b s).saved = s.saved := by
  unfold ToggleAudio
  repeat' (first | split_ifs | simp [hwCall, BK4819_ReadRegister, BK4819_WriteRegister, BK4819_GetRSSI])

@[simp] theorem ToggleRX_saved (s : Spectrum) (b : Bool) : (ToggleRX b s).saved = s.saved := by
  unfold ToggleRX
  repeat' (first | split_ifs | simp [hwCall, BK4819_ReadRegister, BK4819_WriteRegister, BK4819_GetRSSI])

@[simp] theorem ResetScanStats_saved (s : Spectrum) : (ResetScanStats s).saved = s.saved := by
  unfold ResetScanStats
  repeat' (first | split_ifs | simp [hwCall, BK4819_ReadRegister, BK4819_WriteRegister, BK4819_GetRSSI])

@[simp] theorem InitScan_saved (s : Spectrum) : (InitScan s).saved = s.saved := by
  unfold InitScan
  repeat' (first | split_ifs | simp [hwCall, BK4819_ReadRegister, BK4819_WriteRegister, BK4819_GetRSSI])

@[simp] theorem ResetBlacklist_saved (s : Spectrum) : (ResetBlacklist s).saved = s.saved := by
  unfold ResetBlacklist
  repeat' (first | split_ifs | simp [hwCall, BK4819_ReadRegister, BK4819_WriteRegister, BK4819_GetRSSI])

@[simp] theorem NewBandOrLevel_saved (s : Spectrum) : (NewBandOrLevel s).saved = s.saved := by
  unfold NewBandOrLevel
  repeat' (first | split_ifs | simp [hwCall, BK4819_ReadRegister, BK4819_WriteRegister, BK4819_GetRSSI])

@[simp] theorem UpdateScanInfo_saved (s : Spectrum) : (UpdateScanInfo s).saved = s.saved := by
  unfold UpdateScanInfo
  repeat' (first | split_ifs | simp [hwCall, BK4819_ReadRegister, BK4819_WriteRegister, BK4819_GetRSSI])

@[simp] theorem UpdatePeakInfo_saved (s : Spectrum) : (UpdatePeakInfo s).saved = s.saved := by
  unfold UpdatePeakInfo
  repeat' (first | split_ifs | simp [hwCall, BK4819_ReadRegister, BK4819_WriteRegister, BK4819_GetRSSI])

@[simp] theorem Measure_saved (s : Spectrum) : (Measure s).saved = s.saved := by
  unfold Measure
  repeat' (first | split_ifs | simp [hwCall, BK4819_ReadRegister, BK4819_WriteRegister, BK4819_GetRSSI])

@[simp] theorem TuneToPeak_saved (s : Spectrum) : (TuneToPeak s).saved = s.saved := by
  unfold TuneToPeak
  repeat' (first | split_ifs | simp [hwCall, BK4819_ReadRegister, BK4819_WriteRegister, BK4819_GetRSSI])

@[simp] theorem Scan_saved (s : Spectrum) : (Scan s).saved = s.saved := by
  unfold Scan
  repeat' (first | split_ifs | simp [hwCall, BK4819_ReadRegister, BK4819_WriteRegister, BK4819_GetRSSI])

@[simp] theorem NextScanStep_saved (s : Spectrum) : (NextScanStep s).saved = s.saved := by
  unfold NextScanStep
  repeat' (first | split_ifs | simp [hwCall, BK4819_ReadRegister, BK4819_WriteRegister, BK4819_GetRSSI])

@[simp] theorem ResetFreqInput_saved (s : Spectrum) : (ResetFreqInput s).saved = s.saved := by
  unfold ResetFreqInput
  repeat' (first | split_ifs | simp [hwCall, BK4819_ReadRegister, BK4819_WriteRegister, BK4819_GetRSSI])

@[simp] theorem FreqInput_saved (s : Spectrum) : (FreqInput s).saved = s.saved := by
  unfold FreqInput
  repeat' (first | split_ifs | simp [hwCall, BK4819_ReadRegister, BK4819_WriteRegister, BK4819_GetRSSI])

@[simp] theorem UpdateFreqInput_saved (s : Spectrum) (key : KEY_Code_t) : (UpdateFreqInput key s).saved = s.saved := by
  unfold UpdateFreqInput
  repeat' (first | split_ifs | simp [hwCall, BK4819_ReadRegister, BK4819_WriteRegister, BK4819_GetRSSI])

@[simp] theorem updatePrepare_saved (s : Spectrum) : (updatePrepare s).saved = s.saved := by
  unfold updatePrepare
  repeat' (first | split_ifs | simp [hwCall, BK4819_ReadRegister, BK4819_WriteRegister, BK4819_GetRSSI])

@[simp] theorem updateRestoreBW_saved (s : Spectrum) : (updateRestoreBW s).saved = s.saved := by
  unfold updateRestoreBW
  repeat' (first | split_ifs | simp [hwCall, BK4819_ReadRegister, BK4819_WriteRegister, BK4819_GetRSSI])

@[simp] theorem updateDecide_saved (s : Spectrum) : (updateDecide s).saved = s.saved := by
  unfold updateDecide
  repeat' (first | split_ifs | simp [hwCall, BK4819_ReadRegister, BK4819_WriteRegister, BK4819_GetRSSI])
@[simp] theorem GetRegMenuValue_frame (s : Spectrum) (st : Nat) :
    (GetRegMenuValue st s).2.currentState = s.currentState ∧
    (GetRegMenuValue st s).2.peak = s.peak ∧
    (GetRegMenuValue st s).2.settings = s.settings ∧
    (GetRegMenuValue st s).2.rssiHistory = s.rssiHistory ∧
    (GetRegMenuValue st s).2.scanInfo = s.scanInfo ∧
    (GetRegMenuValue st s).2.listenT = s.listenT ∧
    (GetRegMenuValue st s).2.currentFreq = s.currentFreq ∧
    (GetRegMenuValue st s).2.tempFreq = s.tempFreq ∧
    (GetRegMenuValue st s).2.freqInputIndex = s.freqInputIndex ∧
    (GetRegMenuValue st s).2.freqInputArr = s.freqInputArr ∧
    (GetRegMenuValue st s).2.freqInputString = s.freqInputString ∧
    (GetRegMenuValue st s).2.freqInputDotIndex = s.freqInputDotIndex ∧
    (GetRegMenuValue st s).2.isInitialized = s.isInitialized ∧
    (GetRegMenuValue st s).2.isListening = s.isListening ∧
    (GetRegMenuValue st s).2.redrawScreen = s.redrawScreen ∧
    (GetRegMenuValue st s).2.fMeasure = s.fMeasure ∧
    (GetRegMenuValue st s).2.audioState = s.audioState ∧
    (GetRegMenuValue st s).2.menuState = s.menuState ∧
    (GetRegMenuValue st s).2.hwIn = s.hwIn ∧
    (GetRegMenuValue st s).2.saved = s.saved := by
  unfold GetRegMenuValue
  repeat' (first | split_ifs | simp [hwCall, BK4819_ReadRegister, BK4819_WriteRegister, BK4819_GetRSSI])

@[simp] theorem SetRegMenuValue_frame (s : Spectrum) (st : Nat) (add : Bool) :
    (SetRegMenuValue st add s).currentState = s.currentState ∧
    (SetRegMenuValue st add s).peak = s.peak ∧
    (SetRegMenuValue st add s).settings = s.settings ∧
    (SetRegMenuValue st add s).rssiHistory = s.rssiHistory ∧
    (SetRegMenuValue st add s).scanInfo = s.scanInfo ∧
    (SetRegMenuValue st add s).listenT = s.listenT ∧
    (SetRegMenuValue st add s).currentFreq = s.currentFreq ∧
    (SetRegMenuValue st add s).tempFreq = s.tempFreq ∧
    (SetRegMenuValue st add s).freqInputIndex = s.freqInputIndex ∧
    (SetRegMenuValue st add s).freqInputArr = s.freqInputArr ∧
    (SetRegMenuValue st add s).freqInputString = s.freqInputString ∧
    (SetRegMenuValue st add s).freqInputDotIndex = s.freqInputDotIndex ∧
    (SetRegMenuValue st add s).isInitialized = s.isInitialized ∧
    (SetRegMenuValue st add s).isListening = s.isListening ∧
    (SetRegMenuValue st add s).redrawScreen = s.redrawScreen ∧
    (SetRegMenuValue st add s).fMeasure = s.fMeasure ∧
    (SetRegMenuValue st add s).audioState = s.audioState ∧
    (SetRegMenuValue st add s).menuState = s.menuState ∧
    (SetRegMenuValue st add s).hwIn = s.hwIn ∧
    (SetRegMenuValue st add s).saved = s.saved := by
  unfold SetRegMenuValue
  repeat' (first | split_ifs | simp [hwCall, BK4819_ReadRegister, BK4819_WriteRegister, BK4819_GetRSSI, regMenuField])

@[simp] theorem SetModulation_frame (s : Spectrum) (type : Nat) :
    (SetModulation type s).currentState = s.currentState ∧
    (SetModulation type s).peak = s.peak ∧
    (SetModulation type s).settings = s.settings ∧
    (SetModulation type s).rssiHistory = s.rssiHistory ∧
    (SetModulation type s).scanInfo = s.scanInfo ∧
    (SetModulation type s).listenT = s.listenT ∧
    (SetModulation type s).currentFreq = s.currentFreq ∧
    (SetModulation type s).tempFreq = s.tempFreq ∧
    (SetModulation type s).freqInputIndex = s.freqInputIndex ∧
    (SetModulation type s).freqInputArr = s.freqInputArr ∧
    (SetModulation type s).freqInputString = s.freqInputString ∧
    (SetModulation type s).freqInputDotIndex = s.freqInputDotIndex ∧
    (SetModulation type s).isInitialized = s.isInitialized ∧
    (SetModulation type s).isListening = s.isListening ∧
    (SetModulation type s).redrawScreen = s.redrawScreen ∧
    (SetModulation type s).fMeasure = s.fMeasure ∧
    (SetModulation type s).audioState = s.audioState ∧
    (SetModulation type s).menuState = s.menuState ∧
    (SetModulation type s).hwIn = s.hwIn ∧
    (SetModulation type s).saved = s.saved := by
  unfold SetModulation
  repeat' (first | split_ifs | simp [hwCall, BK4819_ReadRegister, BK4819_WriteRegister, BK4819_GetRSSI])

@[simp] theorem DeInitSpectrum_frame (s : Spectrum) :
    (DeInitSpectrum s).currentState = s.currentState ∧
    (DeInitSpectrum s).peak = s.peak ∧
    (DeInitSpectrum s).settings = s.settings ∧
    (DeInitSpectrum s).rssiHistory = s.rssiHistory ∧
    (DeInitSpectrum s).scanInfo = s.scanInfo ∧
    (DeInitSpectrum s).listenT = s.listenT ∧
    (DeInitSpectrum s).currentFreq = s.currentFreq ∧
    (DeInitSpectrum s).tempFreq = s.tempFreq ∧
    (DeInitSpectrum s).freqInputIndex = s.freqInputIndex ∧
    (DeInitSpectrum s).freqInputArr = s.freqInputArr ∧
    (DeInitSpectrum s).freqInputString = s.freqInputString ∧
    (DeInitSpectrum s).freqInputDotIndex = s.freqInputDotIndex ∧
    (DeInitSpectrum s).isListening = s.isListening ∧
    (DeInitSpectrum s).redrawScreen = s.redrawScreen ∧
    (DeInitSpectrum s).audioState = s.audioState ∧
    (DeInitSpectrum s).menuState = s.menuState ∧
    (DeInitSpectrum s).hwIn = s.hwIn ∧
    (DeInitSpectrum s).saved = s.saved := by
  unfold DeInitSpectrum
  repeat' (first | split_ifs | simp [hwCall, BK4819_ReadRegister, BK4819_WriteRegister, BK4819_GetRSSI])

@[simp] theorem UpdateRssiTriggerLevel_frame (s : Spectrum) (diff : Int) :
    (UpdateRssiTriggerLevel diff s).currentState = s.currentState ∧
    (UpdateRssiTriggerLevel diff s).peak = s.peak ∧
    (UpdateRssiTriggerLevel diff s).rssiHistory = s.rssiHistory ∧
    (UpdateRssiTriggerLevel diff s).scanInfo = s.scanInfo ∧
    (UpdateRssiTriggerLevel diff s).listenT = s.listenT ∧
    (UpdateRssiTriggerLevel diff s).currentFreq = s.currentFreq ∧
    (UpdateRssiTriggerLevel diff s).tempFreq = s.tempFreq ∧
    (UpdateRssiTriggerLevel diff s).freqInputIndex = s.freqInputIndex ∧
    (UpdateRssiTriggerLevel diff s).freqInputArr = s.freqInputArr ∧
    (UpdateRssiTriggerLevel diff s).freqInputString = s.freqInputString ∧
    (UpdateRssiTriggerLevel diff s).freqInputDotIndex = s.freqInputDotIndex ∧
    (UpdateRssiTriggerLevel diff s).isInitialized = s.isInitialized ∧
    (UpdateRssiTriggerLevel diff s).isListening = s.isListening ∧
    (UpdateRssiTriggerLevel diff s).redrawScreen = s.redrawScreen ∧
    (UpdateRssiTriggerLevel diff s).fMeasure = s.fMeasure ∧
    (UpdateRssiTriggerLevel diff s).audioState = s.audioState ∧
    (UpdateRssiTriggerLevel diff s).menuState = s.menuState ∧
    (UpdateRssiTriggerLevel diff s).hwTrace = s.hwTrace ∧
    (UpdateRssiTriggerLevel diff s).hwIn = s.hwIn ∧
    (UpdateRssiTriggerLevel diff s).hwReads = s.hwReads ∧
    (UpdateRssiTriggerLevel diff s).saved = s.saved := by
  unfold UpdateRssiTriggerLevel
  repeat' (first | split_ifs | simp [hwCall, BK4819_ReadRegister, BK4819_WriteRegister, BK4819_GetRSSI])

@[simp] theorem UpdateScanStep_frame (s : Spectrum) (diff : Int) :
    (UpdateScanStep diff s).currentState = s.currentState ∧
    (UpdateScanStep diff s).peak = s.peak ∧
    (UpdateScanStep diff s).rssiHistory = s.rssiHistory ∧
    (UpdateScanStep diff s).listenT = s.listenT ∧
    (UpdateScanStep diff s).currentFreq = s.currentFreq ∧
    (UpdateScanStep diff s).tempFreq = s.tempFreq ∧
    (UpdateScanStep diff s).freqInputIndex = s.freqInputIndex ∧
    (UpdateScanStep diff s).freqInputArr = s.freqInputArr ∧
    (UpdateScanStep diff s).freqInputString = s.freqInputString ∧
    (UpdateScanStep diff s).freqInputDotIndex = s.freqInputDotIndex ∧
    (UpdateScanStep diff s).isInitialized = s.isInitialized ∧
    (UpdateScanStep diff s).isListening = s.isListening ∧
    (UpdateScanStep diff s).redrawScreen = s.redrawScreen ∧
    (UpdateScanStep diff s).fMeasure = s.fMeasure ∧
    (UpdateScanStep diff s).audioState = s.audioState ∧
    (UpdateScanStep diff s).menuState = s.menuState ∧
    (UpdateScanStep diff s).hwIn = s.hwIn ∧
    (UpdateScanStep diff s).hwReads = s.hwReads ∧
    (UpdateScanStep diff s).saved = s.saved := by
  unfold UpdateScanStep
  repeat' (first | split_ifs | simp [hwCall, BK4819_ReadRegister, BK4819_WriteRegister, BK4819_GetRSSI])

@[simp] theorem UpdateCurrentFreq_frame (s : Spectrum) (diff : Int) :
    (UpdateCurrentFreq diff s).currentState = s.currentState ∧
    (UpdateCurrentFreq diff s).listenT = s.listenT ∧
    (UpdateCurrentFreq diff s).tempFreq = s.tempFreq ∧
    (UpdateCurrentFreq diff s).freqInputIndex = s.freqInputIndex ∧
    (UpdateCurrentFreq diff s).freqInputArr = s.freqInputArr ∧
    (UpdateCurrentFreq diff s).freqInputString = s.freqInputString ∧
    (UpdateCurrentFreq diff s).freqInputDotIndex = s.freqInputDotIndex ∧
    (UpdateCurrentFreq diff s).isInitialized = s.isInitialized ∧
    (UpdateCurrentFreq diff s).isListening = s.isListening ∧
    (UpdateCurrentFreq diff s).redrawScreen = s.redrawScreen ∧
    (UpdateCurrentFreq diff s).audioState = s.audioState ∧
    (UpdateCurrentFreq diff s).menuState = s.menuState ∧
    (UpdateCurrentFreq diff s).hwIn = s.hwIn ∧
    (UpdateCurrentFreq diff s).saved = s.saved := by
  unfold UpdateCurrentFreq
  repeat' (first | split_ifs | simp [hwCall, BK4819_ReadRegister, BK4819_WriteRegister, BK4819_GetRSSI])

@[simp] theorem UpdateFreqChangeStep_frame (s : Spectrum) (diff : Int) :
    (UpdateFreqChangeStep diff s).currentState = s.currentState ∧
    (UpdateFreqChangeStep diff s).peak = s.peak ∧
    (UpdateFreqChangeStep diff s).rssiHistory = s.rssiHistory ∧
    (UpdateFreqChangeStep diff s).scanInfo = s.scanInfo ∧
    (UpdateFreqChangeStep diff s).listenT = s.listenT ∧
    (UpdateFreqChangeStep diff s).currentFreq = s.currentFreq ∧
    (UpdateFreqChangeStep diff s).tempFreq = s.tempFreq ∧
    (UpdateFreqChangeStep diff s).freqInputIndex = s.freqInputIndex ∧
    (UpdateFreqChangeStep diff s).freqInputArr = s.freqInputArr ∧
    (UpdateFreqChangeStep diff s).freqInputString = s.freqInputString ∧
    (UpdateFreqChangeStep diff s).freqInputDotIndex = s.freqInputDotIndex ∧
    (UpdateFreqChangeStep diff s).isInitialized = s.isInitialized ∧
    (UpdateFreqChangeStep diff s).isListening = s.isListening ∧
    (UpdateFreqChangeStep diff s).redrawScreen = s.redrawScreen ∧
    (UpdateFreqChangeStep diff s).fMeasure = s.fMeasure ∧
    (UpdateFreqChangeStep diff s).audioState = s.audioState ∧
    (UpdateFreqChangeStep diff s).menuState = s.menuState ∧
    (UpdateFreqChangeStep diff s).hwTrace = s.hwTrace ∧
    (UpdateFreqChangeStep diff s).hwIn = s.hwIn ∧
    (UpdateFreqChangeStep diff s).hwReads = s.hwReads ∧
    (UpdateFreqChangeStep diff s).saved = s.saved := by
  unfold UpdateFreqChangeStep
  repeat' (first | split_ifs | simp [hwCall, BK4819_ReadRegister, BK4819_WriteRegister, BK4819_GetRSSI])

@[simp] theorem Blacklist_frame (s : Spectrum) :
    (Blacklist s).currentState = s.currentState ∧
    (Blacklist s).peak = s.peak ∧
    (Blacklist s).settings = s.settings ∧
    (Blacklist s).scanInfo = s.scanInfo ∧
    (Blacklist s).listenT = s.listenT ∧
    (Blacklist s).currentFreq = s.currentFreq ∧
    (Blacklist s).tempFreq = s.tempFreq ∧
    (Blacklist s).freqInputIndex = s.freqInputIndex ∧
    (Blacklist s).freqInputArr = s.freqInputArr ∧
    (Blacklist s).freqInputString = s.freqInputString ∧
    (Blacklist s).freqInputDotIndex = s.freqInputDotIndex ∧
    (Blacklist s).isInitialized = s.isInitialized ∧
    (Blacklist s).isListening = s.isListening ∧
    (Blacklist s).redrawScreen = s.redrawScreen ∧
    (Blacklist s).fMeasure = s.fMeasure ∧
    (Blacklist s).audioState = s.audioState ∧
    (Blacklist s).menuState = s.menuState ∧
    (Blacklist s).hwTrace = s.hwTrace ∧
    (Blacklist s).hwIn = s.hwIn ∧
    (Blacklist s).hwReads = s.hwReads ∧
    (Blacklist s).saved = s.saved := by
  unfold Blacklist
  repeat' (first | split_ifs | simp [hwCall, BK4819_ReadRegister, BK4819_WriteRegister, BK4819_GetRSSI])

/-! ## Listening: idle ticks and idempotent toggles (claims C13, C14) -/

theorem Update_idle (s : Spectrum) (hl : s.isListening = true) (ht : 0 < s.listenT) :
    Update s =
      { s with listenT := s.listenT - 1, hwTrace := s.hwTrace ++ [HwCall.SYSTEM_DelayMs 1] } := by
  have hc : s.isListening = true ∧ s.listenT ≠ 0 := ⟨hl, by omega⟩
  rw [Update_eq, if_pos hc]
  rfl

theorem Update_idle_iterate (n : Nat) (s : Spectrum) (hl : s.isListening = true)
    (hn : n ≤ s.listenT) :
    Update^[n] s =
      { s with listenT := s.listenT - n,
               hwTrace := s.hwTrace ++ List.replicate n (HwCall.SYSTEM_DelayMs 1) } := by
  induction n with
  | zero => simp
  | succ n ih =>
    rw [Function.iterate_succ_apply', ih (by omega)]
    rw [Update_idle _ (by simpa using hl) (by simp; omega)]
    simp only [List.append_assoc, Spectrum.mk.injEq, true_and, and_true]
    refine ⟨by omega, ?_⟩
    rw [List.replicate_succ']

/-- Claim C13.  While listening with the timer running (`isListening` and
`listenT > 0`), one `Update()` tick lowers `listenT` by exactly 1 and
otherwise only waits (`SYSTEM_DelayMs(1)`): nothing is read from the
hardware, no retune, bandwidth change or RSSI sample is issued, and
`rssiHistory`, `scanInfo`, `peak`, `settings`, `isListening` and `fMeasure`
are unchanged.  So for `n <= listenT` ticks nothing but the timer moves: the
trigger is tested again only at `listenT = 0`. -/
theorem listening_idle_tick (s : Spectrum) (hl : s.isListening = true) (ht : 0 < s.listenT) :
    Update s =
      { s with listenT := s.listenT - 1, hwTrace := s.hwTrace ++ [HwCall.SYSTEM_DelayMs 1] } ∧
    (Update s).listenT + 1 = s.listenT ∧
    (Update s).hwReads = s.hwReads ∧
    (Update s).rssiHistory = s.rssiHistory ∧ (Update s).scanInfo = s.scanInfo ∧
    (Update s).peak = s.peak ∧ (Update s).settings = s.settings ∧
    (Update s).isListening = s.isListening ∧ (Update s).fMeasure = s.fMeasure ∧
    (∀ n, n ≤ s.listenT →
      Update^[n] s =
        { s with listenT := s.listenT - n,
                 hwTrace := s.hwTrace ++ List.replicate n (HwCall.SYSTEM_DelayMs 1) }) := by
  have h := Update_idle s hl ht
  refine ⟨h, ?_, ?_, ?_, ?_, ?_, ?_, ?_, ?_, ?_⟩
  · rw [h]; simp only []; omega
  · rw [h]
  · rw [h]
  · rw [h]
  · rw [h]
  · rw [h]
  · rw [h]
  · rw [h]
  · intro n hn
    exact Update_idle_iterate n s hl hn

theorem listening_idle_tick_witness :
    exampleListening.isListening = true ∧ 0 < exampleListening.listenT ∧
    (Update exampleListening =
      { exampleListening with
        listenT := exampleListening.listenT - 1,
        hwTrace := exampleListening.hwTrace ++ [HwCall.SYSTEM_DelayMs 1] } ∧
    (Update exampleListening).listenT + 1 = exampleListening.listenT ∧
    (Update exampleListening).hwReads = exampleListening.hwReads ∧
    (Update exampleListening).rssiHistory = exampleListening.rssiHistory ∧
    (Update exampleListening).scanInfo = exampleListening.scanInfo ∧
    (Update exampleListening).peak = exampleListening.peak ∧
    (Update exampleListening).settings = exampleListening.settings ∧
    (Update exampleListening).isListening = exampleListening.isListening ∧
    (Update exampleListening).fMeasure = exampleListening.fMeasure ∧
    (∀ n, n ≤ exampleListening.listenT →
      Update^[n] exampleListening =
        { exampleListening with
          listenT := exampleListening.listenT - n,
          hwTrace := exampleListening.hwTrace ++ List.replicate n (HwCall.SYSTEM_DelayMs 1) })) :=
  ⟨by decide, by decide, listening_idle_tick exampleListening (by decide) (by decide)⟩

theorem ToggleRX_same (enable : Bool) (s : Spectrum) (h : s.isListening = enable) :
    ToggleRX enable s = s := by
  unfold ToggleRX
  rw [if_pos h]

/-- Claim C14.  `ToggleRX(on)` called in a state where `isListening = on`
returns the state it was given: no global changes and the hardware trace
does not grow (no GPIO, register or BK1080 call).  Hence, from any state,
`ToggleRX(on)` twice in a row yields the same state and the same trace as
`ToggleRX(on)` once, for `on` true and false. -/
theorem toggle_rx_idempotent (s : Spectrum) (enable : Bool) (h : s.isListening = enable) :
    ToggleRX enable s = s ∧
    (ToggleRX enable s).hwTrace = s.hwTrace ∧ (ToggleRX enable s).hwReads = s.hwReads ∧
    (∀ (t : Spectrum) (b : Bool),
      ToggleRX b (ToggleRX b t) = ToggleRX b t ∧
      (ToggleRX b (ToggleRX b t)).hwTrace = (ToggleRX b t).hwTrace) := by
  have h1 := ToggleRX_same enable s h
  refine ⟨h1, by rw [h1], by rw [h1], ?_⟩
  intro t b
  have h2 := ToggleRX_same b (ToggleRX b t) (ToggleRX_isListening b t)
  exact ⟨h2, by rw [h2]⟩

theorem toggle_rx_idempotent_witness :
    exampleListening.isListening = true ∧
    (ToggleRX true exampleListening = exampleListening ∧
    (ToggleRX true exampleListening).hwTrace = exampleListening.hwTrace ∧
    (ToggleRX true exampleListening).hwReads = exampleListening.hwReads ∧
    (∀ (t : Spectrum) (b : Bool),
      ToggleRX b (ToggleRX b t) = ToggleRX b t ∧
      (ToggleRX b (ToggleRX b t)).hwTrace = (ToggleRX b t).hwTrace)) :=
  ⟨by decide, toggle_rx_idempotent exampleListening true (by decide)⟩

/-! ## InitScan (claim C15) -/

/-- Claim C15.  In still mode `InitScan()` returns the state it was given.
Otherwise it sets `scanInfo.i = 0`, `scanInfo.f = GetFStart()`,
`scanInfo.scanStep = GetScanStep()` and
`scanInfo.measurementsCount = GetStepsCount()`, and leaves `settings`,
`peak`, `rssiHistory` and `currentFreq` (and every global other than
`scanInfo`) unchanged. -/
theorem init_scan_effect (s : Spectrum) :
    (s.settings.isStillMode = true → InitScan s = s) ∧
    (s.settings.isStillMode = false →
      (InitScan s).scanInfo.i = 0 ∧
      (InitScan s).scanInfo.f = GetFStart s ∧
      (InitScan s).scanInfo.scanStep = GetScanStep s ∧
      (InitScan s).scanInfo.measurementsCount = GetStepsCount s) ∧
    (InitScan s).settings = s.settings ∧ (InitScan s).peak = s.peak ∧
    (InitScan s).rssiHistory = s.rssiHistory ∧ (InitScan s).currentFreq = s.currentFreq ∧
    (InitScan s).isListening = s.isListening ∧ (InitScan s).fMeasure = s.fMeasure ∧
    (InitScan s).hwTrace = s.hwTrace ∧ (InitScan s).hwReads = s.hwReads := by
  refine ⟨InitScan_still s, ?_, by simp, by simp, by simp, by simp, by simp, by simp, by simp,
    by simp⟩
  intro h
  rw [InitScan_scanInfo s h]
  exact ⟨rfl, rfl, rfl, rfl⟩

/-! ## The blacklist key (claim C18) -/

theorem OnKeyDown_SIDE1 (s : Spectrum) :
    OnKeyDown KEY_SIDE1 s =
      { s with rssiHistory := s.rssiHistory.set s.peak.i 255, redrawScreen := true } := by
  rfl

/-- Claim C18, as amended.  `OnKeyDown(KEY_SIDE1)` with the peak's bin
inside the array (`peak.i < 128`) marks that bin, `rssiHistory[peak.i] = 255`,
and does not clear the persisted peak: `peak.rssi`, `peak.t`, `peak.f` (and
`peak.i`) are left as they were. -/
theorem blacklist_key_effect (s : Spectrum) (hlen : s.rssiHistory.length = 128)
    (hi : s.peak.i < 128) :
    (OnKeyDown KEY_SIDE1 s).rssiHistory[s.peak.i]? = some 255 ∧
    (OnKeyDown KEY_SIDE1 s).peak.rssi = s.peak.rssi ∧
    (OnKeyDown KEY_SIDE1 s).peak.t = s.peak.t ∧
    (OnKeyDown KEY_SIDE1 s).peak.f = s.peak.f ∧
    (OnKeyDown KEY_SIDE1 s).peak = s.peak := by
  rw [OnKeyDown_SIDE1]
  refine ⟨?_, rfl, rfl, rfl, rfl⟩
  simp [hlen, hi]

set_option maxRecDepth 8192 in
theorem blacklist_key_effect_witness :
    examplePeak.rssiHistory.length = 128 ∧ examplePeak.peak.i < 128 ∧
    ((OnKeyDown KEY_SIDE1 examplePeak).rssiHistory[examplePeak.peak.i]? = some 255 ∧
    (OnKeyDown KEY_SIDE1 examplePeak).peak.rssi = examplePeak.peak.rssi ∧
    (OnKeyDown KEY_SIDE1 examplePeak).peak.t = examplePeak.peak.t ∧
    (OnKeyDown KEY_SIDE1 examplePeak).peak.f = examplePeak.peak.f ∧
    (OnKeyDown KEY_SIDE1 examplePeak).peak = examplePeak.peak) :=
  ⟨by decide, by decide, blacklist_key_effect examplePeak (by decide) (by decide)⟩

/-- Claim C18 as stated fails.  With a persisted peak of RSSI 130, age 5,
at 433 MHz in bin 3, the blacklist key marks bin 3 and leaves the peak as it
was: `peak.rssi = 130`, `peak.t = 5`, `peak.f = 43300000`. -/
theorem blacklist_key_effect_counterexample :
    examplePeak.peak = { t := 5, rssi := 130, i := 3, f := 43300000 } ∧
    (OnKeyDown KEY_SIDE1 examplePeak).rssiHistory[3]? = some 255 ∧
    (OnKeyDown KEY_SIDE1 examplePeak).peak.rssi = 130 ∧
    (OnKeyDown KEY_SIDE1 examplePeak).peak.t = 5 ∧
    (OnKeyDown KEY_SIDE1 examplePeak).peak.f = 43300000 := by
  refine ⟨by decide, ?_, by decide, by decide, by decide⟩
  rw [OnKeyDown_SIDE1]
  simp [examplePeak, exampleSpectrum, initialSpectrum]

/-! ## SetBW (claim C19) -/

theorem SetBW_trace (bw : Nat) (s : Spectrum) :
    (SetBW bw s).hwTrace =
      if s.settings.bw = bw then s.hwTrace
      else s.hwTrace ++ [HwCall.BK4819_SetFilterBandwidth s.settings.bw] := by
  unfold SetBW
  split_ifs <;> simp [hwCall]

/-- Claim C19 at its failing input.  With `settings.bw` wide, `SetBW` asked
for the narrow bandwidth hands the wide one to the driver; and entering
LISTENING with `settings.listenBw` narrow on a non-broadcast peak issues no
`BK4819_SetFilterBandwidth(narrow)` at all: every bandwidth call of
`ToggleRX(true)` carries the wide value.  Only the equal case is as
claimed: `SetBW(settings.bw)` issues no call. -/
theorem set_bw_applies_current_bandwidth :
    exampleSpectrum.settings.bw = BK4819_FILTER_BW_WIDE ∧
    (SetBW BK4819_FILTER_BW_NARROW exampleSpectrum).hwTrace =
      [HwCall.BK4819_SetFilterBandwidth BK4819_FILTER_BW_WIDE] ∧
    (SetBW BK4819_FILTER_BW_WIDE exampleSpectrum).hwTrace = [] ∧
    exampleNarrowListen.settings.listenBw = BK4819_FILTER_BW_NARROW ∧
    IsBroadcastFM exampleNarrowListen.peak.f = false ∧
    HwCall.BK4819_SetFilterBandwidth BK4819_FILTER_BW_NARROW ∉
      (ToggleRX true exampleNarrowListen).hwTrace ∧
    (ToggleRX true exampleNarrowListen).hwTrace.filter
        (fun c => match c with
          | HwCall.BK4819_SetFilterBandwidth _ => true
          | _ => false) =
      [HwCall.BK4819_SetFilterBandwidth BK4819_FILTER_BW_WIDE,
       HwCall.BK4819_SetFilterBandwidth BK4819_FILTER_BW_WIDE] := by
  decide

/-! ## Scanning and listening (claims C11, C12) -/

theorem GetRssi_value (s : Spectrum) :
    (GetRssi s).1 = min (s.hwIn (s.hwReads + 1)) 255 := by
  simp only [GetRssi, ResetRSSI, BK4819_ReadRegister, BK4819_WriteRegister, hwCall,
    BK4819_GetRSSI, hwNext, clamp]
  have hU : U8 = 256 := rfl
  split_ifs with h1 h2
  · have : s.hwIn (s.hwReads + 1) = 0 := by omega
    simp [this]
  · have : 255 ≤ s.hwIn (s.hwReads + 1) := by omega
    simp [this, hU]
  · have h3 : s.hwIn (s.hwReads + 1) < 255 := by omega
    rw [Int.toNat_ofNat, Nat.mod_eq_of_lt (by omega), Nat.min_eq_left (by omega)]

theorem scanReading_eq (s : Spectrum) :
    scanReading s = min (s.hwIn ((SetF s.scanInfo.f s).hwReads + 1)) 255 := by
  unfold scanReading
  rw [GetRssi_value]
  simp

theorem Scan_measured (s : Spectrum) (h : s.rssiHistory.getD s.scanInfo.i 0 ≠ 255) :
    (Scan s).scanInfo =
      { s.scanInfo with
        rssi := scanReading s,
        rssiMax := if scanReading s > s.scanInfo.rssiMax then scanReading s
          else s.scanInfo.rssiMax,
        fPeak := if scanReading s > s.scanInfo.rssiMax then s.scanInfo.f else s.scanInfo.fPeak,
        iPeak := if scanReading s > s.scanInfo.rssiMax then s.scanInfo.i else s.scanInfo.iPeak,
        rssiMin :=
          if scanReading s < s.scanInfo.rssiMin then scanReading s else s.scanInfo.rssiMin } ∧
    (Scan s).fMeasure = s.scanInfo.f ∧
    (Scan s).rssiHistory = s.rssiHistory.set s.scanInfo.i (scanReading s) := by
  have hm : ∀ t : Spectrum, (Measure t).scanInfo = { t.scanInfo with rssi := (GetRssi t).1 } := by
    intro t
    simp [Measure, GetRssi, BK4819_GetRSSI, hwCall]
  have hf : (SetF s.scanInfo.f s).fMeasure = s.scanInfo.f := by
    unfold SetF
    repeat' (first | split_ifs | simp [hwCall, BK4819_ReadRegister, BK4819_WriteRegister, *])
  unfold Scan
  rw [if_pos h]
  refine ⟨?_, ?_, ?_⟩
  · unfold UpdateScanInfo
    simp only [hm, SetBW_frame, SetF_frame]
    unfold scanReading
    split_ifs <;> simp_all
  · simp [hf]
  · simp only [UpdateScanInfo_frame, Measure_rssiHistory, SetBW_frame, SetF_frame]
    rfl

theorem updatePrepare_idle (s : Spectrum) (h : s.isListening = false) : updatePrepare s = s := by
  simp [updatePrepare, h]

theorem updateRestoreBW_idle (s : Spectrum) (h : s.isListening = false) :
    updateRestoreBW s = s := by
  simp [updateRestoreBW, h]

theorem Scan_skipped (s : Spectrum) (h : s.rssiHistory.getD s.scanInfo.i 0 = 255) :
    Scan s = s := by
  unfold Scan
  rw [if_neg (by simpa using h)]

theorem Scan_position (s : Spectrum) :
    (Scan s).scanInfo.i = s.scanInfo.i ∧ (Scan s).scanInfo.f = s.scanInfo.f ∧
    (Scan s).scanInfo.scanStep = s.scanInfo.scanStep ∧
    (Scan s).scanInfo.measurementsCount = s.scanInfo.measurementsCount := by
  by_cases h : s.rssiHistory.getD s.scanInfo.i 0 = 255
  · rw [Scan_skipped s h]
    exact ⟨rfl, rfl, rfl, rfl⟩
  · rw [(Scan_measured s h).1]
    exact ⟨rfl, rfl, rfl, rfl⟩

theorem ScanDone_Scan (s : Spectrum) : ScanDone (Scan s) = ScanDone s := by
  unfold ScanDone
  rw [(Scan_position s).1, (Scan_position s).2.2.2]

theorem updateDecide_boundary (s : Spectrum)
    (h : ScanDone s = true ∨ s.isListening = true ∨ s.settings.isStillMode = true) :
    updateDecide s =
      if IsPeakOverLevel (UpdatePeakInfo { s with redrawScreen := true }) then
        { ToggleRX true (TuneToPeak (UpdatePeakInfo { s with redrawScreen := true })) with
          listenT := 1000 }
      else InitScan (ToggleRX false (UpdatePeakInfo { s with redrawScreen := true })) := by
  unfold updateDecide
  rw [if_pos h]

theorem updateDecide_advance (s : Spectrum)
    (h : ¬ (ScanDone s = true ∨ s.isListening = true ∨ s.settings.isStillMode = true)) :
    updateDecide s = NextScanStep s := by
  unfold updateDecide
  rw [if_neg h]

theorem GetPeakF_congr (s t : Spectrum) (hp : t.peak.f = s.peak.f)
    (ho : t.settings.stillOffset = s.settings.stillOffset) : GetPeakF t = GetPeakF s := by
  unfold GetPeakF
  rw [hp, ho]

theorem GetPeakF_exact (s : Spectrum) (h0 : 0 ≤ (s.peak.f : Int) + s.settings.stillOffset)
    (h1 : (s.peak.f : Int) + s.settings.stillOffset < (U32 : Int)) :
    (GetPeakF s : Int) = (s.peak.f : Int) + s.settings.stillOffset := by
  unfold GetPeakF
  rw [Int.emod_eq_of_lt h0 h1, Int.toNat_of_nonneg h0]

theorem TuneToPeak_tuned (s : Spectrum) :
    (TuneToPeak s).scanInfo.f = GetPeakF s ∧ (TuneToPeak s).fMeasure = GetPeakF s ∧
    (TuneToPeak s).peak.f = s.peak.f ∧ (TuneToPeak s).peak.rssi = s.peak.rssi ∧
    (TuneToPeak s).peak.t = s.peak.t ∧
    (TuneToPeak s).scanInfo.i = (TuneToPeak s).peak.i := by
  have hf : ∀ (f : Nat) (t : Spectrum), (SetF f t).fMeasure = f := by
    intro f t
    unfold SetF
    repeat' (first | split_ifs | simp [hwCall, BK4819_ReadRegister, BK4819_WriteRegister, *])
  simp [TuneToPeak, hf]

theorem Update_boundary (s : Spectrum)
    (hb : ScanDone s = true ∨ s.isListening = true ∨ s.settings.isStillMode = true)
    (ht : s.isListening = false ∨ s.listenT = 0) :
    Update s =
      if IsPeakOverLevel (afterPeakUpdate s) then
        { ToggleRX true (TuneToPeak (afterPeakUpdate s)) with listenT := 1000 }
      else InitScan (ToggleRX false (afterPeakUpdate s)) := by
  have hc : ¬ (s.isListening = true ∧ s.listenT ≠ 0) := by
    rintro ⟨h1, h2⟩
    rcases ht with h | h
    · rw [h] at h1; exact Bool.noConfusion h1
    · exact h2 h
  have hb2 : ScanDone (updateRestoreBW (Scan (updatePrepare s))) = true ∨
      (updateRestoreBW (Scan (updatePrepare s))).isListening = true ∨
      (updateRestoreBW (Scan (updatePrepare s))).settings.isStillMode = true := by
    rcases hb with h | h | h
    · by_cases hl : s.isListening = true
      · right; left; simpa using hl
      · have hl : s.isListening = false := by simpa using hl
        left
        rw [updatePrepare_idle s hl, updateRestoreBW_idle _ (by simpa using hl), ScanDone_Scan]
        exact h
    · right; left; simpa using h
    · right; right; simpa using h
  rw [Update_eq, if_neg hc, updateDecide_boundary _ hb2]
  rfl

theorem UpdatePeakInfo_settings_fields (s : Spectrum) :
    (UpdatePeakInfo s).settings.stepsCount = s.settings.stepsCount ∧
    (UpdatePeakInfo s).settings.scanStepIndex = s.settings.scanStepIndex ∧
    (UpdatePeakInfo s).settings.frequencyChangeStep = s.settings.frequencyChangeStep ∧
    (UpdatePeakInfo s).settings.scanDelay = s.settings.scanDelay ∧
    (UpdatePeakInfo s).settings.isStillMode = s.settings.isStillMode ∧
    (UpdatePeakInfo s).settings.stillOffset = s.settings.stillOffset ∧
    (UpdatePeakInfo s).settings.bw = s.settings.bw ∧
    (UpdatePeakInfo s).settings.listenBw = s.settings.listenBw ∧
    (UpdatePeakInfo s).settings.modulationType = s.settings.modulationType := by
  unfold UpdatePeakInfo
  repeat' (first | split_ifs | simp)

theorem NewBandOrLevel_settings_fields (s : Spectrum) :
    (NewBandOrLevel s).settings.stepsCount = s.settings.stepsCount ∧
    (NewBandOrLevel s).settings.scanStepIndex = s.settings.scanStepIndex ∧
    (NewBandOrLevel s).settings.frequencyChangeStep = s.settings.frequencyChangeStep ∧
    (NewBandOrLevel s).settings.scanDelay = s.settings.scanDelay ∧
    (NewBandOrLevel s).settings.isStillMode = s.settings.isStillMode ∧
    (NewBandOrLevel s).settings.stillOffset = s.settings.stillOffset ∧
    (NewBandOrLevel s).settings.bw = s.settings.bw ∧
    (NewBandOrLevel s).settings.listenBw = s.settings.listenBw ∧
    (NewBandOrLevel s).settings.modulationType = s.settings.modulationType := by
  rw [NewBandOrLevel_settings]
  split_ifs <;> simp

theorem afterPeakUpdate_fields (s : Spectrum) :
    (afterPeakUpdate s).isListening = s.isListening ∧
    (afterPeakUpdate s).currentFreq = s.currentFreq ∧
    (afterPeakUpdate s).settings.stepsCount = s.settings.stepsCount ∧
    (afterPeakUpdate s).settings.scanStepIndex = s.settings.scanStepIndex ∧
    (afterPeakUpdate s).settings.isStillMode = s.settings.isStillMode ∧
    (afterPeakUpdate s).settings.stillOffset = s.settings.stillOffset ∧
    (afterPeakUpdate s).settings.scanDelay = s.settings.scanDelay := by
  unfold afterPeakUpdate
  simp [UpdatePeakInfo_settings_fields]

theorem GetFStart_congr (s t : Spectrum) (h1 : t.settings.scanStepIndex = s.settings.scanStepIndex)
    (h2 : t.settings.stepsCount = s.settings.stepsCount) (h3 : t.currentFreq = s.currentFreq) :
    GetFStart t = GetFStart s := by
  simp [GetFStart, IsCenterMode, GetBW, GetStepsCount, GetScanStep, h1, h2, h3]

theorem ToggleAudio_audioState (b : Bool) (s : Spectrum) : (ToggleAudio b s).audioState = b := by
  unfold ToggleAudio
  split_ifs with h1 h2
  · exact h1.symm
  · simp [hwCall]
  · simp [hwCall]

theorem ToggleRX_audioState (b : Bool) (s : Spectrum) (h : s.isListening ≠ b) :
    (ToggleRX b s).audioState = b := by
  unfold ToggleRX
  rw [if_neg h]
  repeat' (first | split_ifs | simp [hwCall, ListenBK1080, ToggleAudio_audioState])

/-- Claim C11.  When `Update()` runs while not listening and takes the
cycle-boundary branch (`ScanDone()` or still mode), it enters LISTENING if
and only if, after `UpdatePeakInfo()`, `peak.rssi >= settings.rssiTriggerLevel`.
On entry `isListening = true`, `listenT = 1000` and the tuned frequency is
`scanInfo.f = fMeasure = peak.f + settings.stillOffset` (the `uint32_t`
value of `GetPeakF()`, exact when the sum lies in `0 .. 2^32 - 1`).
Otherwise `isListening` stays false and the tick ends with `InitScan()`,
which outside still mode puts the sweep back at index 0 and `GetFStart()`. -/
theorem scanning_to_listening (s : Spectrum) (hl : s.isListening = false)
    (hb : ScanDone s = true ∨ s.settings.isStillMode = true) :
    afterPeakUpdate s = UpdatePeakInfo { Scan s with redrawScreen := true } ∧
    ((Update s).isListening = true ↔
      (afterPeakUpdate s).peak.rssi ≥ (afterPeakUpdate s).settings.rssiTriggerLevel) ∧
    ((afterPeakUpdate s).peak.rssi ≥ (afterPeakUpdate s).settings.rssiTriggerLevel →
      (Update s).isListening = true ∧ (Update s).listenT = 1000 ∧
      (Update s).scanInfo.f = GetPeakF (Update s) ∧
      (Update s).fMeasure = (Update s).scanInfo.f ∧
      (Update s).peak.f = (afterPeakUpdate s).peak.f ∧
      (0 ≤ ((Update s).peak.f : Int) + (Update s).settings.stillOffset →
        ((Update s).peak.f : Int) + (Update s).settings.stillOffset < (U32 : Int) →
        ((Update s).scanInfo.f : Int) =
          ((Update s).peak.f : Int) + (Update s).settings.stillOffset)) ∧
    (¬ (afterPeakUpdate s).peak.rssi ≥ (afterPeakUpdate s).settings.rssiTriggerLevel →
      (Update s).isListening = false ∧ Update s = InitScan (afterPeakUpdate s) ∧
      (s.settings.isStillMode = false →
        (Update s).scanInfo.i = 0 ∧ (Update s).scanInfo.f = GetFStart s)) := by
  have hA : afterPeakUpdate s = UpdatePeakInfo { Scan s with redrawScreen := true } := by
    unfold afterPeakUpdate
    rw [updatePrepare_idle s hl, updateRestoreBW_idle _ (by simpa using hl)]
  have hu := Update_boundary s (hb.elim Or.inl (fun h => Or.inr (Or.inr h))) (Or.inl hl)
  have hAl : (afterPeakUpdate s).isListening = false := by
    rw [(afterPeakUpdate_fields s).1]; exact hl
  have hover : (afterPeakUpdate s).peak.rssi ≥ (afterPeakUpdate s).settings.rssiTriggerLevel →
      Update s = { ToggleRX true (TuneToPeak (afterPeakUpdate s)) with listenT := 1000 } := by
    intro h
    rw [hu, if_pos (by simpa [IsPeakOverLevel] using h)]
  have hunder : ¬ (afterPeakUpdate s).peak.rssi ≥ (afterPeakUpdate s).settings.rssiTriggerLevel →
      Update s = InitScan (afterPeakUpdate s) := by
    intro h
    rw [hu, if_neg (by simpa [IsPeakOverLevel] using h), ToggleRX_same false _ hAl]
  have hon : (afterPeakUpdate s).peak.rssi ≥ (afterPeakUpdate s).settings.rssiTriggerLevel →
      (Update s).isListening = true := by
    intro h
    rw [hover h]
    exact ToggleRX_isListening true _
  have hoff : ¬ (afterPeakUpdate s).peak.rssi ≥ (afterPeakUpdate s).settings.rssiTriggerLevel →
      (Update s).isListening = false := by
    intro h
    rw [hunder h]
    simpa using hAl
  refine ⟨hA, ⟨fun h => ?_, hon⟩, fun h => ?_, fun h => ?_⟩
  · by_contra hn
    rw [hoff hn] at h
    exact Bool.noConfusion h
  · have ht := TuneToPeak_tuned (afterPeakUpdate s)
    have hf : (Update s).scanInfo.f = GetPeakF (afterPeakUpdate s) := by
      rw [hover h]; simpa using ht.1
    have hm : (Update s).fMeasure = GetPeakF (afterPeakUpdate s) := by
      rw [hover h]; simpa using ht.2.1
    have hp : (Update s).peak.f = (afterPeakUpdate s).peak.f := by
      rw [hover h]; simpa using ht.2.2.1
    have ho : (Update s).settings.stillOffset = (afterPeakUpdate s).settings.stillOffset := by
      rw [hover h]; simp
    have hg : GetPeakF (Update s) = GetPeakF (afterPeakUpdate s) := GetPeakF_congr _ _ hp ho
    refine ⟨hon h, by rw [hover h], by rw [hf, hg], by rw [hm, hf], hp, ?_⟩
    intro h0 h1
    rw [hf, ← hg]
    exact GetPeakF_exact _ h0 h1
  · refine ⟨hoff h, hunder h, fun hs => ?_⟩
    have hAs : (afterPeakUpdate s).settings.isStillMode = false := by
      rw [(afterPeakUpdate_fields s).2.2.2.2.1]; exact hs
    rw [hunder h, InitScan_scanInfo _ hAs]
    refine ⟨rfl, ?_⟩
    exact GetFStart_congr s _ (afterPeakUpdate_fields s).2.2.2.1 (afterPeakUpdate_fields s).2.2.1
      (afterPeakUpdate_fields s).2.1

theorem updatePrepare_listening (s : Spectrum) (h : s.isListening = true) :
    (updatePrepare s).scanInfo =
      { s.scanInfo with rssi := 0, rssiMax := 0, iPeak := 0, fPeak := 0 } ∧
    (updatePrepare s).peak = { s.peak with rssi := 0, t := 0, f := 0 } := by
  simp [updatePrepare, h, ResetScanStats, ResetPeak]

/-- Claim C12.  With `isListening = true`, `listenT = 0`, the current bin
not blacklisted and the trigger level set (not 255), one `Update()` tick
measures the RSSI `r` again (`Scan()` retunes to `scanInfo.f`, so the sample
is taken at the tuned frequency; `r` is the hardware reading clamped to 255).
If `r >= rssiTriggerLevel` the state remains LISTENING with the timer
rearmed (`isListening = true`, `listenT = 1000`).  If `r < rssiTriggerLevel`
the state becomes SCANNING (`isListening = false`, audio path off) and,
outside still mode, the sweep is restarted (`scanInfo.i = 0`,
`scanInfo.f = GetFStart()`). -/
theorem listen_timeout_decision (s : Spectrum) (hl : s.isListening = true)
    (ht : s.listenT = 0) (hb : s.rssiHistory.getD s.scanInfo.i 0 ≠ 255)
    (hset : s.settings.rssiTriggerLevel ≠ 255) :
    (Scan (updatePrepare s)).scanInfo.rssi = scanReading (updatePrepare s) ∧
    (Scan (updatePrepare s)).fMeasure = s.scanInfo.f ∧
    (∃ k, s.hwReads < k ∧ scanReading (updatePrepare s) = min (s.hwIn k) 255) ∧
    (scanReading (updatePrepare s) ≥ s.settings.rssiTriggerLevel →
      (Update s).isListening = true ∧ (Update s).listenT = 1000) ∧
    (scanReading (updatePrepare s) < s.settings.rssiTriggerLevel →
      (Update s).isListening = false ∧ (Update s).audioState = false ∧
      (s.settings.isStillMode = false →
        (Update s).scanInfo.i = 0 ∧ (Update s).scanInfo.f = GetFStart s)) := by
  have hp := updatePrepare_listening s hl
  have hbP : (updatePrepare s).rssiHistory.getD (updatePrepare s).scanInfo.i 0 ≠ 255 := by
    rw [hp.1]; simpa using hb
  have hsc := Scan_measured (updatePrepare s) hbP
  have hmax : (Scan (updatePrepare s)).scanInfo.rssiMax = scanReading (updatePrepare s) := by
    rw [hsc.1, hp.1]
    simp only []
    split_ifs with h
    · rfl
    · omega
  -- the state handed to `UpdatePeakInfo()`
  have hfree : ¬ peakHeld
      { updateRestoreBW (Scan (updatePrepare s)) with redrawScreen := true } := by
    intro hh
    apply hh.1
    simp [hp.2]
  have hrep := UpdatePeakInfo_replaced _ hfree
  have hrssi : (afterPeakUpdate s).peak.rssi = scanReading (updatePrepare s) := by
    unfold afterPeakUpdate
    rw [hrep.1]
    simp [cyclePeak, hmax]
  have htrig : (afterPeakUpdate s).settings.rssiTriggerLevel = s.settings.rssiTriggerLevel := by
    unfold afterPeakUpdate
    rw [hrep.2]
    simp [hset]
  have hAl : (afterPeakUpdate s).isListening = true := by
    rw [(afterPeakUpdate_fields s).1]; exact hl
  have hu := Update_boundary s (Or.inr (Or.inl hl)) (Or.inr ht)
  refine ⟨by rw [hsc.1], ?_, ?_, fun h => ?_, fun h => ?_⟩
  · rw [hsc.2.1, hp.1]
  · have h2 : (updatePrepare s).hwIn = s.hwIn := by simp
    refine ⟨_, ?_, h2 ▸ scanReading_eq (updatePrepare s)⟩
    have : s.hwReads ≤ (SetF (updatePrepare s).scanInfo.f (updatePrepare s)).hwReads := by
      have h1 : (updatePrepare s).hwReads = s.hwReads := by simp
      rw [← h1]
      unfold SetF
      repeat' (first | split_ifs | simp [hwCall, BK4819_ReadRegister, BK4819_WriteRegister])
    omega
  · have hov : IsPeakOverLevel (afterPeakUpdate s) = true := by
      simp [IsPeakOverLevel, hrssi, htrig]
      exact h
    rw [hu, if_pos hov]
    refine ⟨?_, rfl⟩
    simp [ToggleRX_isListening]
  · have hov : ¬ IsPeakOverLevel (afterPeakUpdate s) = true := by
      simp [IsPeakOverLevel, hrssi, htrig]
      exact h
    rw [hu, if_neg hov]
    have hne : (afterPeakUpdate s).isListening ≠ false := by rw [hAl]; decide
    refine ⟨?_, ?_, fun hs => ?_⟩
    · simp [ToggleRX_isListening]
    · simp [ToggleRX_audioState _ _ hne]
    · have hAs : (ToggleRX false (afterPeakUpdate s)).settings.isStillMode = false := by
        simp [(afterPeakUpdate_fields s).2.2.2.2.1, hs]
      rw [InitScan_scanInfo _ hAs]
      refine ⟨rfl, ?_⟩
      exact GetFStart_congr s _ (by simp [(afterPeakUpdate_fields s).2.2.2.1])
        (by simp [(afterPeakUpdate_fields s).2.2.1]) (by simp [(afterPeakUpdate_fields s).2.1])

set_option maxRecDepth 8192 in
theorem scanning_to_listening_witness :
    (exampleBoundary.isListening = false) ∧
    (ScanDone exampleBoundary = true ∨ exampleBoundary.settings.isStillMode = true) ∧
    (afterPeakUpdate exampleBoundary = UpdatePeakInfo { Scan exampleBoundary with redrawScreen := true } ∧
    ((Update exampleBoundary).isListening = true ↔
      (afterPeakUpdate exampleBoundary).peak.rssi ≥ (afterPeakUpdate exampleBoundary).settings.rssiTriggerLevel) ∧
    ((afterPeakUpdate exampleBoundary).peak.rssi ≥ (afterPeakUpdate exampleBoundary).settings.rssiTriggerLevel →
      (Update exampleBoundary).isListening = true ∧ (Update exampleBoundary).listenT = 1000 ∧
      (Update exampleBoundary).scanInfo.f = GetPeakF (Update exampleBoundary) ∧
      (Update exampleBoundary).fMeasure = (Update exampleBoundary).scanInfo.f ∧
      (Update exampleBoundary).peak.f = (afterPeakUpdate exampleBoundary).peak.f ∧
      (0 ≤ ((Update exampleBoundary).peak.f : Int) + (Update exampleBoundary).settings.stillOffset →
        ((Update exampleBoundary).peak.f : Int) + (Update exampleBoundary).settings.stillOffset < (U32 : Int) →
        ((Update exampleBoundary).scanInfo.f : Int) =
          ((Update exampleBoundary).peak.f : Int) + (Update exampleBoundary).settings.stillOffset)) ∧
    (¬ (afterPeakUpdate exampleBoundary).peak.rssi ≥ (afterPeakUpdate exampleBoundary).settings.rssiTriggerLevel →
      (Update exampleBoundary).isListening = false ∧ Update exampleBoundary = InitScan (afterPeakUpdate exampleBoundary) ∧
      (exampleBoundary.settings.isStillMode = false →
        (Update exampleBoundary).scanInfo.i = 0 ∧ (Update exampleBoundary).scanInfo.f = GetFStart exampleBoundary))) :=
  ⟨by decide, Or.inl (by decide),
    scanning_to_listening exampleBoundary (by decide) (Or.inl (by decide))⟩

set_option maxRecDepth 8192 in
theorem listen_timeout_decision_witness :
    (exampleListenExpired.isListening = true) ∧
    (exampleListenExpired.listenT = 0) ∧
    (exampleListenExpired.rssiHistory.getD exampleListenExpired.scanInfo.i 0 ≠ 255) ∧
    (exampleListenExpired.settings.rssiTriggerLevel ≠ 255) ∧
    ((Scan (updatePrepare exampleListenExpired)).scanInfo.rssi = scanReading (updatePrepare exampleListenExpired) ∧
    (Scan (updatePrepare exampleListenExpired)).fMeasure = exampleListenExpired.scanInfo.f ∧
    (∃ k, exampleListenExpired.hwReads < k ∧ scanReading (updatePrepare exampleListenExpired) = min (exampleListenExpired.hwIn k) 255) ∧
    (scanReading (updatePrepare exampleListenExpired) ≥ exampleListenExpired.settings.rssiTriggerLevel →
      (Update exampleListenExpired).isListening = true ∧ (Update exampleListenExpired).listenT = 1000) ∧
    (scanReading (updatePrepare exampleListenExpired) < exampleListenExpired.settings.rssiTriggerLevel →
      (Update exampleListenExpired).isListening = false ∧ (Update exampleListenExpired).audioState = false ∧
      (exampleListenExpired.settings.isStillMode = false →
        (Update exampleListenExpired).scanInfo.i = 0 ∧ (Update exampleListenExpired).scanInfo.f = GetFStart exampleListenExpired))) :=
  ⟨by decide, by decide, by decide, by decide,
    listen_timeout_decision exampleListenExpired (by decide) (by decide) (by decide) (by decide)⟩
/-! ## The ranges of the settings (claim C17) -/

theorem updateDecide_settings_fields (s : Spectrum) :
    (updateDecide s).settings.stepsCount = s.settings.stepsCount ∧
    (updateDecide s).settings.scanStepIndex = s.settings.scanStepIndex ∧
    (updateDecide s).settings.scanDelay = s.settings.scanDelay := by
  unfold updateDecide
  repeat' (first | split_ifs | simp [UpdatePeakInfo_settings_fields])

theorem Update_settings_fields (s : Spectrum) :
    (Update s).settings.stepsCount = s.settings.stepsCount ∧
    (Update s).settings.scanStepIndex = s.settings.scanStepIndex ∧
    (Update s).settings.scanDelay = s.settings.scanDelay := by
  rw [Update_eq]
  split_ifs
  · simp [hwCall]
  · simp [updateDecide_settings_fields]

theorem OnKeyDownFreqInput_settings_fields (key : KEY_Code_t) (s : Spectrum) :
    (OnKeyDownFreqInput key s).settings.stepsCount = s.settings.stepsCount ∧
    (OnKeyDownFreqInput key s).settings.scanStepIndex = s.settings.scanStepIndex ∧
    (OnKeyDownFreqInput key s).settings.scanDelay = s.settings.scanDelay := by
  cases key <;> simp only [OnKeyDownFreqInput] <;>
    repeat' (first | split_ifs | simp [NewBandOrLevel_settings_fields])

theorem UpdateScanStep_settings_fields (diff : Int) (s : Spectrum) :
    (UpdateScanStep diff s).settings.stepsCount = s.settings.stepsCount ∧
    (UpdateScanStep diff s).settings.scanDelay = s.settings.scanDelay ∧
    (UpdateScanStep diff s).settings.scanStepIndex =
      if (diff > 0 ∧ s.settings.scanStepIndex < S_STEP_100_0kHz) ∨
          (diff < 0 ∧ s.settings.scanStepIndex > 0) then
        ((s.settings.scanStepIndex : Int) + diff).toNat
      else s.settings.scanStepIndex := by
  unfold UpdateScanStep
  split_ifs <;> simp

theorem keypress_settings_fields (diff : Int) (s : Spectrum) :
    ((UpdateFreqChangeStep diff s).settings.stepsCount = s.settings.stepsCount ∧
     (UpdateFreqChangeStep diff s).settings.scanStepIndex = s.settings.scanStepIndex ∧
     (UpdateFreqChangeStep diff s).settings.scanDelay = s.settings.scanDelay) ∧
    ((UpdateRssiTriggerLevel diff s).settings.stepsCount = s.settings.stepsCount ∧
     (UpdateRssiTriggerLevel diff s).settings.scanStepIndex = s.settings.scanStepIndex ∧
     (UpdateRssiTriggerLevel diff s).settings.scanDelay = s.settings.scanDelay) ∧
    ((UpdateCurrentFreq diff s).settings.stepsCount = s.settings.stepsCount ∧
     (UpdateCurrentFreq diff s).settings.scanStepIndex = s.settings.scanStepIndex ∧
     (UpdateCurrentFreq diff s).settings.scanDelay = s.settings.scanDelay) := by
  refine ⟨by simp [UpdateFreqChangeStep], by simp [UpdateRssiTriggerLevel], ?_⟩
  unfold UpdateCurrentFreq
  repeat' (first | split_ifs | simp)

theorem scanDelay_up (d : Nat) (h3 : 400 ≤ d) (h5 : d % 100 = 0) (h : d < 8000) :
    400 ≤ (d + 100) % 65536 ∧ (d + 100) % 65536 ≤ 8000 ∧ (d + 100) % 65536 % 100 = 0 := by
  have e : (d + 100) % 65536 = d + 100 := Nat.mod_eq_of_lt (by omega)
  rw [e]
  omega

theorem scanDelay_down (d : Nat) (h4 : d ≤ 8000) (h5 : d % 100 = 0) (h : d > 400) :
    400 ≤ (d + 65436) % 65536 ∧ (d + 65436) % 65536 ≤ 8000 ∧
      (d + 65436) % 65536 % 100 = 0 := by
  have e : (d + 65436) % 65536 = d - 100 := by omega
  rw [e]
  omega

theorem OnKeyDown_settingsInRange (key : KEY_Code_t) (s : Spectrum)
    (h : settingsInRange s) : settingsInRange (OnKeyDown key s) := by
  obtain ⟨h1, h2, h3, h4, h5⟩ := h
  unfold settingsInRange
  cases key <;> simp only [OnKeyDown] <;>
    repeat' (first | split_ifs | omega |
      simp [NewBandOrLevel_settings_fields, UpdateScanStep_settings_fields,
        keypress_settings_fields, hwCall, S_STEP_100_0kHz, STEPS_128, STEPS_16, U16, *])
  · exact scanDelay_up s.settings.scanDelay h3 h5 ‹s.settings.scanDelay < 8000›
  · exact scanDelay_down s.settings.scanDelay h4 h5 ‹s.settings.scanDelay > 400›

theorem applyEvent_settingsInRange (e : Event) (s : Spectrum) (h : settingsInRange s) :
    settingsInRange (applyEvent s e) := by
  cases e with
  | keyDown key => exact OnKeyDown_settingsInRange key s h
  | keyDownFreqInput key =>
    unfold settingsInRange at h ⊢
    simpa [applyEvent, OnKeyDownFreqInput_settings_fields] using h
  | tick =>
    unfold settingsInRange at h ⊢
    simpa [applyEvent, Update_settings_fields] using h

theorem runEvents_settingsInRange (events : List Event) (s : Spectrum)
    (h : settingsInRange s) : settingsInRange (runEvents events s) := by
  induction events generalizing s with
  | nil => exact h
  | cons e es ih => exact ih _ (applyEvent_settingsInRange e s h)

/-- Claim C17.  Starting from the initial settings, after any sequence of
keys handled by `OnKeyDown` or `OnKeyDownFreqInput` and of `Update()` ticks,
`settings.scanStepIndex` is in `0..11` (a valid index of `scanStepValues`),
`settings.stepsCount` is in `0..3` and `settings.scanDelay` is within
`[400, 8000]`. -/
theorem settings_range_invariant (events : List Event) (s : Spectrum)
    (h : s.settings = initialSettings) :
    (runEvents events s).settings.scanStepIndex ≤ 11 ∧
    (runEvents events s).settings.scanStepIndex < scanStepValues.length ∧
    (runEvents events s).settings.stepsCount ≤ 3 ∧
    400 ≤ (runEvents events s).settings.scanDelay ∧
    (runEvents events s).settings.scanDelay ≤ 8000 := by
  have h0 : settingsInRange s := by
    unfold settingsInRange
    rw [h]
    decide
  obtain ⟨h1, h2, h3, h4, _⟩ := runEvents_settingsInRange events s h0
  have hl : scanStepValues.length = 12 := by decide
  exact ⟨h1, by omega, h2, h3, h4⟩

theorem settings_range_invariant_witness :
    (initialSpectrum (fun _ => 0) 14550000).settings = initialSettings ∧
    ((runEvents exampleRun (initialSpectrum (fun _ => 0) 14550000)).settings.scanStepIndex ≤ 11 ∧
    (runEvents exampleRun (initialSpectrum (fun _ => 0) 14550000)).settings.scanStepIndex <
      scanStepValues.length ∧
    (runEvents exampleRun (initialSpectrum (fun _ => 0) 14550000)).settings.stepsCount ≤ 3 ∧
    400 ≤ (runEvents exampleRun (initialSpectrum (fun _ => 0) 14550000)).settings.scanDelay ∧
    (runEvents exampleRun (initialSpectrum (fun _ => 0) 14550000)).settings.scanDelay ≤ 8000) :=
  ⟨rfl, settings_range_invariant exampleRun (initialSpectrum (fun _ => 0) 14550000) rfl⟩
/-! ## The maximum of a cycle (claim C20) -/

theorem UpdateScanInfo_bounds (s : Spectrum) :
    (UpdateScanInfo s).scanInfo.rssiMin ≤ (UpdateScanInfo s).scanInfo.rssi ∧
    (UpdateScanInfo s).scanInfo.rssi ≤ (UpdateScanInfo s).scanInfo.rssiMax := by
  unfold UpdateScanInfo
  repeat' (first | split_ifs | simp | omega)

theorem maxRssi_append (l : List Sample) (x : Sample) :
    maxRssi (l ++ [x]) = max (maxRssi l) x.rssi := by
  simp [maxRssi, List.foldl_append]

theorem track_step (l : List Sample) (M iP fP : Nat) (x : Sample)
    (hM : M = maxRssi l) (hb : ∀ y ∈ l, y.rssi ≤ M)
    (hf : 0 < M → l.find? (fun y => decide (y.rssi = M)) = some ⟨iP, fP, M⟩) :
    (if x.rssi > M then x.rssi else M) = maxRssi (l ++ [x]) ∧
    (∀ y ∈ l ++ [x], y.rssi ≤ (if x.rssi > M then x.rssi else M)) ∧
    (0 < (if x.rssi > M then x.rssi else M) →
      (l ++ [x]).find? (fun y => decide (y.rssi = (if x.rssi > M then x.rssi else M))) =
        some ⟨if x.rssi > M then x.i else iP, if x.rssi > M then x.f else fP,
          if x.rssi > M then x.rssi else M⟩) := by
  rw [maxRssi_append, ← hM]
  by_cases h : x.rssi > M
  · simp only [if_pos h]
    refine ⟨(max_eq_right (le_of_lt h)).symm, ?_, fun _ => ?_⟩
    · intro y hy
      rcases List.mem_append.1 hy with hy | hy
      · have := hb y hy
        omega
      · rw [List.mem_singleton.1 hy]
    · have hn : l.find? (fun y => decide (y.rssi = x.rssi)) = none := by
        rw [List.find?_eq_none]
        intro y hy
        have := hb y hy
        simp only [decide_eq_true_eq]
        omega
      rw [List.find?_append, hn]
      simp
  · simp only [if_neg h]
    refine ⟨(max_eq_left (not_lt.1 h)).symm, ?_, fun h0 => ?_⟩
    · intro y hy
      rcases List.mem_append.1 hy with hy | hy
      · exact hb y hy
      · rw [List.mem_singleton.1 hy]
        exact not_lt.1 h
    · rw [List.find?_append, hf h0]
      rfl

theorem Scan_tracks (s : Spectrum) (l : List Sample) (h : tracksMaximum s l) :
    tracksMaximum (Scan s) (l ++ (scanSample s).toList) := by
  by_cases hb : s.rssiHistory.getD s.scanInfo.i 0 = 255
  · have hx : scanSample s = none := by
      unfold scanSample
      rw [if_neg (by simpa using hb)]
    rw [Scan_skipped s hb, hx]
    simpa using h
  · have hsc := (Scan_measured s hb).1
    have hx : scanSample s = some ⟨s.scanInfo.i, s.scanInfo.f, scanReading s⟩ := by
      unfold scanSample
      rw [if_pos hb, hsc]
    obtain ⟨h1, h2, h3⟩ := h
    have := track_step l s.scanInfo.rssiMax s.scanInfo.iPeak s.scanInfo.fPeak
      ⟨s.scanInfo.i, s.scanInfo.f, scanReading s⟩ h1 h2 h3
    unfold tracksMaximum
    rw [hx, hsc]
    exact this

theorem NextScanStep_tracks (s : Spectrum) (l : List Sample) (h : tracksMaximum s l) :
    tracksMaximum (NextScanStep s) l := by
  unfold tracksMaximum at h ⊢
  simpa [NextScanStep] using h

theorem cycleSamples_succ (s : Spectrum) (k : Nat) :
    cycleSamples s (k + 1) = cycleSamples s k ++ (scanSample (Update^[k] s)).toList := by
  unfold cycleSamples
  rw [List.range_succ, List.filterMap_append]
  cases h : scanSample (Update^[k] s) <;> simp [List.filterMap, h]

theorem Update_advance (s : Spectrum) (hl : s.isListening = false)
    (hs : s.settings.isStillMode = false) (hd : ScanDone s = false) :
    Update s = NextScanStep (Scan s) := by
  have h1 : (Scan s).isListening = false := by simp [hl]
  rw [Update_eq, if_neg (by simp [hl]), updatePrepare_idle s hl, updateRestoreBW_idle _ h1,
    updateDecide_advance]
  rw [ScanDone_Scan, hd, h1]
  simp [hs]

theorem cycle_invariant (s : Spectrum) (m : Nat) (hl : s.isListening = false)
    (hs : s.settings.isStillMode = false) (hi : s.scanInfo.i = 0)
    (hm : s.scanInfo.measurementsCount = m) (hm255 : m ≤ 255)
    (h0 : s.scanInfo.rssiMax = 0) (k : Nat) (hk : k ≤ m) :
    (Update^[k] s).isListening = false ∧ (Update^[k] s).settings.isStillMode = false ∧
    (Update^[k] s).scanInfo.i = k ∧ (Update^[k] s).scanInfo.measurementsCount = m ∧
    (∀ j < k, ScanDone (Scan (Update^[j] s)) = false) ∧
    tracksMaximum (Update^[k] s) (cycleSamples s k) := by
  induction k with
  | zero =>
    refine ⟨hl, hs, hi, hm, fun j hj => absurd hj (Nat.not_lt_zero j), ?_⟩
    simp [tracksMaximum, cycleSamples, maxRssi, h0]
  | succ k ih =>
    obtain ⟨i1, i2, i3, i4, i5, i6⟩ := ih (by omega)
    have hd : ScanDone (Update^[k] s) = false := by
      simp [ScanDone, i3, i4]
      omega
    rw [Function.iterate_succ_apply', Update_advance _ i1 i2 hd]
    refine ⟨by simp [i1], by simp [i2], ?_, ?_, ?_, ?_⟩
    · simp only [NextScanStep, (Scan_position _).1, i3]
      exact Nat.mod_eq_of_lt (by unfold U8; omega)
    · simp only [NextScanStep, (Scan_position _).2.2.2, i4]
    · intro j hj
      rcases Nat.lt_succ_iff_lt_or_eq.1 hj with hj | hj
      · exact i5 j hj
      · rw [hj, ScanDone_Scan, hd]
    · rw [cycleSamples_succ]
      exact NextScanStep_tracks _ _ (Scan_tracks _ _ i6)

/-- Claim C20.  For the sweep cycle started by `InitScan()` in a state that
is neither listening nor in still mode, driven by `Update()` ticks: the
first `measurementsCount` ticks advance the sweep, the next one takes the
cycle-boundary branch, and there `scanInfo.rssiMax` is the maximum of the
RSSI samples measured in the cycle (0 if there is none); when that maximum
is positive, `scanInfo.iPeak` and `scanInfo.fPeak` are the index and the
frequency of the first sample of the cycle that attained it.  The samples
of the cycle include the one `Scan()` takes in the boundary tick itself,
before `ScanDone()` is tested.  After every `UpdateScanInfo()` call,
`scanInfo.rssiMin <= scanInfo.rssi <= scanInfo.rssiMax`. -/
theorem cycle_maximum (s : Spectrum) (hl : s.isListening = false)
    (hs : s.settings.isStillMode = false) :
    (∀ j < (InitScan s).scanInfo.measurementsCount,
      ScanDone (Scan (Update^[j] (InitScan s))) = false ∧
      Update^[j + 1] (InitScan s) = NextScanStep (Scan (Update^[j] (InitScan s)))) ∧
    ScanDone (cycleBoundary s) = true ∧ (cycleBoundary s).isListening = false ∧
    (cycleBoundary s).scanInfo.rssiMax =
      maxRssi (cycleSamples (InitScan s) ((InitScan s).scanInfo.measurementsCount + 1)) ∧
    (0 < (cycleBoundary s).scanInfo.rssiMax →
      (cycleSamples (InitScan s) ((InitScan s).scanInfo.measurementsCount + 1)).find?
          (fun y => decide (y.rssi = (cycleBoundary s).scanInfo.rssiMax)) =
        some ⟨(cycleBoundary s).scanInfo.iPeak, (cycleBoundary s).scanInfo.fPeak,
          (cycleBoundary s).scanInfo.rssiMax⟩) ∧
    (∀ t : Spectrum,
      (UpdateScanInfo t).scanInfo.rssiMin ≤ (UpdateScanInfo t).scanInfo.rssi ∧
      (UpdateScanInfo t).scanInfo.rssi ≤ (UpdateScanInfo t).scanInfo.rssiMax) := by
  have hsi := InitScan_scanInfo s hs
  have hm : (InitScan s).scanInfo.measurementsCount ≤ 255 := by
    rw [hsi]
    have : GetStepsCount s < 256 := Nat.mod_lt _ (by decide)
    simp only []
    omega
  have hinv := cycle_invariant (InitScan s) _ (by simp [hl]) (by simp [hs])
    (by rw [hsi]) rfl hm (by rw [hsi])
  obtain ⟨i1, i2, i3, i4, i5, i6⟩ := hinv _ (le_refl _)
  have ht := Scan_tracks _ _ i6
  rw [← cycleSamples_succ] at ht
  refine ⟨fun j hj => ?_, ?_, ?_, ht.1, ht.2.2, UpdateScanInfo_bounds⟩
  · obtain ⟨j1, j2, j3, j4, _, _⟩ := hinv j (le_of_lt hj)
    have hd : ScanDone (Update^[j] (InitScan s)) = false := by
      simp [ScanDone, j3, j4]
      omega
    refine ⟨by rw [ScanDone_Scan, hd], ?_⟩
    rw [Function.iterate_succ_apply', Update_advance _ j1 j2 hd]
  · unfold cycleBoundary
    rw [ScanDone_Scan]
    simp [ScanDone, i3, i4]
  · unfold cycleBoundary
    simp [i1]


theorem cycle_maximum_witness :
    (exampleCycle.isListening = false) ∧
    (exampleCycle.settings.isStillMode = false) ∧
    ((∀ j < (InitScan exampleCycle).scanInfo.measurementsCount,
      ScanDone (Scan (Update^[j] (InitScan exampleCycle))) = false ∧
      Update^[j + 1] (InitScan exampleCycle) = NextScanStep (Scan (Update^[j] (InitScan exampleCycle)))) ∧
    ScanDone (cycleBoundary exampleCycle) = true ∧ (cycleBoundary exampleCycle).isListening = false ∧
    (cycleBoundary exampleCycle).scanInfo.rssiMax =
      maxRssi (cycleSamples (InitScan exampleCycle) ((InitScan exampleCycle).scanInfo.measurementsCount + 1)) ∧
    (0 < (cycleBoundary exampleCycle).scanInfo.rssiMax →
      (cycleSamples (InitScan exampleCycle) ((InitScan exampleCycle).scanInfo.measurementsCount + 1)).find?
          (fun y => decide (y.rssi = (cycleBoundary exampleCycle).scanInfo.rssiMax)) =
        some ⟨(cycleBoundary exampleCycle).scanInfo.iPeak, (cycleBoundary exampleCycle).scanInfo.fPeak,
          (cycleBoundary exampleCycle).scanInfo.rssiMax⟩) ∧
    (∀ t : Spectrum,
      (UpdateScanInfo t).scanInfo.rssiMin ≤ (UpdateScanInfo t).scanInfo.rssi ∧
      (UpdateScanInfo t).scanInfo.rssi ≤ (UpdateScanInfo t).scanInfo.rssiMax)) :=
  ⟨by decide, by decide,
    cycle_maximum exampleCycle (by decide) (by decide)⟩

/-! ## The input buffer (claims C21, C22) -/

theorem UpdateFreqInput_full (key : KEY_Code_t) (s : Spectrum) (hk : key ≠ KEY_EXIT)
    (hi : s.freqInputIndex ≥ 10) : UpdateFreqInput key s = s := by
  unfold UpdateFreqInput
  rw [if_pos ⟨hk, hi⟩]

theorem UpdateFreqInput_symbol (key : KEY_Code_t) (s : Spectrum) (hk : key ≠ KEY_EXIT)
    (hi : s.freqInputIndex < 10) :
    (UpdateFreqInput key s).freqInputIndex = s.freqInputIndex + 1 ∧
    (UpdateFreqInput key s).freqInputArr = s.freqInputArr.set s.freqInputIndex key := by
  unfold UpdateFreqInput
  rw [if_neg (by omega)]
  have : (s.freqInputIndex + 1) % U8 = s.freqInputIndex + 1 :=
    Nat.mod_eq_of_lt (by unfold U8; omega)
  repeat' (first | split_ifs | simp [ResetFreqInput, hk, this])

theorem UpdateFreqInput_backspace (s : Spectrum) (hi : 0 < s.freqInputIndex)
    (hi10 : s.freqInputIndex ≤ 10) :
    (UpdateFreqInput KEY_EXIT s).freqInputIndex + 1 = s.freqInputIndex ∧
    (UpdateFreqInput KEY_EXIT s).freqInputArr = s.freqInputArr ∧
    (UpdateFreqInput KEY_EXIT s).freqInputDotIndex = s.freqInputDotIndex := by
  unfold UpdateFreqInput
  rw [if_neg (by simp)]
  have : (s.freqInputIndex + U8 - 1) % U8 = s.freqInputIndex - 1 := by
    unfold U8
    omega
  simp [ResetFreqInput, this]
  omega

theorem OnKeyDownFreqInput_symbol (key : KEY_Code_t) (s : Spectrum) (hk : key ∈ symbolKeys) :
    OnKeyDownFreqInput key s = { UpdateFreqInput key s with redrawScreen := true } ∧
    key ≠ KEY_EXIT := by
  simp only [symbolKeys, List.mem_cons, List.mem_singleton, List.not_mem_nil, or_false] at hk
  rcases hk with h | h | h | h | h | h | h | h | h | h | h <;> subst h <;>
    exact ⟨rfl, by decide⟩

theorem OnKeyDownFreqInput_EXIT (s : Spectrum) :
    OnKeyDownFreqInput KEY_EXIT s =
      if s.freqInputIndex = 0 then
        { s with currentState := Mode.SPECTRUM, redrawScreen := true }
      else { UpdateFreqInput KEY_EXIT s with redrawScreen := true } := by
  simp only [OnKeyDownFreqInput]
  split_ifs <;> rfl

theorem OnKeyDownFreqInput_buffer (key : KEY_Code_t) (s : Spectrum)
    (h : s.freqInputIndex ≤ 10) :
    (OnKeyDownFreqInput key s).freqInputIndex ≤ 10 ∧
    ((OnKeyDownFreqInput key s).freqInputArr = s.freqInputArr ∨
      (s.freqInputIndex < 10 ∧
        (OnKeyDownFreqInput key s).freqInputArr = s.freqInputArr.set s.freqInputIndex key)) := by
  by_cases hk : key ∈ symbolKeys
  · obtain ⟨e, hne⟩ := OnKeyDownFreqInput_symbol key s hk
    rw [e]
    by_cases hi : s.freqInputIndex < 10
    · obtain ⟨h1, h2⟩ := UpdateFreqInput_symbol key s hne hi
      exact ⟨by simp only [h1]; omega, Or.inr ⟨hi, h2⟩⟩
    · rw [UpdateFreqInput_full key s hne (by omega)]
      exact ⟨h, Or.inl rfl⟩
  · by_cases he : key = KEY_EXIT
    · subst he
      rw [OnKeyDownFreqInput_EXIT]
      split_ifs with h0
      · exact ⟨h, Or.inl rfl⟩
      · obtain ⟨h1, h2, _⟩ := UpdateFreqInput_backspace s (by omega) h
        exact ⟨by simp only []; omega, Or.inl h2⟩
    · have hs : (OnKeyDownFreqInput key s).freqInputIndex = s.freqInputIndex ∧
          (OnKeyDownFreqInput key s).freqInputArr = s.freqInputArr := by
        cases key <;> first
          | exact absurd (by decide) hk
          | exact absurd rfl he
          | (simp only [OnKeyDownFreqInput]
             repeat' (first | split_ifs | simp [NewBandOrLevel_frame]))
      rw [hs.1, hs.2]
      exact ⟨h, Or.inl rfl⟩

theorem pressFreqInputKeys_index (keys : List KEY_Code_t) (s : Spectrum)
    (h : s.freqInputIndex ≤ 10) : (pressFreqInputKeys keys s).freqInputIndex ≤ 10 := by
  induction keys generalizing s with
  | nil => exact h
  | cons k l ih => exact ih _ (OnKeyDownFreqInput_buffer k s h).1

/-- Claim C21.  In every state reached from `FreqInput()` by keys handled by
`OnKeyDownFreqInput`, `freqInputIndex <= 10`.  The next key either leaves
`freqInputArr` alone or writes it at `freqInputIndex < 10`; a symbol (digit
or STAR) below 10 is written at `freqInputIndex`, which then grows by one;
with 10 symbols typed it is ignored (only the redraw flag is set, buffer and
`tempFreq` stay).  EXIT on a non-empty buffer lowers `freqInputIndex` by
exactly one (never below 0); on an empty buffer it only sets the mode to
SPECTRUM (and the redraw flag), so `currentFreq` and `settings` stay. -/
theorem input_buffer_bound (s : Spectrum) (keys : List KEY_Code_t) (key : KEY_Code_t) :
    (pressFreqInputKeys keys (FreqInput s)).freqInputIndex ≤ 10 ∧
    ((OnKeyDownFreqInput key (pressFreqInputKeys keys (FreqInput s))).freqInputArr =
        (pressFreqInputKeys keys (FreqInput s)).freqInputArr ∨
      ((pressFreqInputKeys keys (FreqInput s)).freqInputIndex < 10 ∧
        (OnKeyDownFreqInput key (pressFreqInputKeys keys (FreqInput s))).freqInputArr =
          (pressFreqInputKeys keys (FreqInput s)).freqInputArr.set
            (pressFreqInputKeys keys (FreqInput s)).freqInputIndex key)) ∧
    (key ∈ symbolKeys → (pressFreqInputKeys keys (FreqInput s)).freqInputIndex < 10 →
      (OnKeyDownFreqInput key (pressFreqInputKeys keys (FreqInput s))).freqInputIndex =
        (pressFreqInputKeys keys (FreqInput s)).freqInputIndex + 1 ∧
      (OnKeyDownFreqInput key (pressFreqInputKeys keys (FreqInput s))).freqInputArr =
        (pressFreqInputKeys keys (FreqInput s)).freqInputArr.set
          (pressFreqInputKeys keys (FreqInput s)).freqInputIndex key) ∧
    (key ∈ symbolKeys → (pressFreqInputKeys keys (FreqInput s)).freqInputIndex = 10 →
      OnKeyDownFreqInput key (pressFreqInputKeys keys (FreqInput s)) =
        { pressFreqInputKeys keys (FreqInput s) with redrawScreen := true }) ∧
    (0 < (pressFreqInputKeys keys (FreqInput s)).freqInputIndex →
      (OnKeyDownFreqInput KEY_EXIT (pressFreqInputKeys keys (FreqInput s))).freqInputIndex + 1 =
        (pressFreqInputKeys keys (FreqInput s)).freqInputIndex) ∧
    ((pressFreqInputKeys keys (FreqInput s)).freqInputIndex = 0 →
      OnKeyDownFreqInput KEY_EXIT (pressFreqInputKeys keys (FreqInput s)) =
        { pressFreqInputKeys keys (FreqInput s) with
          currentState := Mode.SPECTRUM, redrawScreen := true }) := by
  have h0 : (FreqInput s).freqInputIndex ≤ 10 := by simp [FreqInput, ResetFreqInput]
  have hr := pressFreqInputKeys_index keys (FreqInput s) h0
  generalize pressFreqInputKeys keys (FreqInput s) = r at hr ⊢
  refine ⟨hr, (OnKeyDownFreqInput_buffer key r hr).2, fun hk hi => ?_, fun hk hi => ?_,
    fun hi => ?_, fun hi => ?_⟩
  · obtain ⟨e, hne⟩ := OnKeyDownFreqInput_symbol key r hk
    rw [e]
    exact UpdateFreqInput_symbol key r hne hi
  · obtain ⟨e, hne⟩ := OnKeyDownFreqInput_symbol key r hk
    rw [e, UpdateFreqInput_full key r hne (by omega)]
  · rw [OnKeyDownFreqInput_EXIT, if_neg (by omega)]
    exact (UpdateFreqInput_backspace r hi hr).1
  · rw [OnKeyDownFreqInput_EXIT, if_pos hi]

/-- Claim C22 at its failing input.  From a fresh input the keys 4, 3, STAR,
EXIT, 3 leave the three symbols 4, 3, 3 in the buffer and the display shows
`433`, exactly as after typing 4, 3, 3 into a fresh input.  But the removed
decimal marker is still in force (`freqInputDotIndex = 2`): the candidate is
4300000 (43 MHz) instead of 43300000 (433 MHz), and MENU commits 43 MHz. -/
theorem backspace_keeps_decimal_marker :
    (pressFreqInputKeys exampleBackspace (FreqInput exampleSpectrum)).freqInputIndex = 3 ∧
    (pressFreqInputKeys exampleBackspace (FreqInput exampleSpectrum)).freqInputArr.take 3 =
      [KEY_4, KEY_3, KEY_3] ∧
    (pressFreqInputKeys exampleBackspace (FreqInput exampleSpectrum)).freqInputString =
      (pressFreqInputKeys [KEY_4, KEY_3, KEY_3] (FreqInput exampleSpectrum)).freqInputString ∧
    (pressFreqInputKeys exampleBackspace (FreqInput exampleSpectrum)).freqInputDotIndex = 2 ∧
    (pressFreqInputKeys [KEY_4, KEY_3, KEY_3] (FreqInput exampleSpectrum)).freqInputDotIndex
      = 0 ∧
    (pressFreqInputKeys exampleBackspace (FreqInput exampleSpectrum)).tempFreq = 4300000 ∧
    (pressFreqInputKeys [KEY_4, KEY_3, KEY_3] (FreqInput exampleSpectrum)).tempFreq
      = 43300000 ∧
    (OnKeyDownFreqInput KEY_MENU
      (pressFreqInputKeys exampleBackspace (FreqInput exampleSpectrum))).currentFreq
      = 4300000 ∧
    (OnKeyDownFreqInput KEY_MENU
      (pressFreqInputKeys [KEY_4, KEY_3, KEY_3] (FreqInput exampleSpectrum))).currentFreq
      = 43300000 := by
  decide

/-! ## Clamped samples and the sentinel (claim C24) -/

theorem Scan_reads (s : Spectrum) (h : s.rssiHistory.getD s.scanInfo.i 0 ≠ 255) :
    HwCall.BK4819_GetRSSI (s.hwIn ((SetF s.scanInfo.f s).hwReads + 1)) ∈ (Scan s).hwTrace := by
  unfold Scan
  rw [if_pos h]
  simp [Measure, GetRssi, ResetRSSI, BK4819_GetRSSI, BK4819_ReadRegister,
    BK4819_WriteRegister, hwCall, hwNext]

theorem ResetRSSIHistory_cleared (s : Spectrum) (j : Nat) (hj : j < 128) :
    (ResetRSSIHistory s).rssiHistory.getD j 0 = 0 := by
  have key : ∀ (n : Nat) (h : List Nat), j < n →
      ((List.range n).foldl (fun h i => h.set i 0) h).getD j 0 = 0 := by
    intro n
    induction n with
    | zero => intro h hj; omega
    | succ n ih =>
      intro h hj
      rw [List.range_succ, List.foldl_append]
      simp only [List.foldl_cons, List.foldl_nil]
      by_cases hjn : j = n
      · subst hjn
        rw [List.getD_eq_getElem?_getD, List.getElem?_set]
        simp
        split_ifs <;> rfl
      · rw [List.getD_eq_getElem?_getD, List.getElem?_set_ne (Ne.symm hjn),
          ← List.getD_eq_getElem?_getD]
        exact ih h (by omega)
  unfold ResetRSSIHistory
  simp only []
  rw [key 128 _ hj]

/-- Claim C24.  On a bin that is not blacklisted, `Scan()` reads the raw
RSSI `r` from the hardware and stores `min(r, 255)` in `scanInfo.rssi` and in
`rssiHistory[scanInfo.i]`.  For `r >= 255` the stored value is 255, the
blacklist sentinel: it survives every later `Update()` tick, and `Scan()` in
any later state standing at that bin returns the state unchanged, although
`Blacklist()` was never called.  `ResetRSSIHistory()` clears the entry. -/
theorem clamped_sample_is_sentinel (s : Spectrum)
    (hb : s.rssiHistory.getD s.scanInfo.i 0 ≠ 255) (hlen : s.rssiHistory.length = 128)
    (hi : s.scanInfo.i < 128) :
    HwCall.BK4819_GetRSSI (s.hwIn ((SetF s.scanInfo.f s).hwReads + 1)) ∈ (Scan s).hwTrace ∧
    (Scan s).scanInfo.rssi = min (s.hwIn ((SetF s.scanInfo.f s).hwReads + 1)) 255 ∧
    (Scan s).rssiHistory[s.scanInfo.i]? =
      some (min (s.hwIn ((SetF s.scanInfo.f s).hwReads + 1)) 255) ∧
    (s.hwIn ((SetF s.scanInfo.f s).hwReads + 1) ≥ 255 →
      (Scan s).scanInfo.rssi = 255 ∧
      (Scan s).rssiHistory[s.scanInfo.i]? = some 255 ∧
      (∀ n, (Update^[n] (Scan s)).rssiHistory[s.scanInfo.i]? = some 255 ∧
        ((Update^[n] (Scan s)).scanInfo.i = s.scanInfo.i →
          Scan (Update^[n] (Scan s)) = Update^[n] (Scan s))) ∧
      (∀ n, (ResetRSSIHistory (Update^[n] (Scan s))).rssiHistory.getD s.scanInfo.i 0 = 0)) := by
  obtain ⟨h1, _, h3⟩ := Scan_measured s hb
  have hr := scanReading_eq s
  have hst : (Scan s).rssiHistory[s.scanInfo.i]? = some (scanReading s) := by
    rw [h3, List.getElem?_set]
    simp [hlen, hi]
  refine ⟨Scan_reads s hb, by rw [h1, ← hr], by rw [hst, hr], fun hge => ?_⟩
  have h255 : scanReading s = 255 := by rw [hr]; exact min_eq_right hge
  have hs255 : (Scan s).rssiHistory[s.scanInfo.i]? = some 255 := by rw [hst, h255]
  refine ⟨by rw [h1, h255], hs255, fun n => ?_, fun n => ResetRSSIHistory_cleared _ _ hi⟩
  have hk := Update_iterate_keeps_sentinel n (Scan s) s.scanInfo.i hs255
  refine ⟨hk, fun he => Scan_blacklisted _ ?_⟩
  rw [he]
  exact hk

set_option maxRecDepth 8192 in
theorem clamped_sample_is_sentinel_witness :
    (exampleSaturated.rssiHistory.getD exampleSaturated.scanInfo.i 0 ≠ 255) ∧
    (exampleSaturated.rssiHistory.length = 128) ∧
    (exampleSaturated.scanInfo.i < 128) ∧
    (HwCall.BK4819_GetRSSI (exampleSaturated.hwIn ((SetF exampleSaturated.scanInfo.f exampleSaturated).hwReads + 1)) ∈ (Scan exampleSaturated).hwTrace ∧
    (Scan exampleSaturated).scanInfo.rssi = min (exampleSaturated.hwIn ((SetF exampleSaturated.scanInfo.f exampleSaturated).hwReads + 1)) 255 ∧
    (Scan exampleSaturated).rssiHistory[exampleSaturated.scanInfo.i]? =
      some (min (exampleSaturated.hwIn ((SetF exampleSaturated.scanInfo.f exampleSaturated).hwReads + 1)) 255) ∧
    (exampleSaturated.hwIn ((SetF exampleSaturated.scanInfo.f exampleSaturated).hwReads + 1) ≥ 255 →
      (Scan exampleSaturated).scanInfo.rssi = 255 ∧
      (Scan exampleSaturated).rssiHistory[exampleSaturated.scanInfo.i]? = some 255 ∧
      (∀ n, (Update^[n] (Scan exampleSaturated)).rssiHistory[exampleSaturated.scanInfo.i]? = some 255 ∧
        ((Update^[n] (Scan exampleSaturated)).scanInfo.i = exampleSaturated.scanInfo.i →
          Scan (Update^[n] (Scan exampleSaturated)) = Update^[n] (Scan exampleSaturated))) ∧
      (∀ n, (ResetRSSIHistory (Update^[n] (Scan exampleSaturated))).rssiHistory.getD exampleSaturated.scanInfo.i 0 = 0))) :=
  ⟨by decide, by decide, by decide,
    clamped_sample_is_sentinel exampleSaturated (by decide) (by decide) (by decide)⟩

/-! ## The first cycle after a reset (claims C23, C26) -/

theorem Scan_rssiHistory_other (s : Spectrum) (j : Nat) (h : j ≠ s.scanInfo.i) :
    (Scan s).rssiHistory[j]? = s.rssiHistory[j]? ∧
    (Scan s).rssiHistory.length = s.rssiHistory.length := by
  by_cases hb : s.rssiHistory.getD s.scanInfo.i 0 = 255
  · rw [Scan_skipped s hb]
    exact ⟨rfl, rfl⟩
  · rw [(Scan_measured s hb).2.2]
    exact ⟨List.getElem?_set_ne (Ne.symm h), List.length_set _ _ _⟩

theorem Scan_rssiHistory_length (s : Spectrum) :
    (Scan s).rssiHistory.length = s.rssiHistory.length := by
  by_cases hb : s.rssiHistory.getD s.scanInfo.i 0 = 255
  · rw [Scan_skipped s hb]
  · rw [(Scan_measured s hb).2.2]
    exact List.length_set _ _ _

theorem cycle_frame (s : Spectrum) (m : Nat) (hl : s.isListening = false)
    (hs : s.settings.isStillMode = false) (hi : s.scanInfo.i = 0)
    (hm : s.scanInfo.measurementsCount = m) (hm255 : m ≤ 255)
    (h0 : s.scanInfo.rssiMax = 0) (k : Nat) (hk : k ≤ m) :
    (Update^[k] s).peak.f = s.peak.f ∧ (Update^[k] s).settings = s.settings ∧
    (Update^[k] s).rssiHistory.length = s.rssiHistory.length ∧
    (∀ j, k ≤ j → (Update^[k] s).rssiHistory[j]? = s.rssiHistory[j]?) := by
  induction k with
  | zero => exact ⟨rfl, rfl, rfl, fun _ _ => rfl⟩
  | succ k ih =>
    obtain ⟨f1, f2, f3, f4⟩ := ih (by omega)
    obtain ⟨i1, i2, i3, i4, _, _⟩ := cycle_invariant s m hl hs hi hm hm255 h0 k (by omega)
    have hd : ScanDone (Update^[k] s) = false := by
      simp [ScanDone, i3, i4]
      omega
    rw [Function.iterate_succ_apply', Update_advance _ i1 i2 hd]
    refine ⟨?_, ?_, ?_, fun j hj => ?_⟩
    · simp [NextScanStep, f1]
    · simp [f2]
    · simp [Scan_rssiHistory_length, f3]
    · have hne : j ≠ (Update^[k] s).scanInfo.i := by rw [i3]; omega
      simp only [NextScanStep_frame]
      rw [(Scan_rssiHistory_other _ j hne).1]
      exact f4 j (by omega)

theorem afterPeakUpdate_idle (s : Spectrum) (hl : s.isListening = false) :
    afterPeakUpdate s = UpdatePeakInfo { Scan s with redrawScreen := true } := by
  have h1 : (Scan s).isListening = false := by simp [hl]
  unfold afterPeakUpdate
  rw [updatePrepare_idle s hl, updateRestoreBW_idle _ h1]

theorem NewBandOrLevel_start (s : Spectrum) (hs : s.settings.isStillMode = false) :
    (NewBandOrLevel s).isListening = false ∧
    (NewBandOrLevel s).settings.isStillMode = false ∧
    (NewBandOrLevel s).scanInfo.i = 0 ∧
    (NewBandOrLevel s).scanInfo.measurementsCount = GetStepsCount s ∧
    GetStepsCount s ≤ 255 ∧
    (NewBandOrLevel s).scanInfo.rssiMax = 0 ∧
    (NewBandOrLevel s).peak.f = 0 ∧
    (NewBandOrLevel s).settings.rssiTriggerLevel = 255 := by
  have hlt : GetStepsCount s < 256 := Nat.mod_lt _ (by decide)
  rw [NewBandOrLevel_isListening, NewBandOrLevel_scanInfo, NewBandOrLevel_peak,
    NewBandOrLevel_settings]
  simp [hs]
  omega

/-- Claim C26.  `NewBandOrLevel()` outside still mode leaves the peak
cleared and the trigger level at 255.  From there `Update()` ticks advance
the sweep without listening until the bin count is reached; at that first
cycle boundary `UpdatePeakInfo()` sets both `settings.rssiTriggerLevel` and
`peak.rssi` to the cycle maximum `scanInfo.rssiMax` (the maximum of the
samples of the cycle, 0 if all are 0 or none was taken), so
`IsPeakOverLevel()` holds and the tick ends LISTENING (`isListening = true`,
`listenT = 1000`), whatever the hardware reported. -/
theorem first_sweep_acquires (s : Spectrum) (hs : s.settings.isStillMode = false) :
    (NewBandOrLevel s).peak.f = 0 ∧ (NewBandOrLevel s).settings.rssiTriggerLevel = 255 ∧
    (NewBandOrLevel s).scanInfo.measurementsCount = GetStepsCount s ∧
    (∀ k ≤ GetStepsCount s,
      (Update^[k] (NewBandOrLevel s)).isListening = false ∧
      (Update^[k] (NewBandOrLevel s)).scanInfo.i = k) ∧
    (∀ k < GetStepsCount s, ScanDone (Scan (Update^[k] (NewBandOrLevel s))) = false) ∧
    ScanDone (Scan (Update^[GetStepsCount s] (NewBandOrLevel s))) = true ∧
    (Scan (Update^[GetStepsCount s] (NewBandOrLevel s))).scanInfo.rssiMax =
      maxRssi (cycleSamples (NewBandOrLevel s) (GetStepsCount s + 1)) ∧
    (afterPeakUpdate (Update^[GetStepsCount s] (NewBandOrLevel s))).settings.rssiTriggerLevel =
      (Scan (Update^[GetStepsCount s] (NewBandOrLevel s))).scanInfo.rssiMax ∧
    (afterPeakUpdate (Update^[GetStepsCount s] (NewBandOrLevel s))).peak.rssi =
      (Scan (Update^[GetStepsCount s] (NewBandOrLevel s))).scanInfo.rssiMax ∧
    IsPeakOverLevel (afterPeakUpdate (Update^[GetStepsCount s] (NewBandOrLevel s))) = true ∧
    (Update^[GetStepsCount s + 1] (NewBandOrLevel s)).isListening = true ∧
    (Update^[GetStepsCount s + 1] (NewBandOrLevel s)).listenT = 1000 := by
  obtain ⟨n1, n2, n3, n4, n5, n6, n7, n8⟩ := NewBandOrLevel_start s hs
  have hinv := cycle_invariant (NewBandOrLevel s) (GetStepsCount s) n1 n2 n3 n4 n5 n6
  have hfr := cycle_frame (NewBandOrLevel s) (GetStepsCount s) n1 n2 n3 n4 n5 n6
  obtain ⟨i1, i2, i3, i4, i5, i6⟩ := hinv _ (le_refl _)
  obtain ⟨f1, f2, _, _⟩ := hfr _ (le_refl _)
  have hd : ScanDone (Update^[GetStepsCount s] (NewBandOrLevel s)) = true := by
    simp [ScanDone, i3, i4]
  have ht := Scan_tracks _ _ i6
  rw [← cycleSamples_succ] at ht
  have hA := afterPeakUpdate_idle _ i1
  have hfree : ¬ peakHeld
      { Scan (Update^[GetStepsCount s] (NewBandOrLevel s)) with redrawScreen := true } := by
    intro hh
    apply hh.1
    simp [f1, n7]
  have hrep := UpdatePeakInfo_replaced _ hfree
  have htrig : (afterPeakUpdate (Update^[GetStepsCount s] (NewBandOrLevel s))).settings.rssiTriggerLevel =
      (Scan (Update^[GetStepsCount s] (NewBandOrLevel s))).scanInfo.rssiMax := by
    rw [hA, hrep.2]
    simp [f2, n8]
  have hrssi : (afterPeakUpdate (Update^[GetStepsCount s] (NewBandOrLevel s))).peak.rssi =
      (Scan (Update^[GetStepsCount s] (NewBandOrLevel s))).scanInfo.rssiMax := by
    rw [hA, hrep.1]
    simp [cyclePeak]
  have hov : IsPeakOverLevel (afterPeakUpdate (Update^[GetStepsCount s] (NewBandOrLevel s)))
      = true := by
    simp [IsPeakOverLevel, hrssi, htrig]
  have hu := Update_boundary _ (Or.inl hd) (Or.inl i1)
  rw [if_pos hov] at hu
  refine ⟨n7, n8, n4, fun k hk => ?_, i5, by rw [ScanDone_Scan, hd], ht.1, htrig, hrssi, hov,
    ?_, ?_⟩
  · obtain ⟨j1, _, j3, _⟩ := hinv k hk
    exact ⟨j1, j3⟩
  · rw [Function.iterate_succ_apply', hu]
    simp [ToggleRX_isListening]
  · rw [Function.iterate_succ_apply', hu]

set_option maxRecDepth 8192 in
theorem first_sweep_acquires_witness :
    (exampleSpectrum.settings.isStillMode = false) ∧
    ((NewBandOrLevel exampleSpectrum).peak.f = 0 ∧ (NewBandOrLevel exampleSpectrum).settings.rssiTriggerLevel = 255 ∧
    (NewBandOrLevel exampleSpectrum).scanInfo.measurementsCount = GetStepsCount exampleSpectrum ∧
    (∀ k ≤ GetStepsCount exampleSpectrum,
      (Update^[k] (NewBandOrLevel exampleSpectrum)).isListening = false ∧
      (Update^[k] (NewBandOrLevel exampleSpectrum)).scanInfo.i = k) ∧
    (∀ k < GetStepsCount exampleSpectrum, ScanDone (Scan (Update^[k] (NewBandOrLevel exampleSpectrum))) = false) ∧
    ScanDone (Scan (Update^[GetStepsCount exampleSpectrum] (NewBandOrLevel exampleSpectrum))) = true ∧
    (Scan (Update^[GetStepsCount exampleSpectrum] (NewBandOrLevel exampleSpectrum))).scanInfo.rssiMax =
      maxRssi (cycleSamples (NewBandOrLevel exampleSpectrum) (GetStepsCount exampleSpectrum + 1)) ∧
    (afterPeakUpdate (Update^[GetStepsCount exampleSpectrum] (NewBandOrLevel exampleSpectrum))).settings.rssiTriggerLevel =
      (Scan (Update^[GetStepsCount exampleSpectrum] (NewBandOrLevel exampleSpectrum))).scanInfo.rssiMax ∧
    (afterPeakUpdate (Update^[GetStepsCount exampleSpectrum] (NewBandOrLevel exampleSpectrum))).peak.rssi =
      (Scan (Update^[GetStepsCount exampleSpectrum] (NewBandOrLevel exampleSpectrum))).scanInfo.rssiMax ∧
    IsPeakOverLevel (afterPeakUpdate (Update^[GetStepsCount exampleSpectrum] (NewBandOrLevel exampleSpectrum))) = true ∧
    (Update^[GetStepsCount exampleSpectrum + 1] (NewBandOrLevel exampleSpectrum)).isListening = true ∧
    (Update^[GetStepsCount exampleSpectrum + 1] (NewBandOrLevel exampleSpectrum)).listenT = 1000) :=
  ⟨by decide,
    first_sweep_acquires exampleSpectrum (by decide)⟩

theorem set_then_get (l : List Nat) (i a : Nat) (h : i < l.length) :
    (l.set i a)[i]? = some a := by
  simp [List.getElem?_set, h]

theorem boundary_tick_scan (s : Spectrum) (hs : s.settings.isStillMode = false) :
    (Update^[GetStepsCount s] (NewBandOrLevel s)).isListening = false ∧
    Update (Update^[GetStepsCount s] (NewBandOrLevel s)) =
      updateDecide (Scan (Update^[GetStepsCount s] (NewBandOrLevel s))) ∧
    (Update^[GetStepsCount s] (NewBandOrLevel s)).scanInfo.i = GetStepsCount s ∧
    (Update^[GetStepsCount s] (NewBandOrLevel s)).scanInfo.measurementsCount =
      GetStepsCount s ∧
    (Update^[GetStepsCount s] (NewBandOrLevel s)).rssiHistory.length =
      (NewBandOrLevel s).rssiHistory.length ∧
    (Update^[GetStepsCount s] (NewBandOrLevel s)).rssiHistory[GetStepsCount s]? =
      (NewBandOrLevel s).rssiHistory[GetStepsCount s]? := by
  obtain ⟨n1, n2, n3, n4, n5, n6, _, _⟩ := NewBandOrLevel_start s hs
  obtain ⟨i1, _, i3, i4, _, _⟩ :=
    cycle_invariant (NewBandOrLevel s) (GetStepsCount s) n1 n2 n3 n4 n5 n6 _ (le_refl _)
  obtain ⟨_, _, f3, f4⟩ :=
    cycle_frame (NewBandOrLevel s) (GetStepsCount s) n1 n2 n3 n4 n5 n6 _ (le_refl _)
  have h1 : (Scan (Update^[GetStepsCount s] (NewBandOrLevel s))).isListening = false := by
    simp [i1]
  refine ⟨i1, ?_, i3, i4, f3, f4 _ (le_refl _)⟩
  rw [Update_eq, if_neg (by simp [i1]), updatePrepare_idle _ i1, updateRestoreBW_idle _ h1]

set_option maxRecDepth 8192 in
/-- Claim C23 at its failing input.  With 128 bins selected, the 129th
`Update()` tick after `NewBandOrLevel()` is not listening and calls `Scan()`
with `scanInfo.i = 128 = scanInfo.measurementsCount`: the index is not below
the bin count and `rssiHistory[128]` lies outside the 128-entry array.  With
16 bins the 17th tick calls `Scan()` with `scanInfo.i = 16 = measurementsCount`
and the sample is taken: bin 16, which is not one of the bins `0 .. 15`, is
retuned to, measured and written to `rssiHistory[16]`.  For every bin
count the tick that follows the last bin calls `Scan()` with
`scanInfo.i = scanInfo.measurementsCount`, before `ScanDone()` is tested. -/
theorem boundary_tick_scans_past_last_bin :
    (∀ s : Spectrum, s.settings.isStillMode = false →
      (Update^[GetStepsCount s] (NewBandOrLevel s)).isListening = false ∧
      Update (Update^[GetStepsCount s] (NewBandOrLevel s)) =
        updateDecide (Scan (Update^[GetStepsCount s] (NewBandOrLevel s))) ∧
      (Update^[GetStepsCount s] (NewBandOrLevel s)).scanInfo.i =
        (Update^[GetStepsCount s] (NewBandOrLevel s)).scanInfo.measurementsCount) ∧
    GetStepsCount exampleFullSweep = 128 ∧
    (Update^[128] (NewBandOrLevel exampleFullSweep)).isListening = false ∧
    Update (Update^[128] (NewBandOrLevel exampleFullSweep)) =
      updateDecide (Scan (Update^[128] (NewBandOrLevel exampleFullSweep))) ∧
    (Update^[128] (NewBandOrLevel exampleFullSweep)).scanInfo.i = 128 ∧
    (Update^[128] (NewBandOrLevel exampleFullSweep)).scanInfo.measurementsCount = 128 ∧
    (Update^[128] (NewBandOrLevel exampleFullSweep)).rssiHistory.length = 128 ∧
    (Update^[128] (NewBandOrLevel exampleFullSweep)).rssiHistory[
      (Update^[128] (NewBandOrLevel exampleFullSweep)).scanInfo.i]? = none ∧
    GetStepsCount exampleCycle = 16 ∧
    (Update^[16] (NewBandOrLevel exampleCycle)).isListening = false ∧
    Update (Update^[16] (NewBandOrLevel exampleCycle)) =
      updateDecide (Scan (Update^[16] (NewBandOrLevel exampleCycle))) ∧
    (Update^[16] (NewBandOrLevel exampleCycle)).scanInfo.i = 16 ∧
    (Update^[16] (NewBandOrLevel exampleCycle)).scanInfo.measurementsCount = 16 ∧
    (Scan (Update^[16] (NewBandOrLevel exampleCycle))).fMeasure =
      (Update^[16] (NewBandOrLevel exampleCycle)).scanInfo.f ∧
    (Scan (Update^[16] (NewBandOrLevel exampleCycle))).rssiHistory[16]? =
      some (scanReading (Update^[16] (NewBandOrLevel exampleCycle))) := by
  have hF : GetStepsCount exampleFullSweep = 128 := by decide
  have hC : GetStepsCount exampleCycle = 16 := by decide
  have lF : (NewBandOrLevel exampleFullSweep).rssiHistory.length = 128 := by decide
  have lC : (NewBandOrLevel exampleCycle).rssiHistory.length = 128 := by decide
  have eC : (NewBandOrLevel exampleCycle).rssiHistory[16]? = some 0 := by decide
  have bF := boundary_tick_scan exampleFullSweep (by decide)
  have bC := boundary_tick_scan exampleCycle (by decide)
  rw [hF] at bF
  rw [hC] at bC
  obtain ⟨a1, a2, a3, a4, a5, _⟩ := bF
  obtain ⟨c1, c2, c3, c4, c5, c6⟩ := bC
  have hnb : (Update^[16] (NewBandOrLevel exampleCycle)).rssiHistory.getD
      (Update^[16] (NewBandOrLevel exampleCycle)).scanInfo.i 0 ≠ 255 := by
    rw [c3, List.getD_eq_getElem?_getD, c6, eC]
    decide
  obtain ⟨_, m2, m3⟩ := Scan_measured _ hnb
  refine ⟨fun s hs => ?_, hF, a1, a2, a3, a4, by rw [a5, lF], ?_, hC, c1, c2, c3, c4, m2, ?_⟩
  · obtain ⟨g1, g2, g3, g4, _, _⟩ := boundary_tick_scan s hs
    exact ⟨g1, g2, by rw [g3, g4]⟩
  · rw [a3]
    exact List.getElem?_eq_none (by rw [a5, lF])
  · rw [m3, c3]
    exact set_then_get _ _ _ (by rw [c5, lC]; decide)

/-! ## Re-arming while listening (claim C25) -/

theorem rearm_frequency (s : Spectrum) (hl : s.isListening = true) (ht : s.listenT = 0)
    (hb : s.rssiHistory.getD s.scanInfo.i 0 ≠ 255) (h0 : 0 < s.settings.rssiTriggerLevel)
    (hr : scanReading (updatePrepare s) ≥ s.settings.rssiTriggerLevel) :
    (Update s).isListening = true ∧ (Update s).listenT = 1000 ∧
    (Update s).peak.f = s.scanInfo.f ∧
    (Update s).settings.stillOffset = s.settings.stillOffset ∧
    (Update s).scanInfo.f =
      (((s.scanInfo.f : Int) + s.settings.stillOffset) % (U32 : Int)).toNat := by
  have hp := updatePrepare_listening s hl
  have hbP : (updatePrepare s).rssiHistory.getD (updatePrepare s).scanInfo.i 0 ≠ 255 := by
    rw [hp.1]; simpa using hb
  have hsc := Scan_measured (updatePrepare s) hbP
  have hpos : scanReading (updatePrepare s) > (updatePrepare s).scanInfo.rssiMax := by
    rw [hp.1]
    simp only []
    omega
  have hmax : (Scan (updatePrepare s)).scanInfo.rssiMax = scanReading (updatePrepare s) := by
    rw [hsc.1, if_pos hpos]
  have hfp : (Scan (updatePrepare s)).scanInfo.fPeak = s.scanInfo.f := by
    rw [hsc.1]
    simp only [if_pos hpos]
    rw [hp.1]
  have hfree : ¬ peakHeld
      { updateRestoreBW (Scan (updatePrepare s)) with redrawScreen := true } := by
    intro hh
    apply hh.1
    simp [hp.2]
  have hrep := UpdatePeakInfo_replaced _ hfree
  have hrssi : (afterPeakUpdate s).peak.rssi = scanReading (updatePrepare s) := by
    unfold afterPeakUpdate
    rw [hrep.1]
    simp [cyclePeak, hmax]
  have hpf : (afterPeakUpdate s).peak.f = s.scanInfo.f := by
    unfold afterPeakUpdate
    rw [hrep.1]
    simp [cyclePeak, hfp]
  have htrig : (afterPeakUpdate s).settings.rssiTriggerLevel ≤ scanReading (updatePrepare s) := by
    unfold afterPeakUpdate
    rw [hrep.2]
    split_ifs
    · simp [hmax]
    · simpa using hr
  have hov : IsPeakOverLevel (afterPeakUpdate s) = true := by
    simp [IsPeakOverLevel, hrssi]
    exact htrig
  have hu := Update_boundary s (Or.inr (Or.inl hl)) (Or.inr ht)
  rw [if_pos hov] at hu
  have hoff := (afterPeakUpdate_fields s).2.2.2.2.2.1
  have htp := TuneToPeak_tuned (afterPeakUpdate s)
  rw [hu]
  refine ⟨by simp [ToggleRX_isListening], rfl, ?_, ?_, ?_⟩
  · simp [htp.2.2.1, hpf]
  · simp [hoff]
  · simp only [ToggleRX_frame, htp.1]
    unfold GetPeakF
    rw [hpf, hoff]

set_option maxRecDepth 8192 in
/-- Claim C25 at its failing input.  Listening in still mode with
`stillOffset = 100`, tuned by `TuneToPeak()` to
`scanInfo.f = peak.f + stillOffset = 14600100`, listen timer expired, bin
not blacklisted, trigger level 100 and a re-measured RSSI of 120: the tick
stays LISTENING but retunes to 14600200.  `Update()` takes the tuned
frequency as the new `peak.f` and `TuneToPeak()` adds the offset once more:
in every such state the tuned frequency after the tick is the one before
plus `stillOffset` (in `uint32_t` arithmetic), the same only for offset 0. -/
theorem rearm_adds_still_offset :
    (∀ s : Spectrum, s.isListening = true → s.listenT = 0 →
      s.rssiHistory.getD s.scanInfo.i 0 ≠ 255 → 0 < s.settings.rssiTriggerLevel →
      scanReading (updatePrepare s) ≥ s.settings.rssiTriggerLevel →
      (Update s).isListening = true ∧ (Update s).peak.f = s.scanInfo.f ∧
      (Update s).scanInfo.f =
        (((s.scanInfo.f : Int) + s.settings.stillOffset) % (U32 : Int)).toNat) ∧
    exampleOffsetListen.isListening = true ∧ exampleOffsetListen.listenT = 0 ∧
    exampleOffsetListen.settings.stillOffset = 100 ∧
    exampleOffsetListen.settings.rssiTriggerLevel = 100 ∧
    exampleOffsetListen.rssiHistory.getD exampleOffsetListen.scanInfo.i 0 ≠ 255 ∧
    exampleOffsetListen.peak.f = 14600000 ∧
    exampleOffsetListen.scanInfo.f = 14600100 ∧
    GetPeakF exampleOffsetListen = exampleOffsetListen.scanInfo.f ∧
    exampleOffsetListen.fMeasure = exampleOffsetListen.scanInfo.f ∧
    scanReading (updatePrepare exampleOffsetListen) = 120 ∧
    (Update exampleOffsetListen).isListening = true ∧
    (Update exampleOffsetListen).listenT = 1000 ∧
    (Update exampleOffsetListen).peak.f = 14600100 ∧
    (Update exampleOffsetListen).settings.stillOffset = 100 ∧
    (Update exampleOffsetListen).scanInfo.f = 14600200 ∧
    (Update exampleOffsetListen).fMeasure = 14600200 ∧
    (Update exampleOffsetListen).scanInfo.f ≠ exampleOffsetListen.scanInfo.f := by
  refine ⟨fun s hl ht hb h0 hr => ?_, by decide⟩
  obtain ⟨r1, _, r3, _, r5⟩ := rearm_frequency s hl ht hb h0 hr
  exact ⟨r1, r3, r5⟩

/-! ## The reset of the cycle statistics (claim C16) -/

theorem cycleBoundary_tracks (s : Spectrum) (hl : s.isListening = false)
    (hs : s.settings.isStillMode = false) :
    tracksMaximum (cycleBoundary s)
      (cycleSamples (InitScan s) ((InitScan s).scanInfo.measurementsCount + 1)) := by
  have hsi := InitScan_scanInfo s hs
  have hm : (InitScan s).scanInfo.measurementsCount ≤ 255 := by
    rw [hsi]
    have : GetStepsCount s < 256 := Nat.mod_lt _ (by decide)
    simp only []
    omega
  obtain ⟨_, _, _, _, _, i6⟩ := cycle_invariant (InitScan s) _ (by simp [hl]) (by simp [hs])
    (by rw [hsi]) rfl hm (by rw [hsi]) _ (le_refl _)
  have ht := Scan_tracks _ _ i6
  rw [← cycleSamples_succ] at ht
  exact ht

/-- Claim C16, as amended.  After `InitScan()` outside still mode the
running maximum of the cycle is reset (`scanInfo.rssiMax = 0`, `iPeak = 0`,
`fPeak = 0`), so that the maximum read at the next cycle boundary (of a
sweep that is not listening) is the maximum of the samples of that cycle,
whatever it was before.  The running minimum `scanInfo.rssiMin` is not reset
by `InitScan()`: it keeps the value it had. -/
theorem init_scan_resets_maximum (s : Spectrum) (h : s.settings.isStillMode = false) :
    (InitScan s).scanInfo.rssiMax = 0 ∧
    (InitScan s).scanInfo.iPeak = 0 ∧ (InitScan s).scanInfo.fPeak = 0 ∧
    (s.isListening = false →
      (cycleBoundary s).scanInfo.rssiMax =
        maxRssi (cycleSamples (InitScan s) ((InitScan s).scanInfo.measurementsCount + 1))) ∧
    (InitScan s).scanInfo.rssiMin = s.scanInfo.rssiMin := by
  refine ⟨?_, ?_, ?_, fun hl => (cycleBoundary_tracks s hl h).1, ?_⟩ <;>
    rw [InitScan_scanInfo s h]

theorem init_scan_resets_maximum_witness :
    exampleMidSweep.settings.isStillMode = false ∧
    exampleMidSweep.scanInfo.rssiMax = 90 ∧ exampleMidSweep.isListening = false ∧
    ((InitScan exampleMidSweep).scanInfo.rssiMax = 0 ∧
    (InitScan exampleMidSweep).scanInfo.iPeak = 0 ∧
    (InitScan exampleMidSweep).scanInfo.fPeak = 0 ∧
    (exampleMidSweep.isListening = false →
      (cycleBoundary exampleMidSweep).scanInfo.rssiMax =
        maxRssi (cycleSamples (InitScan exampleMidSweep)
          ((InitScan exampleMidSweep).scanInfo.measurementsCount + 1))) ∧
    (InitScan exampleMidSweep).scanInfo.rssiMin = exampleMidSweep.scanInfo.rssiMin) :=
  ⟨by decide, by decide, by decide, init_scan_resets_maximum exampleMidSweep (by decide)⟩

/-- Claim C16 as stated fails.  From a sweep whose running minimum is 40,
`InitScan()` outside still mode leaves `scanInfo.rssiMin = 40`, not 255. -/
theorem init_scan_resets_maximum_counterexample :
    exampleMidSweep.settings.isStillMode = false ∧
    exampleMidSweep.scanInfo.rssiMin = 40 ∧
    (InitScan exampleMidSweep).scanInfo.rssiMin = 40 ∧
    (InitScan exampleMidSweep).scanInfo.rssiMin ≠ 255 := by
  decide

end SpectrumApp
